import Mathlib

/-!
Verification development for the core of the `wasm-tools` WebAssembly
toolchain: the WAT expression parser (`crates/wast/src/core/expr.rs`), the
instruction/opcode table generated by its `instructions!` macro, and the
byte-level entry point `Parser::parse_bytes` (`crates/wat/src/lib.rs`).

The Rust sources are embedded shallowly:
* the lexer's output is modelled as a list of tokens (`Tok`);
* the pull parser (`Parser`/`Cursor`) becomes explicit token-list passing;
* fallible code returns `Except` with the source's error message strings;
* machine integers become `Nat`/`Int` with the source's range checks.

Source spans, which the Rust code threads through every parse solely for
error positions and for the optional `instr_spans` tracking (disabled by
default and absent from every configuration considered here), are omitted.
Types defined outside the embedded files (`token.rs`, `types.rs`, the lexer
and the LEB128 encoder) are modelled from the specification and marked as
such in their doc comments.
-/

namespace Wast

/-- A lexed WAT token, the view of the lexer's output that
`ExpressionParser` consumes.  Modelled from the spec: the lexer itself
lives outside the embedded sources.  `kw` is a keyword token (note that
memory-argument suffixes such as `offset=8` lex as a single keyword
token), `id` is a `$`-identifier, `annot` an `(@name`-style annotation
opener's name, `str` a string literal's unescaped bytes, `int` an integer
literal (sign and magnitude). -/
inductive Tok where
  | lparen
  | rparen
  | kw (s : String)
  | id (s : String)
  | annot (s : String)
  | str (bytes : List Nat)
  | int (sign : Option Bool) (mag : Nat)
  | float (s : String)
deriving DecidableEq

/-- Parse errors carry only their message here; the source attaches spans. -/
abbrev PErr := String

/-- A `$`-identifier.  Modelled from the spec (`token.rs` is outside the
embedded sources). -/
abbrev Id := String

/-- An index: either a raw numeric index or a symbolic identifier to be
resolved later.  Modelled from the spec (`token.rs` is outside the
embedded sources); the source also carries a span, omitted here. -/
inductive Index where
  | num (n : Nat)
  | id (s : Id)
deriving DecidableEq

/-- A heap type: an abstract heap type named by its keyword, or a concrete
type index.  Modelled from the spec (`types.rs` is outside the embedded
sources). -/
inductive HeapType where
  | abs (name : String)
  | concrete (i : Index)
deriving DecidableEq

/-- A reference type: nullability plus a heap type.  Modelled from the
spec (`types.rs` is outside the embedded sources). -/
structure RefType where
  nullable : Bool
  heap : HeapType
deriving DecidableEq

/-- A value type.  Modelled from the spec (`types.rs` is outside the
embedded sources). -/
inductive ValType where
  | i32
  | i64
  | f32
  | f64
  | v128
  | ref (r : RefType)
deriving DecidableEq

/-- A function type: parameter and result value types.  Modelled from the
spec (`types.rs` is outside the embedded sources); parameter names are
dropped as in the source's `FunctionTypeNoNames`. -/
structure FunctionType where
  params : List ValType
  results : List ValType
deriving DecidableEq

/-- A type use: an optional `(type i)` reference plus an optional inline
signature.  Modelled from the spec (`types.rs` is outside the embedded
sources). -/
structure TypeUse where
  index : Option Index
  inline : Option FunctionType
deriving DecidableEq

/-- A `(@name "...")` annotation payload (the source's `NameAnnotation`;
shortened name).  Modelled from the spec (`token.rs` is outside the
embedded sources). -/
structure NameAnnot where
  name : List Nat
deriving DecidableEq

/-- Extra information associated with block-related instructions
(`expr.rs`): a label, an optional name annotation and the block's type. -/
structure BlockType where
  label : Option Id
  label_name : Option NameAnnot
  ty : TypeUse
deriving DecidableEq

/-- Extra information associated with the `br_table` instruction
(`expr.rs`). -/
structure BrTableIndices where
  labels : List Index
  default : Index
deriving DecidableEq

/-- Extra data associated with the `call_indirect` instruction
(`expr.rs`). -/
structure CallIndirect where
  table : Index
  ty : TypeUse
deriving DecidableEq

/-- Payload of the `select` instruction (`expr.rs`): `none` when no
`(result ...)` list was written, otherwise the concatenation of all the
written result types. -/
structure SelectTypes where
  tys : Option (List ValType)
deriving DecidableEq

/-- Payload for memory-related instructions (`expr.rs`): the actual (not
log-encoded) alignment, the byte offset, and the memory index. -/
structure MemArg where
  align : Nat
  offset : Nat
  memory : Index
deriving DecidableEq

/-- Payload for lane-related instructions (`expr.rs`). -/
structure LaneArg where
  lane : Nat
deriving DecidableEq

/-- Extra data for the `loadN_lane`/`storeN_lane` instructions
(`expr.rs`). -/
structure LoadOrStoreLane where
  memarg : MemArg
  lane : LaneArg
deriving DecidableEq

/-- Extra data for unary memory instructions (`expr.rs`). -/
structure MemoryArg where
  mem : Index
deriving DecidableEq

/-- Extra data for the `memory.init` instruction (`expr.rs`). -/
structure MemoryInit where
  data : Index
  mem : Index
deriving DecidableEq

/-- Extra data for the `memory.copy` instruction (`expr.rs`). -/
structure MemoryCopy where
  src : Index
  dst : Index
deriving DecidableEq

/-- Extra data for the `table.init` instruction (`expr.rs`). -/
structure TableInit where
  table : Index
  elem : Index
deriving DecidableEq

/-- Extra data for the `table.copy` instruction (`expr.rs`). -/
structure TableCopy where
  dst : Index
  src : Index
deriving DecidableEq

/-- Extra data for unary table instructions (`expr.rs`). -/
structure TableArg where
  dst : Index
deriving DecidableEq

/-- Extra data for the `struct.get`/`struct.set` instructions
(`expr.rs`). -/
structure StructAccess where
  struct : Index
  field : Index
deriving DecidableEq

/-- Extra data for the `array.fill` instruction (`expr.rs`). -/
structure ArrayFill where
  array : Index
deriving DecidableEq

/-- Extra data for the `array.copy` instruction (`expr.rs`). -/
structure ArrayCopy where
  dest_array : Index
  src_array : Index
deriving DecidableEq

/-- Extra data for the `array.init_data`/`array.init_elem` instructions
(`expr.rs`). -/
structure ArrayInit where
  array : Index
  segment : Index
deriving DecidableEq

/-- Extra data for the `array.new_fixed` instruction (`expr.rs`). -/
structure ArrayNewFixed where
  array : Index
  length : Nat
deriving DecidableEq

/-- Extra data for the `array.new_data` instruction (`expr.rs`). -/
structure ArrayNewData where
  array : Index
  data_idx : Index
deriving DecidableEq

/-- Extra data for the `array.new_elem` instruction (`expr.rs`). -/
structure ArrayNewElem where
  array : Index
  elem_idx : Index
deriving DecidableEq

/-- Extra data for the `ref.cast` instruction (`expr.rs`). -/
structure RefCast where
  type : RefType
deriving DecidableEq

/-- Extra data for the `ref.test` instruction (`expr.rs`). -/
structure RefTest where
  type : RefType
deriving DecidableEq

/-- Extra data for the `br_on_cast` instruction (`expr.rs`). -/
structure BrOnCast where
  label : Index
  from_type : RefType
  to_type : RefType
deriving DecidableEq

/-- Extra data for the `br_on_cast_fail` instruction (`expr.rs`). -/
structure BrOnCastFail where
  label : Index
  from_type : RefType
  to_type : RefType
deriving DecidableEq

/-- A 32-bit float transported as its bit pattern.  Modelled from the
spec (`token.rs` is outside the embedded sources). -/
structure F32 where
  bits : Nat
deriving DecidableEq

/-- A 64-bit float transported as its bit pattern.  Modelled from the
spec (`token.rs` is outside the embedded sources). -/
structure F64 where
  bits : Nat
deriving DecidableEq

/-- The six lane groupings of a `v128.const` payload (`expr.rs`). -/
inductive V128Const where
  | i8x16 (lanes : List Int)
  | i16x8 (lanes : List Int)
  | i32x4 (lanes : List Int)
  | i64x2 (lanes : List Int)
  | f32x4 (lanes : List F32)
  | f64x2 (lanes : List F64)
deriving DecidableEq

/-- Payload of the `i8x16.shuffle` instruction: sixteen lane indices.
Modelled from the spec (defined outside the embedded region of
`expr.rs`). -/
structure I8x16Shuffle where
  lanes : List Nat
deriving DecidableEq

/-- Extra information for the `cont.bind` instruction (`expr.rs`). -/
structure ContBind where
  argument_index : Index
  result_index : Index
deriving DecidableEq

/-- A resume-table entry (`expr.rs`): `(on $tag $label)` or
`(on $tag switch)`. -/
inductive Handle where
  | OnLabel (tag : Index) (label : Index)
  | OnSwitch (tag : Index)
deriving DecidableEq

/-- A resume table (`expr.rs`). -/
structure ResumeTable where
  handlers : List Handle
deriving DecidableEq

/-- Extra information for the `resume` instruction (`expr.rs`). -/
structure Resume where
  type_index : Index
  table : ResumeTable
deriving DecidableEq

/-- Extra information for the `resume_throw` instruction (`expr.rs`). -/
structure ResumeThrow where
  type_index : Index
  tag_index : Index
  table : ResumeTable
deriving DecidableEq

/-- Extra information for the `switch` instruction (`expr.rs`). -/
structure Switch where
  type_index : Index
  tag_index : Index
deriving DecidableEq

/-- The kind of one `try_table` catch clause (`expr.rs`). -/
inductive TryTableCatchKind where
  | Catch (tag : Index)
  | CatchRef (tag : Index)
  | CatchAll
  | CatchAllRef
deriving DecidableEq

/-- One `try_table` catch clause (`expr.rs`). -/
structure TryTableCatch where
  kind : TryTableCatchKind
  label : Index
deriving DecidableEq

/-- Payload of the `try_table` instruction (`expr.rs`). -/
structure TryTable where
  block : BlockType
  catches : List TryTableCatch
deriving DecidableEq

/-- The memory ordering for atomic instructions (`expr.rs`). -/
inductive Ordering where
  | AcqRel
  | SeqCst
deriving DecidableEq

/-- A memory ordering attached to another instruction argument
(`expr.rs`). -/
structure Ordered (T : Type) where
  ordering : Ordering
  inner : T
deriving DecidableEq

/-- The discriminant of the `Instruction` enum generated by the `instructions!` macro invocation in `expr.rs`: one value per row of the table, in source order. -/
inductive InstrTag where
  | Block
  | If
  | Else
  | Loop
  | End
  | Unreachable
  | Nop
  | Br
  | BrIf
  | BrTable
  | Return
  | Call
  | CallIndirect
  | ReturnCall
  | ReturnCallIndirect
  | CallRef
  | ReturnCallRef
  | Drop
  | Select
  | LocalGet
  | LocalSet
  | LocalTee
  | GlobalGet
  | GlobalSet
  | TableGet
  | TableSet
  | I32Load
  | I64Load
  | F32Load
  | F64Load
  | I32Load8s
  | I32Load8u
  | I32Load16s
  | I32Load16u
  | I64Load8s
  | I64Load8u
  | I64Load16s
  | I64Load16u
  | I64Load32s
  | I64Load32u
  | I32Store
  | I64Store
  | F32Store
  | F64Store
  | I32Store8
  | I32Store16
  | I64Store8
  | I64Store16
  | I64Store32
  | MemorySize
  | MemoryGrow
  | MemoryInit
  | MemoryCopy
  | MemoryFill
  | MemoryDiscard
  | DataDrop
  | ElemDrop
  | TableInit
  | TableCopy
  | TableFill
  | TableSize
  | TableGrow
  | RefNull
  | RefIsNull
  | RefFunc
  | RefAsNonNull
  | BrOnNull
  | BrOnNonNull
  | RefEq
  | StructNew
  | StructNewDefault
  | StructGet
  | StructGetS
  | StructGetU
  | StructSet
  | ArrayNew
  | ArrayNewDefault
  | ArrayNewFixed
  | ArrayNewData
  | ArrayNewElem
  | ArrayGet
  | ArrayGetS
  | ArrayGetU
  | ArraySet
  | ArrayLen
  | ArrayFill
  | ArrayCopy
  | ArrayInitData
  | ArrayInitElem
  | RefI31
  | I31GetS
  | I31GetU
  | RefTest
  | RefCast
  | BrOnCast
  | BrOnCastFail
  | AnyConvertExtern
  | ExternConvertAny
  | I32Const
  | I64Const
  | F32Const
  | F64Const
  | I32Clz
  | I32Ctz
  | I32Popcnt
  | I32Add
  | I32Sub
  | I32Mul
  | I32DivS
  | I32DivU
  | I32RemS
  | I32RemU
  | I32And
  | I32Or
  | I32Xor
  | I32Shl
  | I32ShrS
  | I32ShrU
  | I32Rotl
  | I32Rotr
  | I64Clz
  | I64Ctz
  | I64Popcnt
  | I64Add
  | I64Sub
  | I64Mul
  | I64DivS
  | I64DivU
  | I64RemS
  | I64RemU
  | I64And
  | I64Or
  | I64Xor
  | I64Shl
  | I64ShrS
  | I64ShrU
  | I64Rotl
  | I64Rotr
  | F32Abs
  | F32Neg
  | F32Ceil
  | F32Floor
  | F32Trunc
  | F32Nearest
  | F32Sqrt
  | F32Add
  | F32Sub
  | F32Mul
  | F32Div
  | F32Min
  | F32Max
  | F32Copysign
  | F64Abs
  | F64Neg
  | F64Ceil
  | F64Floor
  | F64Trunc
  | F64Nearest
  | F64Sqrt
  | F64Add
  | F64Sub
  | F64Mul
  | F64Div
  | F64Min
  | F64Max
  | F64Copysign
  | I32Eqz
  | I32Eq
  | I32Ne
  | I32LtS
  | I32LtU
  | I32GtS
  | I32GtU
  | I32LeS
  | I32LeU
  | I32GeS
  | I32GeU
  | I64Eqz
  | I64Eq
  | I64Ne
  | I64LtS
  | I64LtU
  | I64GtS
  | I64GtU
  | I64LeS
  | I64LeU
  | I64GeS
  | I64GeU
  | F32Eq
  | F32Ne
  | F32Lt
  | F32Gt
  | F32Le
  | F32Ge
  | F64Eq
  | F64Ne
  | F64Lt
  | F64Gt
  | F64Le
  | F64Ge
  | I32WrapI64
  | I32TruncF32S
  | I32TruncF32U
  | I32TruncF64S
  | I32TruncF64U
  | I64ExtendI32S
  | I64ExtendI32U
  | I64TruncF32S
  | I64TruncF32U
  | I64TruncF64S
  | I64TruncF64U
  | F32ConvertI32S
  | F32ConvertI32U
  | F32ConvertI64S
  | F32ConvertI64U
  | F32DemoteF64
  | F64ConvertI32S
  | F64ConvertI32U
  | F64ConvertI64S
  | F64ConvertI64U
  | F64PromoteF32
  | I32ReinterpretF32
  | I64ReinterpretF64
  | F32ReinterpretI32
  | F64ReinterpretI64
  | I32TruncSatF32S
  | I32TruncSatF32U
  | I32TruncSatF64S
  | I32TruncSatF64U
  | I64TruncSatF32S
  | I64TruncSatF32U
  | I64TruncSatF64S
  | I64TruncSatF64U
  | I32Extend8S
  | I32Extend16S
  | I64Extend8S
  | I64Extend16S
  | I64Extend32S
  | MemoryAtomicNotify
  | MemoryAtomicWait32
  | MemoryAtomicWait64
  | AtomicFence
  | I32AtomicLoad
  | I64AtomicLoad
  | I32AtomicLoad8u
  | I32AtomicLoad16u
  | I64AtomicLoad8u
  | I64AtomicLoad16u
  | I64AtomicLoad32u
  | I32AtomicStore
  | I64AtomicStore
  | I32AtomicStore8
  | I32AtomicStore16
  | I64AtomicStore8
  | I64AtomicStore16
  | I64AtomicStore32
  | I32AtomicRmwAdd
  | I64AtomicRmwAdd
  | I32AtomicRmw8AddU
  | I32AtomicRmw16AddU
  | I64AtomicRmw8AddU
  | I64AtomicRmw16AddU
  | I64AtomicRmw32AddU
  | I32AtomicRmwSub
  | I64AtomicRmwSub
  | I32AtomicRmw8SubU
  | I32AtomicRmw16SubU
  | I64AtomicRmw8SubU
  | I64AtomicRmw16SubU
  | I64AtomicRmw32SubU
  | I32AtomicRmwAnd
  | I64AtomicRmwAnd
  | I32AtomicRmw8AndU
  | I32AtomicRmw16AndU
  | I64AtomicRmw8AndU
  | I64AtomicRmw16AndU
  | I64AtomicRmw32AndU
  | I32AtomicRmwOr
  | I64AtomicRmwOr
  | I32AtomicRmw8OrU
  | I32AtomicRmw16OrU
  | I64AtomicRmw8OrU
  | I64AtomicRmw16OrU
  | I64AtomicRmw32OrU
  | I32AtomicRmwXor
  | I64AtomicRmwXor
  | I32AtomicRmw8XorU
  | I32AtomicRmw16XorU
  | I64AtomicRmw8XorU
  | I64AtomicRmw16XorU
  | I64AtomicRmw32XorU
  | I32AtomicRmwXchg
  | I64AtomicRmwXchg
  | I32AtomicRmw8XchgU
  | I32AtomicRmw16XchgU
  | I64AtomicRmw8XchgU
  | I64AtomicRmw16XchgU
  | I64AtomicRmw32XchgU
  | I32AtomicRmwCmpxchg
  | I64AtomicRmwCmpxchg
  | I32AtomicRmw8CmpxchgU
  | I32AtomicRmw16CmpxchgU
  | I64AtomicRmw8CmpxchgU
  | I64AtomicRmw16CmpxchgU
  | I64AtomicRmw32CmpxchgU
  | GlobalAtomicGet
  | GlobalAtomicSet
  | GlobalAtomicRmwAdd
  | GlobalAtomicRmwSub
  | GlobalAtomicRmwAnd
  | GlobalAtomicRmwOr
  | GlobalAtomicRmwXor
  | GlobalAtomicRmwXchg
  | GlobalAtomicRmwCmpxchg
  | TableAtomicGet
  | TableAtomicSet
  | TableAtomicRmwXchg
  | TableAtomicRmwCmpxchg
  | StructAtomicGet
  | StructAtomicGetS
  | StructAtomicGetU
  | StructAtomicSet
  | StructAtomicRmwAdd
  | StructAtomicRmwSub
  | StructAtomicRmwAnd
  | StructAtomicRmwOr
  | StructAtomicRmwXor
  | StructAtomicRmwXchg
  | StructAtomicRmwCmpxchg
  | ArrayAtomicGet
  | ArrayAtomicGetS
  | ArrayAtomicGetU
  | ArrayAtomicSet
  | ArrayAtomicRmwAdd
  | ArrayAtomicRmwSub
  | ArrayAtomicRmwAnd
  | ArrayAtomicRmwOr
  | ArrayAtomicRmwXor
  | ArrayAtomicRmwXchg
  | ArrayAtomicRmwCmpxchg
  | RefI31Shared
  | V128Load
  | V128Load8x8S
  | V128Load8x8U
  | V128Load16x4S
  | V128Load16x4U
  | V128Load32x2S
  | V128Load32x2U
  | V128Load8Splat
  | V128Load16Splat
  | V128Load32Splat
  | V128Load64Splat
  | V128Load32Zero
  | V128Load64Zero
  | V128Store
  | V128Load8Lane
  | V128Load16Lane
  | V128Load32Lane
  | V128Load64Lane
  | V128Store8Lane
  | V128Store16Lane
  | V128Store32Lane
  | V128Store64Lane
  | V128Const
  | I8x16Shuffle
  | I8x16ExtractLaneS
  | I8x16ExtractLaneU
  | I8x16ReplaceLane
  | I16x8ExtractLaneS
  | I16x8ExtractLaneU
  | I16x8ReplaceLane
  | I32x4ExtractLane
  | I32x4ReplaceLane
  | I64x2ExtractLane
  | I64x2ReplaceLane
  | F32x4ExtractLane
  | F32x4ReplaceLane
  | F64x2ExtractLane
  | F64x2ReplaceLane
  | I8x16Swizzle
  | I8x16Splat
  | I16x8Splat
  | I32x4Splat
  | I64x2Splat
  | F32x4Splat
  | F64x2Splat
  | I8x16Eq
  | I8x16Ne
  | I8x16LtS
  | I8x16LtU
  | I8x16GtS
  | I8x16GtU
  | I8x16LeS
  | I8x16LeU
  | I8x16GeS
  | I8x16GeU
  | I16x8Eq
  | I16x8Ne
  | I16x8LtS
  | I16x8LtU
  | I16x8GtS
  | I16x8GtU
  | I16x8LeS
  | I16x8LeU
  | I16x8GeS
  | I16x8GeU
  | I32x4Eq
  | I32x4Ne
  | I32x4LtS
  | I32x4LtU
  | I32x4GtS
  | I32x4GtU
  | I32x4LeS
  | I32x4LeU
  | I32x4GeS
  | I32x4GeU
  | I64x2Eq
  | I64x2Ne
  | I64x2LtS
  | I64x2GtS
  | I64x2LeS
  | I64x2GeS
  | F32x4Eq
  | F32x4Ne
  | F32x4Lt
  | F32x4Gt
  | F32x4Le
  | F32x4Ge
  | F64x2Eq
  | F64x2Ne
  | F64x2Lt
  | F64x2Gt
  | F64x2Le
  | F64x2Ge
  | V128Not
  | V128And
  | V128Andnot
  | V128Or
  | V128Xor
  | V128Bitselect
  | V128AnyTrue
  | I8x16Abs
  | I8x16Neg
  | I8x16Popcnt
  | I8x16AllTrue
  | I8x16Bitmask
  | I8x16NarrowI16x8S
  | I8x16NarrowI16x8U
  | I8x16Shl
  | I8x16ShrS
  | I8x16ShrU
  | I8x16Add
  | I8x16AddSatS
  | I8x16AddSatU
  | I8x16Sub
  | I8x16SubSatS
  | I8x16SubSatU
  | I8x16MinS
  | I8x16MinU
  | I8x16MaxS
  | I8x16MaxU
  | I8x16AvgrU
  | I16x8ExtAddPairwiseI8x16S
  | I16x8ExtAddPairwiseI8x16U
  | I16x8Abs
  | I16x8Neg
  | I16x8Q15MulrSatS
  | I16x8AllTrue
  | I16x8Bitmask
  | I16x8NarrowI32x4S
  | I16x8NarrowI32x4U
  | I16x8ExtendLowI8x16S
  | I16x8ExtendHighI8x16S
  | I16x8ExtendLowI8x16U
  | I16x8ExtendHighI8x16u
  | I16x8Shl
  | I16x8ShrS
  | I16x8ShrU
  | I16x8Add
  | I16x8AddSatS
  | I16x8AddSatU
  | I16x8Sub
  | I16x8SubSatS
  | I16x8SubSatU
  | I16x8Mul
  | I16x8MinS
  | I16x8MinU
  | I16x8MaxS
  | I16x8MaxU
  | I16x8AvgrU
  | I16x8ExtMulLowI8x16S
  | I16x8ExtMulHighI8x16S
  | I16x8ExtMulLowI8x16U
  | I16x8ExtMulHighI8x16U
  | I32x4ExtAddPairwiseI16x8S
  | I32x4ExtAddPairwiseI16x8U
  | I32x4Abs
  | I32x4Neg
  | I32x4AllTrue
  | I32x4Bitmask
  | I32x4ExtendLowI16x8S
  | I32x4ExtendHighI16x8S
  | I32x4ExtendLowI16x8U
  | I32x4ExtendHighI16x8U
  | I32x4Shl
  | I32x4ShrS
  | I32x4ShrU
  | I32x4Add
  | I32x4Sub
  | I32x4Mul
  | I32x4MinS
  | I32x4MinU
  | I32x4MaxS
  | I32x4MaxU
  | I32x4DotI16x8S
  | I32x4ExtMulLowI16x8S
  | I32x4ExtMulHighI16x8S
  | I32x4ExtMulLowI16x8U
  | I32x4ExtMulHighI16x8U
  | I64x2Abs
  | I64x2Neg
  | I64x2AllTrue
  | I64x2Bitmask
  | I64x2ExtendLowI32x4S
  | I64x2ExtendHighI32x4S
  | I64x2ExtendLowI32x4U
  | I64x2ExtendHighI32x4U
  | I64x2Shl
  | I64x2ShrS
  | I64x2ShrU
  | I64x2Add
  | I64x2Sub
  | I64x2Mul
  | I64x2ExtMulLowI32x4S
  | I64x2ExtMulHighI32x4S
  | I64x2ExtMulLowI32x4U
  | I64x2ExtMulHighI32x4U
  | F32x4Ceil
  | F32x4Floor
  | F32x4Trunc
  | F32x4Nearest
  | F32x4Abs
  | F32x4Neg
  | F32x4Sqrt
  | F32x4Add
  | F32x4Sub
  | F32x4Mul
  | F32x4Div
  | F32x4Min
  | F32x4Max
  | F32x4PMin
  | F32x4PMax
  | F64x2Ceil
  | F64x2Floor
  | F64x2Trunc
  | F64x2Nearest
  | F64x2Abs
  | F64x2Neg
  | F64x2Sqrt
  | F64x2Add
  | F64x2Sub
  | F64x2Mul
  | F64x2Div
  | F64x2Min
  | F64x2Max
  | F64x2PMin
  | F64x2PMax
  | I32x4TruncSatF32x4S
  | I32x4TruncSatF32x4U
  | F32x4ConvertI32x4S
  | F32x4ConvertI32x4U
  | I32x4TruncSatF64x2SZero
  | I32x4TruncSatF64x2UZero
  | F64x2ConvertLowI32x4S
  | F64x2ConvertLowI32x4U
  | F32x4DemoteF64x2Zero
  | F64x2PromoteLowF32x4
  | ThrowRef
  | TryTable
  | Throw
  | Try
  | Catch
  | Rethrow
  | Delegate
  | CatchAll
  | I8x16RelaxedSwizzle
  | I32x4RelaxedTruncF32x4S
  | I32x4RelaxedTruncF32x4U
  | I32x4RelaxedTruncF64x2SZero
  | I32x4RelaxedTruncF64x2UZero
  | F32x4RelaxedMadd
  | F32x4RelaxedNmadd
  | F64x2RelaxedMadd
  | F64x2RelaxedNmadd
  | I8x16RelaxedLaneselect
  | I16x8RelaxedLaneselect
  | I32x4RelaxedLaneselect
  | I64x2RelaxedLaneselect
  | F32x4RelaxedMin
  | F32x4RelaxedMax
  | F64x2RelaxedMin
  | F64x2RelaxedMax
  | I16x8RelaxedQ15mulrS
  | I16x8RelaxedDotI8x16I7x16S
  | I32x4RelaxedDotI8x16I7x16AddS
  | ContNew
  | ContBind
  | Suspend
  | Resume
  | ResumeThrow
  | Switch
  | I64Add128
  | I64Sub128
  | I64MulWideS
  | I64MulWideU
deriving DecidableEq

/-- The immediate payload carried by each row of the `instructions!` table (`Unit` for rows without a payload).  The `MemArg<n>`/`LoadOrStoreLane<n>` default-alignment parameters are parse-time arguments, recorded separately in `memArgDefaults`. -/
def instrPayload : InstrTag → Type
  | .Block => BlockType
  | .If => BlockType
  | .Else => Option Id
  | .Loop => BlockType
  | .End => Option Id
  | .Br => Index
  | .BrIf => Index
  | .BrTable => BrTableIndices
  | .Call => Index
  | .CallIndirect => CallIndirect
  | .ReturnCall => Index
  | .ReturnCallIndirect => CallIndirect
  | .CallRef => Index
  | .ReturnCallRef => Index
  | .Select => SelectTypes
  | .LocalGet => Index
  | .LocalSet => Index
  | .LocalTee => Index
  | .GlobalGet => Index
  | .GlobalSet => Index
  | .TableGet => TableArg
  | .TableSet => TableArg
  | .I32Load => MemArg
  | .I64Load => MemArg
  | .F32Load => MemArg
  | .F64Load => MemArg
  | .I32Load8s => MemArg
  | .I32Load8u => MemArg
  | .I32Load16s => MemArg
  | .I32Load16u => MemArg
  | .I64Load8s => MemArg
  | .I64Load8u => MemArg
  | .I64Load16s => MemArg
  | .I64Load16u => MemArg
  | .I64Load32s => MemArg
  | .I64Load32u => MemArg
  | .I32Store => MemArg
  | .I64Store => MemArg
  | .F32Store => MemArg
  | .F64Store => MemArg
  | .I32Store8 => MemArg
  | .I32Store16 => MemArg
  | .I64Store8 => MemArg
  | .I64Store16 => MemArg
  | .I64Store32 => MemArg
  | .MemorySize => MemoryArg
  | .MemoryGrow => MemoryArg
  | .MemoryInit => MemoryInit
  | .MemoryCopy => MemoryCopy
  | .MemoryFill => MemoryArg
  | .MemoryDiscard => MemoryArg
  | .DataDrop => Index
  | .ElemDrop => Index
  | .TableInit => TableInit
  | .TableCopy => TableCopy
  | .TableFill => TableArg
  | .TableSize => TableArg
  | .TableGrow => TableArg
  | .RefNull => HeapType
  | .RefFunc => Index
  | .BrOnNull => Index
  | .BrOnNonNull => Index
  | .StructNew => Index
  | .StructNewDefault => Index
  | .StructGet => StructAccess
  | .StructGetS => StructAccess
  | .StructGetU => StructAccess
  | .StructSet => StructAccess
  | .ArrayNew => Index
  | .ArrayNewDefault => Index
  | .ArrayNewFixed => ArrayNewFixed
  | .ArrayNewData => ArrayNewData
  | .ArrayNewElem => ArrayNewElem
  | .ArrayGet => Index
  | .ArrayGetS => Index
  | .ArrayGetU => Index
  | .ArraySet => Index
  | .ArrayFill => ArrayFill
  | .ArrayCopy => ArrayCopy
  | .ArrayInitData => ArrayInit
  | .ArrayInitElem => ArrayInit
  | .RefTest => RefTest
  | .RefCast => RefCast
  | .BrOnCast => BrOnCast
  | .BrOnCastFail => BrOnCastFail
  | .I32Const => Int
  | .I64Const => Int
  | .F32Const => F32
  | .F64Const => F64
  | .MemoryAtomicNotify => MemArg
  | .MemoryAtomicWait32 => MemArg
  | .MemoryAtomicWait64 => MemArg
  | .I32AtomicLoad => MemArg
  | .I64AtomicLoad => MemArg
  | .I32AtomicLoad8u => MemArg
  | .I32AtomicLoad16u => MemArg
  | .I64AtomicLoad8u => MemArg
  | .I64AtomicLoad16u => MemArg
  | .I64AtomicLoad32u => MemArg
  | .I32AtomicStore => MemArg
  | .I64AtomicStore => MemArg
  | .I32AtomicStore8 => MemArg
  | .I32AtomicStore16 => MemArg
  | .I64AtomicStore8 => MemArg
  | .I64AtomicStore16 => MemArg
  | .I64AtomicStore32 => MemArg
  | .I32AtomicRmwAdd => MemArg
  | .I64AtomicRmwAdd => MemArg
  | .I32AtomicRmw8AddU => MemArg
  | .I32AtomicRmw16AddU => MemArg
  | .I64AtomicRmw8AddU => MemArg
  | .I64AtomicRmw16AddU => MemArg
  | .I64AtomicRmw32AddU => MemArg
  | .I32AtomicRmwSub => MemArg
  | .I64AtomicRmwSub => MemArg
  | .I32AtomicRmw8SubU => MemArg
  | .I32AtomicRmw16SubU => MemArg
  | .I64AtomicRmw8SubU => MemArg
  | .I64AtomicRmw16SubU => MemArg
  | .I64AtomicRmw32SubU => MemArg
  | .I32AtomicRmwAnd => MemArg
  | .I64AtomicRmwAnd => MemArg
  | .I32AtomicRmw8AndU => MemArg
  | .I32AtomicRmw16AndU => MemArg
  | .I64AtomicRmw8AndU => MemArg
  | .I64AtomicRmw16AndU => MemArg
  | .I64AtomicRmw32AndU => MemArg
  | .I32AtomicRmwOr => MemArg
  | .I64AtomicRmwOr => MemArg
  | .I32AtomicRmw8OrU => MemArg
  | .I32AtomicRmw16OrU => MemArg
  | .I64AtomicRmw8OrU => MemArg
  | .I64AtomicRmw16OrU => MemArg
  | .I64AtomicRmw32OrU => MemArg
  | .I32AtomicRmwXor => MemArg
  | .I64AtomicRmwXor => MemArg
  | .I32AtomicRmw8XorU => MemArg
  | .I32AtomicRmw16XorU => MemArg
  | .I64AtomicRmw8XorU => MemArg
  | .I64AtomicRmw16XorU => MemArg
  | .I64AtomicRmw32XorU => MemArg
  | .I32AtomicRmwXchg => MemArg
  | .I64AtomicRmwXchg => MemArg
  | .I32AtomicRmw8XchgU => MemArg
  | .I32AtomicRmw16XchgU => MemArg
  | .I64AtomicRmw8XchgU => MemArg
  | .I64AtomicRmw16XchgU => MemArg
  | .I64AtomicRmw32XchgU => MemArg
  | .I32AtomicRmwCmpxchg => MemArg
  | .I64AtomicRmwCmpxchg => MemArg
  | .I32AtomicRmw8CmpxchgU => MemArg
  | .I32AtomicRmw16CmpxchgU => MemArg
  | .I64AtomicRmw8CmpxchgU => MemArg
  | .I64AtomicRmw16CmpxchgU => MemArg
  | .I64AtomicRmw32CmpxchgU => MemArg
  | .GlobalAtomicGet => Ordered Index
  | .GlobalAtomicSet => Ordered Index
  | .GlobalAtomicRmwAdd => Ordered Index
  | .GlobalAtomicRmwSub => Ordered Index
  | .GlobalAtomicRmwAnd => Ordered Index
  | .GlobalAtomicRmwOr => Ordered Index
  | .GlobalAtomicRmwXor => Ordered Index
  | .GlobalAtomicRmwXchg => Ordered Index
  | .GlobalAtomicRmwCmpxchg => Ordered Index
  | .TableAtomicGet => Ordered TableArg
  | .TableAtomicSet => Ordered TableArg
  | .TableAtomicRmwXchg => Ordered TableArg
  | .TableAtomicRmwCmpxchg => Ordered TableArg
  | .StructAtomicGet => Ordered StructAccess
  | .StructAtomicGetS => Ordered StructAccess
  | .StructAtomicGetU => Ordered StructAccess
  | .StructAtomicSet => Ordered StructAccess
  | .StructAtomicRmwAdd => Ordered StructAccess
  | .StructAtomicRmwSub => Ordered StructAccess
  | .StructAtomicRmwAnd => Ordered StructAccess
  | .StructAtomicRmwOr => Ordered StructAccess
  | .StructAtomicRmwXor => Ordered StructAccess
  | .StructAtomicRmwXchg => Ordered StructAccess
  | .StructAtomicRmwCmpxchg => Ordered StructAccess
  | .ArrayAtomicGet => Ordered Index
  | .ArrayAtomicGetS => Ordered Index
  | .ArrayAtomicGetU => Ordered Index
  | .ArrayAtomicSet => Ordered Index
  | .ArrayAtomicRmwAdd => Ordered Index
  | .ArrayAtomicRmwSub => Ordered Index
  | .ArrayAtomicRmwAnd => Ordered Index
  | .ArrayAtomicRmwOr => Ordered Index
  | .ArrayAtomicRmwXor => Ordered Index
  | .ArrayAtomicRmwXchg => Ordered Index
  | .ArrayAtomicRmwCmpxchg => Ordered Index
  | .V128Load => MemArg
  | .V128Load8x8S => MemArg
  | .V128Load8x8U => MemArg
  | .V128Load16x4S => MemArg
  | .V128Load16x4U => MemArg
  | .V128Load32x2S => MemArg
  | .V128Load32x2U => MemArg
  | .V128Load8Splat => MemArg
  | .V128Load16Splat => MemArg
  | .V128Load32Splat => MemArg
  | .V128Load64Splat => MemArg
  | .V128Load32Zero => MemArg
  | .V128Load64Zero => MemArg
  | .V128Store => MemArg
  | .V128Load8Lane => LoadOrStoreLane
  | .V128Load16Lane => LoadOrStoreLane
  | .V128Load32Lane => LoadOrStoreLane
  | .V128Load64Lane => LoadOrStoreLane
  | .V128Store8Lane => LoadOrStoreLane
  | .V128Store16Lane => LoadOrStoreLane
  | .V128Store32Lane => LoadOrStoreLane
  | .V128Store64Lane => LoadOrStoreLane
  | .V128Const => V128Const
  | .I8x16Shuffle => I8x16Shuffle
  | .I8x16ExtractLaneS => LaneArg
  | .I8x16ExtractLaneU => LaneArg
  | .I8x16ReplaceLane => LaneArg
  | .I16x8ExtractLaneS => LaneArg
  | .I16x8ExtractLaneU => LaneArg
  | .I16x8ReplaceLane => LaneArg
  | .I32x4ExtractLane => LaneArg
  | .I32x4ReplaceLane => LaneArg
  | .I64x2ExtractLane => LaneArg
  | .I64x2ReplaceLane => LaneArg
  | .F32x4ExtractLane => LaneArg
  | .F32x4ReplaceLane => LaneArg
  | .F64x2ExtractLane => LaneArg
  | .F64x2ReplaceLane => LaneArg
  | .TryTable => TryTable
  | .Throw => Index
  | .Try => BlockType
  | .Catch => Index
  | .Rethrow => Index
  | .Delegate => Index
  | .ContNew => Index
  | .ContBind => ContBind
  | .Suspend => Index
  | .Resume => Resume
  | .ResumeThrow => ResumeThrow
  | .Switch => Switch
  | _ => Unit

/-- One parsed instruction: a row of the `instructions!` enum together with its immediate payload.  (A flat 615-constructor inductive makes the auto-generated `noConfusion` machinery quadratic, so the Rust enum is embedded as discriminant + payload; the source-named constructors follow as definitions.) -/
structure Instruction where
  tag : InstrTag
  payload : instrPayload tag

def Instruction.Block (v : Wast.BlockType) : Instruction := ⟨InstrTag.Block, v⟩
def Instruction.If (v : Wast.BlockType) : Instruction := ⟨InstrTag.If, v⟩
def Instruction.Else (v : Option Wast.Id) : Instruction := ⟨InstrTag.Else, v⟩
def Instruction.Loop (v : Wast.BlockType) : Instruction := ⟨InstrTag.Loop, v⟩
def Instruction.End (v : Option Wast.Id) : Instruction := ⟨InstrTag.End, v⟩
def Instruction.Unreachable : Instruction := ⟨InstrTag.Unreachable, ()⟩
def Instruction.Nop : Instruction := ⟨InstrTag.Nop, ()⟩
def Instruction.Br (v : Wast.Index) : Instruction := ⟨InstrTag.Br, v⟩
def Instruction.BrIf (v : Wast.Index) : Instruction := ⟨InstrTag.BrIf, v⟩
def Instruction.BrTable (v : Wast.BrTableIndices) : Instruction := ⟨InstrTag.BrTable, v⟩
def Instruction.Return : Instruction := ⟨InstrTag.Return, ()⟩
def Instruction.Call (v : Wast.Index) : Instruction := ⟨InstrTag.Call, v⟩
def Instruction.CallIndirect (v : Wast.CallIndirect) : Instruction := ⟨InstrTag.CallIndirect, v⟩
def Instruction.ReturnCall (v : Wast.Index) : Instruction := ⟨InstrTag.ReturnCall, v⟩
def Instruction.ReturnCallIndirect (v : Wast.CallIndirect) : Instruction := ⟨InstrTag.ReturnCallIndirect, v⟩
def Instruction.CallRef (v : Wast.Index) : Instruction := ⟨InstrTag.CallRef, v⟩
def Instruction.ReturnCallRef (v : Wast.Index) : Instruction := ⟨InstrTag.ReturnCallRef, v⟩
def Instruction.Drop : Instruction := ⟨InstrTag.Drop, ()⟩
def Instruction.Select (v : Wast.SelectTypes) : Instruction := ⟨InstrTag.Select, v⟩
def Instruction.LocalGet (v : Wast.Index) : Instruction := ⟨InstrTag.LocalGet, v⟩
def Instruction.LocalSet (v : Wast.Index) : Instruction := ⟨InstrTag.LocalSet, v⟩
def Instruction.LocalTee (v : Wast.Index) : Instruction := ⟨InstrTag.LocalTee, v⟩
def Instruction.GlobalGet (v : Wast.Index) : Instruction := ⟨InstrTag.GlobalGet, v⟩
def Instruction.GlobalSet (v : Wast.Index) : Instruction := ⟨InstrTag.GlobalSet, v⟩
def Instruction.TableGet (v : Wast.TableArg) : Instruction := ⟨InstrTag.TableGet, v⟩
def Instruction.TableSet (v : Wast.TableArg) : Instruction := ⟨InstrTag.TableSet, v⟩
def Instruction.I32Load (v : Wast.MemArg) : Instruction := ⟨InstrTag.I32Load, v⟩
def Instruction.I64Load (v : Wast.MemArg) : Instruction := ⟨InstrTag.I64Load, v⟩
def Instruction.F32Load (v : Wast.MemArg) : Instruction := ⟨InstrTag.F32Load, v⟩
def Instruction.F64Load (v : Wast.MemArg) : Instruction := ⟨InstrTag.F64Load, v⟩
def Instruction.I32Load8s (v : Wast.MemArg) : Instruction := ⟨InstrTag.I32Load8s, v⟩
def Instruction.I32Load8u (v : Wast.MemArg) : Instruction := ⟨InstrTag.I32Load8u, v⟩
def Instruction.I32Load16s (v : Wast.MemArg) : Instruction := ⟨InstrTag.I32Load16s, v⟩
def Instruction.I32Load16u (v : Wast.MemArg) : Instruction := ⟨InstrTag.I32Load16u, v⟩
def Instruction.I64Load8s (v : Wast.MemArg) : Instruction := ⟨InstrTag.I64Load8s, v⟩
def Instruction.I64Load8u (v : Wast.MemArg) : Instruction := ⟨InstrTag.I64Load8u, v⟩
def Instruction.I64Load16s (v : Wast.MemArg) : Instruction := ⟨InstrTag.I64Load16s, v⟩
def Instruction.I64Load16u (v : Wast.MemArg) : Instruction := ⟨InstrTag.I64Load16u, v⟩
def Instruction.I64Load32s (v : Wast.MemArg) : Instruction := ⟨InstrTag.I64Load32s, v⟩
def Instruction.I64Load32u (v : Wast.MemArg) : Instruction := ⟨InstrTag.I64Load32u, v⟩
def Instruction.I32Store (v : Wast.MemArg) : Instruction := ⟨InstrTag.I32Store, v⟩
def Instruction.I64Store (v : Wast.MemArg) : Instruction := ⟨InstrTag.I64Store, v⟩
def Instruction.F32Store (v : Wast.MemArg) : Instruction := ⟨InstrTag.F32Store, v⟩
def Instruction.F64Store (v : Wast.MemArg) : Instruction := ⟨InstrTag.F64Store, v⟩
def Instruction.I32Store8 (v : Wast.MemArg) : Instruction := ⟨InstrTag.I32Store8, v⟩
def Instruction.I32Store16 (v : Wast.MemArg) : Instruction := ⟨InstrTag.I32Store16, v⟩
def Instruction.I64Store8 (v : Wast.MemArg) : Instruction := ⟨InstrTag.I64Store8, v⟩
def Instruction.I64Store16 (v : Wast.MemArg) : Instruction := ⟨InstrTag.I64Store16, v⟩
def Instruction.I64Store32 (v : Wast.MemArg) : Instruction := ⟨InstrTag.I64Store32, v⟩
def Instruction.MemorySize (v : Wast.MemoryArg) : Instruction := ⟨InstrTag.MemorySize, v⟩
def Instruction.MemoryGrow (v : Wast.MemoryArg) : Instruction := ⟨InstrTag.MemoryGrow, v⟩
def Instruction.MemoryInit (v : Wast.MemoryInit) : Instruction := ⟨InstrTag.MemoryInit, v⟩
def Instruction.MemoryCopy (v : Wast.MemoryCopy) : Instruction := ⟨InstrTag.MemoryCopy, v⟩
def Instruction.MemoryFill (v : Wast.MemoryArg) : Instruction := ⟨InstrTag.MemoryFill, v⟩
def Instruction.MemoryDiscard (v : Wast.MemoryArg) : Instruction := ⟨InstrTag.MemoryDiscard, v⟩
def Instruction.DataDrop (v : Wast.Index) : Instruction := ⟨InstrTag.DataDrop, v⟩
def Instruction.ElemDrop (v : Wast.Index) : Instruction := ⟨InstrTag.ElemDrop, v⟩
def Instruction.TableInit (v : Wast.TableInit) : Instruction := ⟨InstrTag.TableInit, v⟩
def Instruction.TableCopy (v : Wast.TableCopy) : Instruction := ⟨InstrTag.TableCopy, v⟩
def Instruction.TableFill (v : Wast.TableArg) : Instruction := ⟨InstrTag.TableFill, v⟩
def Instruction.TableSize (v : Wast.TableArg) : Instruction := ⟨InstrTag.TableSize, v⟩
def Instruction.TableGrow (v : Wast.TableArg) : Instruction := ⟨InstrTag.TableGrow, v⟩
def Instruction.RefNull (v : Wast.HeapType) : Instruction := ⟨InstrTag.RefNull, v⟩
def Instruction.RefIsNull : Instruction := ⟨InstrTag.RefIsNull, ()⟩
def Instruction.RefFunc (v : Wast.Index) : Instruction := ⟨InstrTag.RefFunc, v⟩
def Instruction.RefAsNonNull : Instruction := ⟨InstrTag.RefAsNonNull, ()⟩
def Instruction.BrOnNull (v : Wast.Index) : Instruction := ⟨InstrTag.BrOnNull, v⟩
def Instruction.BrOnNonNull (v : Wast.Index) : Instruction := ⟨InstrTag.BrOnNonNull, v⟩
def Instruction.RefEq : Instruction := ⟨InstrTag.RefEq, ()⟩
def Instruction.StructNew (v : Wast.Index) : Instruction := ⟨InstrTag.StructNew, v⟩
def Instruction.StructNewDefault (v : Wast.Index) : Instruction := ⟨InstrTag.StructNewDefault, v⟩
def Instruction.StructGet (v : Wast.StructAccess) : Instruction := ⟨InstrTag.StructGet, v⟩
def Instruction.StructGetS (v : Wast.StructAccess) : Instruction := ⟨InstrTag.StructGetS, v⟩
def Instruction.StructGetU (v : Wast.StructAccess) : Instruction := ⟨InstrTag.StructGetU, v⟩
def Instruction.StructSet (v : Wast.StructAccess) : Instruction := ⟨InstrTag.StructSet, v⟩
def Instruction.ArrayNew (v : Wast.Index) : Instruction := ⟨InstrTag.ArrayNew, v⟩
def Instruction.ArrayNewDefault (v : Wast.Index) : Instruction := ⟨InstrTag.ArrayNewDefault, v⟩
def Instruction.ArrayNewFixed (v : Wast.ArrayNewFixed) : Instruction := ⟨InstrTag.ArrayNewFixed, v⟩
def Instruction.ArrayNewData (v : Wast.ArrayNewData) : Instruction := ⟨InstrTag.ArrayNewData, v⟩
def Instruction.ArrayNewElem (v : Wast.ArrayNewElem) : Instruction := ⟨InstrTag.ArrayNewElem, v⟩
def Instruction.ArrayGet (v : Wast.Index) : Instruction := ⟨InstrTag.ArrayGet, v⟩
def Instruction.ArrayGetS (v : Wast.Index) : Instruction := ⟨InstrTag.ArrayGetS, v⟩
def Instruction.ArrayGetU (v : Wast.Index) : Instruction := ⟨InstrTag.ArrayGetU, v⟩
def Instruction.ArraySet (v : Wast.Index) : Instruction := ⟨InstrTag.ArraySet, v⟩
def Instruction.ArrayLen : Instruction := ⟨InstrTag.ArrayLen, ()⟩
def Instruction.ArrayFill (v : Wast.ArrayFill) : Instruction := ⟨InstrTag.ArrayFill, v⟩
def Instruction.ArrayCopy (v : Wast.ArrayCopy) : Instruction := ⟨InstrTag.ArrayCopy, v⟩
def Instruction.ArrayInitData (v : Wast.ArrayInit) : Instruction := ⟨InstrTag.ArrayInitData, v⟩
def Instruction.ArrayInitElem (v : Wast.ArrayInit) : Instruction := ⟨InstrTag.ArrayInitElem, v⟩
def Instruction.RefI31 : Instruction := ⟨InstrTag.RefI31, ()⟩
def Instruction.I31GetS : Instruction := ⟨InstrTag.I31GetS, ()⟩
def Instruction.I31GetU : Instruction := ⟨InstrTag.I31GetU, ()⟩
def Instruction.RefTest (v : Wast.RefTest) : Instruction := ⟨InstrTag.RefTest, v⟩
def Instruction.RefCast (v : Wast.RefCast) : Instruction := ⟨InstrTag.RefCast, v⟩
def Instruction.BrOnCast (v : Wast.BrOnCast) : Instruction := ⟨InstrTag.BrOnCast, v⟩
def Instruction.BrOnCastFail (v : Wast.BrOnCastFail) : Instruction := ⟨InstrTag.BrOnCastFail, v⟩
def Instruction.AnyConvertExtern : Instruction := ⟨InstrTag.AnyConvertExtern, ()⟩
def Instruction.ExternConvertAny : Instruction := ⟨InstrTag.ExternConvertAny, ()⟩
def Instruction.I32Const (v : Int) : Instruction := ⟨InstrTag.I32Const, v⟩
def Instruction.I64Const (v : Int) : Instruction := ⟨InstrTag.I64Const, v⟩
def Instruction.F32Const (v : Wast.F32) : Instruction := ⟨InstrTag.F32Const, v⟩
def Instruction.F64Const (v : Wast.F64) : Instruction := ⟨InstrTag.F64Const, v⟩
def Instruction.I32Clz : Instruction := ⟨InstrTag.I32Clz, ()⟩
def Instruction.I32Ctz : Instruction := ⟨InstrTag.I32Ctz, ()⟩
def Instruction.I32Popcnt : Instruction := ⟨InstrTag.I32Popcnt, ()⟩
def Instruction.I32Add : Instruction := ⟨InstrTag.I32Add, ()⟩
def Instruction.I32Sub : Instruction := ⟨InstrTag.I32Sub, ()⟩
def Instruction.I32Mul : Instruction := ⟨InstrTag.I32Mul, ()⟩
def Instruction.I32DivS : Instruction := ⟨InstrTag.I32DivS, ()⟩
def Instruction.I32DivU : Instruction := ⟨InstrTag.I32DivU, ()⟩
def Instruction.I32RemS : Instruction := ⟨InstrTag.I32RemS, ()⟩
def Instruction.I32RemU : Instruction := ⟨InstrTag.I32RemU, ()⟩
def Instruction.I32And : Instruction := ⟨InstrTag.I32And, ()⟩
def Instruction.I32Or : Instruction := ⟨InstrTag.I32Or, ()⟩
def Instruction.I32Xor : Instruction := ⟨InstrTag.I32Xor, ()⟩
def Instruction.I32Shl : Instruction := ⟨InstrTag.I32Shl, ()⟩
def Instruction.I32ShrS : Instruction := ⟨InstrTag.I32ShrS, ()⟩
def Instruction.I32ShrU : Instruction := ⟨InstrTag.I32ShrU, ()⟩
def Instruction.I32Rotl : Instruction := ⟨InstrTag.I32Rotl, ()⟩
def Instruction.I32Rotr : Instruction := ⟨InstrTag.I32Rotr, ()⟩
def Instruction.I64Clz : Instruction := ⟨InstrTag.I64Clz, ()⟩
def Instruction.I64Ctz : Instruction := ⟨InstrTag.I64Ctz, ()⟩
def Instruction.I64Popcnt : Instruction := ⟨InstrTag.I64Popcnt, ()⟩
def Instruction.I64Add : Instruction := ⟨InstrTag.I64Add, ()⟩
def Instruction.I64Sub : Instruction := ⟨InstrTag.I64Sub, ()⟩
def Instruction.I64Mul : Instruction := ⟨InstrTag.I64Mul, ()⟩
def Instruction.I64DivS : Instruction := ⟨InstrTag.I64DivS, ()⟩
def Instruction.I64DivU : Instruction := ⟨InstrTag.I64DivU, ()⟩
def Instruction.I64RemS : Instruction := ⟨InstrTag.I64RemS, ()⟩
def Instruction.I64RemU : Instruction := ⟨InstrTag.I64RemU, ()⟩
def Instruction.I64And : Instruction := ⟨InstrTag.I64And, ()⟩
def Instruction.I64Or : Instruction := ⟨InstrTag.I64Or, ()⟩
def Instruction.I64Xor : Instruction := ⟨InstrTag.I64Xor, ()⟩
def Instruction.I64Shl : Instruction := ⟨InstrTag.I64Shl, ()⟩
def Instruction.I64ShrS : Instruction := ⟨InstrTag.I64ShrS, ()⟩
def Instruction.I64ShrU : Instruction := ⟨InstrTag.I64ShrU, ()⟩
def Instruction.I64Rotl : Instruction := ⟨InstrTag.I64Rotl, ()⟩
def Instruction.I64Rotr : Instruction := ⟨InstrTag.I64Rotr, ()⟩
def Instruction.F32Abs : Instruction := ⟨InstrTag.F32Abs, ()⟩
def Instruction.F32Neg : Instruction := ⟨InstrTag.F32Neg, ()⟩
def Instruction.F32Ceil : Instruction := ⟨InstrTag.F32Ceil, ()⟩
def Instruction.F32Floor : Instruction := ⟨InstrTag.F32Floor, ()⟩
def Instruction.F32Trunc : Instruction := ⟨InstrTag.F32Trunc, ()⟩
def Instruction.F32Nearest : Instruction := ⟨InstrTag.F32Nearest, ()⟩
def Instruction.F32Sqrt : Instruction := ⟨InstrTag.F32Sqrt, ()⟩
def Instruction.F32Add : Instruction := ⟨InstrTag.F32Add, ()⟩
def Instruction.F32Sub : Instruction := ⟨InstrTag.F32Sub, ()⟩
def Instruction.F32Mul : Instruction := ⟨InstrTag.F32Mul, ()⟩
def Instruction.F32Div : Instruction := ⟨InstrTag.F32Div, ()⟩
def Instruction.F32Min : Instruction := ⟨InstrTag.F32Min, ()⟩
def Instruction.F32Max : Instruction := ⟨InstrTag.F32Max, ()⟩
def Instruction.F32Copysign : Instruction := ⟨InstrTag.F32Copysign, ()⟩
def Instruction.F64Abs : Instruction := ⟨InstrTag.F64Abs, ()⟩
def Instruction.F64Neg : Instruction := ⟨InstrTag.F64Neg, ()⟩
def Instruction.F64Ceil : Instruction := ⟨InstrTag.F64Ceil, ()⟩
def Instruction.F64Floor : Instruction := ⟨InstrTag.F64Floor, ()⟩
def Instruction.F64Trunc : Instruction := ⟨InstrTag.F64Trunc, ()⟩
def Instruction.F64Nearest : Instruction := ⟨InstrTag.F64Nearest, ()⟩
def Instruction.F64Sqrt : Instruction := ⟨InstrTag.F64Sqrt, ()⟩
def Instruction.F64Add : Instruction := ⟨InstrTag.F64Add, ()⟩
def Instruction.F64Sub : Instruction := ⟨InstrTag.F64Sub, ()⟩
def Instruction.F64Mul : Instruction := ⟨InstrTag.F64Mul, ()⟩
def Instruction.F64Div : Instruction := ⟨InstrTag.F64Div, ()⟩
def Instruction.F64Min : Instruction := ⟨InstrTag.F64Min, ()⟩
def Instruction.F64Max : Instruction := ⟨InstrTag.F64Max, ()⟩
def Instruction.F64Copysign : Instruction := ⟨InstrTag.F64Copysign, ()⟩
def Instruction.I32Eqz : Instruction := ⟨InstrTag.I32Eqz, ()⟩
def Instruction.I32Eq : Instruction := ⟨InstrTag.I32Eq, ()⟩
def Instruction.I32Ne : Instruction := ⟨InstrTag.I32Ne, ()⟩
def Instruction.I32LtS : Instruction := ⟨InstrTag.I32LtS, ()⟩
def Instruction.I32LtU : Instruction := ⟨InstrTag.I32LtU, ()⟩
def Instruction.I32GtS : Instruction := ⟨InstrTag.I32GtS, ()⟩
def Instruction.I32GtU : Instruction := ⟨InstrTag.I32GtU, ()⟩
def Instruction.I32LeS : Instruction := ⟨InstrTag.I32LeS, ()⟩
def Instruction.I32LeU : Instruction := ⟨InstrTag.I32LeU, ()⟩
def Instruction.I32GeS : Instruction := ⟨InstrTag.I32GeS, ()⟩
def Instruction.I32GeU : Instruction := ⟨InstrTag.I32GeU, ()⟩
def Instruction.I64Eqz : Instruction := ⟨InstrTag.I64Eqz, ()⟩
def Instruction.I64Eq : Instruction := ⟨InstrTag.I64Eq, ()⟩
def Instruction.I64Ne : Instruction := ⟨InstrTag.I64Ne, ()⟩
def Instruction.I64LtS : Instruction := ⟨InstrTag.I64LtS, ()⟩
def Instruction.I64LtU : Instruction := ⟨InstrTag.I64LtU, ()⟩
def Instruction.I64GtS : Instruction := ⟨InstrTag.I64GtS, ()⟩
def Instruction.I64GtU : Instruction := ⟨InstrTag.I64GtU, ()⟩
def Instruction.I64LeS : Instruction := ⟨InstrTag.I64LeS, ()⟩
def Instruction.I64LeU : Instruction := ⟨InstrTag.I64LeU, ()⟩
def Instruction.I64GeS : Instruction := ⟨InstrTag.I64GeS, ()⟩
def Instruction.I64GeU : Instruction := ⟨InstrTag.I64GeU, ()⟩
def Instruction.F32Eq : Instruction := ⟨InstrTag.F32Eq, ()⟩
def Instruction.F32Ne : Instruction := ⟨InstrTag.F32Ne, ()⟩
def Instruction.F32Lt : Instruction := ⟨InstrTag.F32Lt, ()⟩
def Instruction.F32Gt : Instruction := ⟨InstrTag.F32Gt, ()⟩
def Instruction.F32Le : Instruction := ⟨InstrTag.F32Le, ()⟩
def Instruction.F32Ge : Instruction := ⟨InstrTag.F32Ge, ()⟩
def Instruction.F64Eq : Instruction := ⟨InstrTag.F64Eq, ()⟩
def Instruction.F64Ne : Instruction := ⟨InstrTag.F64Ne, ()⟩
def Instruction.F64Lt : Instruction := ⟨InstrTag.F64Lt, ()⟩
def Instruction.F64Gt : Instruction := ⟨InstrTag.F64Gt, ()⟩
def Instruction.F64Le : Instruction := ⟨InstrTag.F64Le, ()⟩
def Instruction.F64Ge : Instruction := ⟨InstrTag.F64Ge, ()⟩
def Instruction.I32WrapI64 : Instruction := ⟨InstrTag.I32WrapI64, ()⟩
def Instruction.I32TruncF32S : Instruction := ⟨InstrTag.I32TruncF32S, ()⟩
def Instruction.I32TruncF32U : Instruction := ⟨InstrTag.I32TruncF32U, ()⟩
def Instruction.I32TruncF64S : Instruction := ⟨InstrTag.I32TruncF64S, ()⟩
def Instruction.I32TruncF64U : Instruction := ⟨InstrTag.I32TruncF64U, ()⟩
def Instruction.I64ExtendI32S : Instruction := ⟨InstrTag.I64ExtendI32S, ()⟩
def Instruction.I64ExtendI32U : Instruction := ⟨InstrTag.I64ExtendI32U, ()⟩
def Instruction.I64TruncF32S : Instruction := ⟨InstrTag.I64TruncF32S, ()⟩
def Instruction.I64TruncF32U : Instruction := ⟨InstrTag.I64TruncF32U, ()⟩
def Instruction.I64TruncF64S : Instruction := ⟨InstrTag.I64TruncF64S, ()⟩
def Instruction.I64TruncF64U : Instruction := ⟨InstrTag.I64TruncF64U, ()⟩
def Instruction.F32ConvertI32S : Instruction := ⟨InstrTag.F32ConvertI32S, ()⟩
def Instruction.F32ConvertI32U : Instruction := ⟨InstrTag.F32ConvertI32U, ()⟩
def Instruction.F32ConvertI64S : Instruction := ⟨InstrTag.F32ConvertI64S, ()⟩
def Instruction.F32ConvertI64U : Instruction := ⟨InstrTag.F32ConvertI64U, ()⟩
def Instruction.F32DemoteF64 : Instruction := ⟨InstrTag.F32DemoteF64, ()⟩
def Instruction.F64ConvertI32S : Instruction := ⟨InstrTag.F64ConvertI32S, ()⟩
def Instruction.F64ConvertI32U : Instruction := ⟨InstrTag.F64ConvertI32U, ()⟩
def Instruction.F64ConvertI64S : Instruction := ⟨InstrTag.F64ConvertI64S, ()⟩
def Instruction.F64ConvertI64U : Instruction := ⟨InstrTag.F64ConvertI64U, ()⟩
def Instruction.F64PromoteF32 : Instruction := ⟨InstrTag.F64PromoteF32, ()⟩
def Instruction.I32ReinterpretF32 : Instruction := ⟨InstrTag.I32ReinterpretF32, ()⟩
def Instruction.I64ReinterpretF64 : Instruction := ⟨InstrTag.I64ReinterpretF64, ()⟩
def Instruction.F32ReinterpretI32 : Instruction := ⟨InstrTag.F32ReinterpretI32, ()⟩
def Instruction.F64ReinterpretI64 : Instruction := ⟨InstrTag.F64ReinterpretI64, ()⟩
def Instruction.I32TruncSatF32S : Instruction := ⟨InstrTag.I32TruncSatF32S, ()⟩
def Instruction.I32TruncSatF32U : Instruction := ⟨InstrTag.I32TruncSatF32U, ()⟩
def Instruction.I32TruncSatF64S : Instruction := ⟨InstrTag.I32TruncSatF64S, ()⟩
def Instruction.I32TruncSatF64U : Instruction := ⟨InstrTag.I32TruncSatF64U, ()⟩
def Instruction.I64TruncSatF32S : Instruction := ⟨InstrTag.I64TruncSatF32S, ()⟩
def Instruction.I64TruncSatF32U : Instruction := ⟨InstrTag.I64TruncSatF32U, ()⟩
def Instruction.I64TruncSatF64S : Instruction := ⟨InstrTag.I64TruncSatF64S, ()⟩
def Instruction.I64TruncSatF64U : Instruction := ⟨InstrTag.I64TruncSatF64U, ()⟩
def Instruction.I32Extend8S : Instruction := ⟨InstrTag.I32Extend8S, ()⟩
def Instruction.I32Extend16S : Instruction := ⟨InstrTag.I32Extend16S, ()⟩
def Instruction.I64Extend8S : Instruction := ⟨InstrTag.I64Extend8S, ()⟩
def Instruction.I64Extend16S : Instruction := ⟨InstrTag.I64Extend16S, ()⟩
def Instruction.I64Extend32S : Instruction := ⟨InstrTag.I64Extend32S, ()⟩
def Instruction.MemoryAtomicNotify (v : Wast.MemArg) : Instruction := ⟨InstrTag.MemoryAtomicNotify, v⟩
def Instruction.MemoryAtomicWait32 (v : Wast.MemArg) : Instruction := ⟨InstrTag.MemoryAtomicWait32, v⟩
def Instruction.MemoryAtomicWait64 (v : Wast.MemArg) : Instruction := ⟨InstrTag.MemoryAtomicWait64, v⟩
def Instruction.AtomicFence : Instruction := ⟨InstrTag.AtomicFence, ()⟩
def Instruction.I32AtomicLoad (v : Wast.MemArg) : Instruction := ⟨InstrTag.I32AtomicLoad, v⟩
def Instruction.I64AtomicLoad (v : Wast.MemArg) : Instruction := ⟨InstrTag.I64AtomicLoad, v⟩
def Instruction.I32AtomicLoad8u (v : Wast.MemArg) : Instruction := ⟨InstrTag.I32AtomicLoad8u, v⟩
def Instruction.I32AtomicLoad16u (v : Wast.MemArg) : Instruction := ⟨InstrTag.I32AtomicLoad16u, v⟩
def Instruction.I64AtomicLoad8u (v : Wast.MemArg) : Instruction := ⟨InstrTag.I64AtomicLoad8u, v⟩
def Instruction.I64AtomicLoad16u (v : Wast.MemArg) : Instruction := ⟨InstrTag.I64AtomicLoad16u, v⟩
def Instruction.I64AtomicLoad32u (v : Wast.MemArg) : Instruction := ⟨InstrTag.I64AtomicLoad32u, v⟩
def Instruction.I32AtomicStore (v : Wast.MemArg) : Instruction := ⟨InstrTag.I32AtomicStore, v⟩
def Instruction.I64AtomicStore (v : Wast.MemArg) : Instruction := ⟨InstrTag.I64AtomicStore, v⟩
def Instruction.I32AtomicStore8 (v : Wast.MemArg) : Instruction := ⟨InstrTag.I32AtomicStore8, v⟩
def Instruction.I32AtomicStore16 (v : Wast.MemArg) : Instruction := ⟨InstrTag.I32AtomicStore16, v⟩
def Instruction.I64AtomicStore8 (v : Wast.MemArg) : Instruction := ⟨InstrTag.I64AtomicStore8, v⟩
def Instruction.I64AtomicStore16 (v : Wast.MemArg) : Instruction := ⟨InstrTag.I64AtomicStore16, v⟩
def Instruction.I64AtomicStore32 (v : Wast.MemArg) : Instruction := ⟨InstrTag.I64AtomicStore32, v⟩
def Instruction.I32AtomicRmwAdd (v : Wast.MemArg) : Instruction := ⟨InstrTag.I32AtomicRmwAdd, v⟩
def Instruction.I64AtomicRmwAdd (v : Wast.MemArg) : Instruction := ⟨InstrTag.I64AtomicRmwAdd, v⟩
def Instruction.I32AtomicRmw8AddU (v : Wast.MemArg) : Instruction := ⟨InstrTag.I32AtomicRmw8AddU, v⟩
def Instruction.I32AtomicRmw16AddU (v : Wast.MemArg) : Instruction := ⟨InstrTag.I32AtomicRmw16AddU, v⟩
def Instruction.I64AtomicRmw8AddU (v : Wast.MemArg) : Instruction := ⟨InstrTag.I64AtomicRmw8AddU, v⟩
def Instruction.I64AtomicRmw16AddU (v : Wast.MemArg) : Instruction := ⟨InstrTag.I64AtomicRmw16AddU, v⟩
def Instruction.I64AtomicRmw32AddU (v : Wast.MemArg) : Instruction := ⟨InstrTag.I64AtomicRmw32AddU, v⟩
def Instruction.I32AtomicRmwSub (v : Wast.MemArg) : Instruction := ⟨InstrTag.I32AtomicRmwSub, v⟩
def Instruction.I64AtomicRmwSub (v : Wast.MemArg) : Instruction := ⟨InstrTag.I64AtomicRmwSub, v⟩
def Instruction.I32AtomicRmw8SubU (v : Wast.MemArg) : Instruction := ⟨InstrTag.I32AtomicRmw8SubU, v⟩
def Instruction.I32AtomicRmw16SubU (v : Wast.MemArg) : Instruction := ⟨InstrTag.I32AtomicRmw16SubU, v⟩
def Instruction.I64AtomicRmw8SubU (v : Wast.MemArg) : Instruction := ⟨InstrTag.I64AtomicRmw8SubU, v⟩
def Instruction.I64AtomicRmw16SubU (v : Wast.MemArg) : Instruction := ⟨InstrTag.I64AtomicRmw16SubU, v⟩
def Instruction.I64AtomicRmw32SubU (v : Wast.MemArg) : Instruction := ⟨InstrTag.I64AtomicRmw32SubU, v⟩
def Instruction.I32AtomicRmwAnd (v : Wast.MemArg) : Instruction := ⟨InstrTag.I32AtomicRmwAnd, v⟩
def Instruction.I64AtomicRmwAnd (v : Wast.MemArg) : Instruction := ⟨InstrTag.I64AtomicRmwAnd, v⟩
def Instruction.I32AtomicRmw8AndU (v : Wast.MemArg) : Instruction := ⟨InstrTag.I32AtomicRmw8AndU, v⟩
def Instruction.I32AtomicRmw16AndU (v : Wast.MemArg) : Instruction := ⟨InstrTag.I32AtomicRmw16AndU, v⟩
def Instruction.I64AtomicRmw8AndU (v : Wast.MemArg) : Instruction := ⟨InstrTag.I64AtomicRmw8AndU, v⟩
def Instruction.I64AtomicRmw16AndU (v : Wast.MemArg) : Instruction := ⟨InstrTag.I64AtomicRmw16AndU, v⟩
def Instruction.I64AtomicRmw32AndU (v : Wast.MemArg) : Instruction := ⟨InstrTag.I64AtomicRmw32AndU, v⟩
def Instruction.I32AtomicRmwOr (v : Wast.MemArg) : Instruction := ⟨InstrTag.I32AtomicRmwOr, v⟩
def Instruction.I64AtomicRmwOr (v : Wast.MemArg) : Instruction := ⟨InstrTag.I64AtomicRmwOr, v⟩
def Instruction.I32AtomicRmw8OrU (v : Wast.MemArg) : Instruction := ⟨InstrTag.I32AtomicRmw8OrU, v⟩
def Instruction.I32AtomicRmw16OrU (v : Wast.MemArg) : Instruction := ⟨InstrTag.I32AtomicRmw16OrU, v⟩
def Instruction.I64AtomicRmw8OrU (v : Wast.MemArg) : Instruction := ⟨InstrTag.I64AtomicRmw8OrU, v⟩
def Instruction.I64AtomicRmw16OrU (v : Wast.MemArg) : Instruction := ⟨InstrTag.I64AtomicRmw16OrU, v⟩
def Instruction.I64AtomicRmw32OrU (v : Wast.MemArg) : Instruction := ⟨InstrTag.I64AtomicRmw32OrU, v⟩
def Instruction.I32AtomicRmwXor (v : Wast.MemArg) : Instruction := ⟨InstrTag.I32AtomicRmwXor, v⟩
def Instruction.I64AtomicRmwXor (v : Wast.MemArg) : Instruction := ⟨InstrTag.I64AtomicRmwXor, v⟩
def Instruction.I32AtomicRmw8XorU (v : Wast.MemArg) : Instruction := ⟨InstrTag.I32AtomicRmw8XorU, v⟩
def Instruction.I32AtomicRmw16XorU (v : Wast.MemArg) : Instruction := ⟨InstrTag.I32AtomicRmw16XorU, v⟩
def Instruction.I64AtomicRmw8XorU (v : Wast.MemArg) : Instruction := ⟨InstrTag.I64AtomicRmw8XorU, v⟩
def Instruction.I64AtomicRmw16XorU (v : Wast.MemArg) : Instruction := ⟨InstrTag.I64AtomicRmw16XorU, v⟩
def Instruction.I64AtomicRmw32XorU (v : Wast.MemArg) : Instruction := ⟨InstrTag.I64AtomicRmw32XorU, v⟩
def Instruction.I32AtomicRmwXchg (v : Wast.MemArg) : Instruction := ⟨InstrTag.I32AtomicRmwXchg, v⟩
def Instruction.I64AtomicRmwXchg (v : Wast.MemArg) : Instruction := ⟨InstrTag.I64AtomicRmwXchg, v⟩
def Instruction.I32AtomicRmw8XchgU (v : Wast.MemArg) : Instruction := ⟨InstrTag.I32AtomicRmw8XchgU, v⟩
def Instruction.I32AtomicRmw16XchgU (v : Wast.MemArg) : Instruction := ⟨InstrTag.I32AtomicRmw16XchgU, v⟩
def Instruction.I64AtomicRmw8XchgU (v : Wast.MemArg) : Instruction := ⟨InstrTag.I64AtomicRmw8XchgU, v⟩
def Instruction.I64AtomicRmw16XchgU (v : Wast.MemArg) : Instruction := ⟨InstrTag.I64AtomicRmw16XchgU, v⟩
def Instruction.I64AtomicRmw32XchgU (v : Wast.MemArg) : Instruction := ⟨InstrTag.I64AtomicRmw32XchgU, v⟩
def Instruction.I32AtomicRmwCmpxchg (v : Wast.MemArg) : Instruction := ⟨InstrTag.I32AtomicRmwCmpxchg, v⟩
def Instruction.I64AtomicRmwCmpxchg (v : Wast.MemArg) : Instruction := ⟨InstrTag.I64AtomicRmwCmpxchg, v⟩
def Instruction.I32AtomicRmw8CmpxchgU (v : Wast.MemArg) : Instruction := ⟨InstrTag.I32AtomicRmw8CmpxchgU, v⟩
def Instruction.I32AtomicRmw16CmpxchgU (v : Wast.MemArg) : Instruction := ⟨InstrTag.I32AtomicRmw16CmpxchgU, v⟩
def Instruction.I64AtomicRmw8CmpxchgU (v : Wast.MemArg) : Instruction := ⟨InstrTag.I64AtomicRmw8CmpxchgU, v⟩
def Instruction.I64AtomicRmw16CmpxchgU (v : Wast.MemArg) : Instruction := ⟨InstrTag.I64AtomicRmw16CmpxchgU, v⟩
def Instruction.I64AtomicRmw32CmpxchgU (v : Wast.MemArg) : Instruction := ⟨InstrTag.I64AtomicRmw32CmpxchgU, v⟩
def Instruction.GlobalAtomicGet (v : Wast.Ordered Wast.Index) : Instruction := ⟨InstrTag.GlobalAtomicGet, v⟩
def Instruction.GlobalAtomicSet (v : Wast.Ordered Wast.Index) : Instruction := ⟨InstrTag.GlobalAtomicSet, v⟩
def Instruction.GlobalAtomicRmwAdd (v : Wast.Ordered Wast.Index) : Instruction := ⟨InstrTag.GlobalAtomicRmwAdd, v⟩
def Instruction.GlobalAtomicRmwSub (v : Wast.Ordered Wast.Index) : Instruction := ⟨InstrTag.GlobalAtomicRmwSub, v⟩
def Instruction.GlobalAtomicRmwAnd (v : Wast.Ordered Wast.Index) : Instruction := ⟨InstrTag.GlobalAtomicRmwAnd, v⟩
def Instruction.GlobalAtomicRmwOr (v : Wast.Ordered Wast.Index) : Instruction := ⟨InstrTag.GlobalAtomicRmwOr, v⟩
def Instruction.GlobalAtomicRmwXor (v : Wast.Ordered Wast.Index) : Instruction := ⟨InstrTag.GlobalAtomicRmwXor, v⟩
def Instruction.GlobalAtomicRmwXchg (v : Wast.Ordered Wast.Index) : Instruction := ⟨InstrTag.GlobalAtomicRmwXchg, v⟩
def Instruction.GlobalAtomicRmwCmpxchg (v : Wast.Ordered Wast.Index) : Instruction := ⟨InstrTag.GlobalAtomicRmwCmpxchg, v⟩
def Instruction.TableAtomicGet (v : Wast.Ordered Wast.TableArg) : Instruction := ⟨InstrTag.TableAtomicGet, v⟩
def Instruction.TableAtomicSet (v : Wast.Ordered Wast.TableArg) : Instruction := ⟨InstrTag.TableAtomicSet, v⟩
def Instruction.TableAtomicRmwXchg (v : Wast.Ordered Wast.TableArg) : Instruction := ⟨InstrTag.TableAtomicRmwXchg, v⟩
def Instruction.TableAtomicRmwCmpxchg (v : Wast.Ordered Wast.TableArg) : Instruction := ⟨InstrTag.TableAtomicRmwCmpxchg, v⟩
def Instruction.StructAtomicGet (v : Wast.Ordered Wast.StructAccess) : Instruction := ⟨InstrTag.StructAtomicGet, v⟩
def Instruction.StructAtomicGetS (v : Wast.Ordered Wast.StructAccess) : Instruction := ⟨InstrTag.StructAtomicGetS, v⟩
def Instruction.StructAtomicGetU (v : Wast.Ordered Wast.StructAccess) : Instruction := ⟨InstrTag.StructAtomicGetU, v⟩
def Instruction.StructAtomicSet (v : Wast.Ordered Wast.StructAccess) : Instruction := ⟨InstrTag.StructAtomicSet, v⟩
def Instruction.StructAtomicRmwAdd (v : Wast.Ordered Wast.StructAccess) : Instruction := ⟨InstrTag.StructAtomicRmwAdd, v⟩
def Instruction.StructAtomicRmwSub (v : Wast.Ordered Wast.StructAccess) : Instruction := ⟨InstrTag.StructAtomicRmwSub, v⟩
def Instruction.StructAtomicRmwAnd (v : Wast.Ordered Wast.StructAccess) : Instruction := ⟨InstrTag.StructAtomicRmwAnd, v⟩
def Instruction.StructAtomicRmwOr (v : Wast.Ordered Wast.StructAccess) : Instruction := ⟨InstrTag.StructAtomicRmwOr, v⟩
def Instruction.StructAtomicRmwXor (v : Wast.Ordered Wast.StructAccess) : Instruction := ⟨InstrTag.StructAtomicRmwXor, v⟩
def Instruction.StructAtomicRmwXchg (v : Wast.Ordered Wast.StructAccess) : Instruction := ⟨InstrTag.StructAtomicRmwXchg, v⟩
def Instruction.StructAtomicRmwCmpxchg (v : Wast.Ordered Wast.StructAccess) : Instruction := ⟨InstrTag.StructAtomicRmwCmpxchg, v⟩
def Instruction.ArrayAtomicGet (v : Wast.Ordered Wast.Index) : Instruction := ⟨InstrTag.ArrayAtomicGet, v⟩
def Instruction.ArrayAtomicGetS (v : Wast.Ordered Wast.Index) : Instruction := ⟨InstrTag.ArrayAtomicGetS, v⟩
def Instruction.ArrayAtomicGetU (v : Wast.Ordered Wast.Index) : Instruction := ⟨InstrTag.ArrayAtomicGetU, v⟩
def Instruction.ArrayAtomicSet (v : Wast.Ordered Wast.Index) : Instruction := ⟨InstrTag.ArrayAtomicSet, v⟩
def Instruction.ArrayAtomicRmwAdd (v : Wast.Ordered Wast.Index) : Instruction := ⟨InstrTag.ArrayAtomicRmwAdd, v⟩
def Instruction.ArrayAtomicRmwSub (v : Wast.Ordered Wast.Index) : Instruction := ⟨InstrTag.ArrayAtomicRmwSub, v⟩
def Instruction.ArrayAtomicRmwAnd (v : Wast.Ordered Wast.Index) : Instruction := ⟨InstrTag.ArrayAtomicRmwAnd, v⟩
def Instruction.ArrayAtomicRmwOr (v : Wast.Ordered Wast.Index) : Instruction := ⟨InstrTag.ArrayAtomicRmwOr, v⟩
def Instruction.ArrayAtomicRmwXor (v : Wast.Ordered Wast.Index) : Instruction := ⟨InstrTag.ArrayAtomicRmwXor, v⟩
def Instruction.ArrayAtomicRmwXchg (v : Wast.Ordered Wast.Index) : Instruction := ⟨InstrTag.ArrayAtomicRmwXchg, v⟩
def Instruction.ArrayAtomicRmwCmpxchg (v : Wast.Ordered Wast.Index) : Instruction := ⟨InstrTag.ArrayAtomicRmwCmpxchg, v⟩
def Instruction.RefI31Shared : Instruction := ⟨InstrTag.RefI31Shared, ()⟩
def Instruction.V128Load (v : Wast.MemArg) : Instruction := ⟨InstrTag.V128Load, v⟩
def Instruction.V128Load8x8S (v : Wast.MemArg) : Instruction := ⟨InstrTag.V128Load8x8S, v⟩
def Instruction.V128Load8x8U (v : Wast.MemArg) : Instruction := ⟨InstrTag.V128Load8x8U, v⟩
def Instruction.V128Load16x4S (v : Wast.MemArg) : Instruction := ⟨InstrTag.V128Load16x4S, v⟩
def Instruction.V128Load16x4U (v : Wast.MemArg) : Instruction := ⟨InstrTag.V128Load16x4U, v⟩
def Instruction.V128Load32x2S (v : Wast.MemArg) : Instruction := ⟨InstrTag.V128Load32x2S, v⟩
def Instruction.V128Load32x2U (v : Wast.MemArg) : Instruction := ⟨InstrTag.V128Load32x2U, v⟩
def Instruction.V128Load8Splat (v : Wast.MemArg) : Instruction := ⟨InstrTag.V128Load8Splat, v⟩
def Instruction.V128Load16Splat (v : Wast.MemArg) : Instruction := ⟨InstrTag.V128Load16Splat, v⟩
def Instruction.V128Load32Splat (v : Wast.MemArg) : Instruction := ⟨InstrTag.V128Load32Splat, v⟩
def Instruction.V128Load64Splat (v : Wast.MemArg) : Instruction := ⟨InstrTag.V128Load64Splat, v⟩
def Instruction.V128Load32Zero (v : Wast.MemArg) : Instruction := ⟨InstrTag.V128Load32Zero, v⟩
def Instruction.V128Load64Zero (v : Wast.MemArg) : Instruction := ⟨InstrTag.V128Load64Zero, v⟩
def Instruction.V128Store (v : Wast.MemArg) : Instruction := ⟨InstrTag.V128Store, v⟩
def Instruction.V128Load8Lane (v : Wast.LoadOrStoreLane) : Instruction := ⟨InstrTag.V128Load8Lane, v⟩
def Instruction.V128Load16Lane (v : Wast.LoadOrStoreLane) : Instruction := ⟨InstrTag.V128Load16Lane, v⟩
def Instruction.V128Load32Lane (v : Wast.LoadOrStoreLane) : Instruction := ⟨InstrTag.V128Load32Lane, v⟩
def Instruction.V128Load64Lane (v : Wast.LoadOrStoreLane) : Instruction := ⟨InstrTag.V128Load64Lane, v⟩
def Instruction.V128Store8Lane (v : Wast.LoadOrStoreLane) : Instruction := ⟨InstrTag.V128Store8Lane, v⟩
def Instruction.V128Store16Lane (v : Wast.LoadOrStoreLane) : Instruction := ⟨InstrTag.V128Store16Lane, v⟩
def Instruction.V128Store32Lane (v : Wast.LoadOrStoreLane) : Instruction := ⟨InstrTag.V128Store32Lane, v⟩
def Instruction.V128Store64Lane (v : Wast.LoadOrStoreLane) : Instruction := ⟨InstrTag.V128Store64Lane, v⟩
def Instruction.V128Const (v : Wast.V128Const) : Instruction := ⟨InstrTag.V128Const, v⟩
def Instruction.I8x16Shuffle (v : Wast.I8x16Shuffle) : Instruction := ⟨InstrTag.I8x16Shuffle, v⟩
def Instruction.I8x16ExtractLaneS (v : Wast.LaneArg) : Instruction := ⟨InstrTag.I8x16ExtractLaneS, v⟩
def Instruction.I8x16ExtractLaneU (v : Wast.LaneArg) : Instruction := ⟨InstrTag.I8x16ExtractLaneU, v⟩
def Instruction.I8x16ReplaceLane (v : Wast.LaneArg) : Instruction := ⟨InstrTag.I8x16ReplaceLane, v⟩
def Instruction.I16x8ExtractLaneS (v : Wast.LaneArg) : Instruction := ⟨InstrTag.I16x8ExtractLaneS, v⟩
def Instruction.I16x8ExtractLaneU (v : Wast.LaneArg) : Instruction := ⟨InstrTag.I16x8ExtractLaneU, v⟩
def Instruction.I16x8ReplaceLane (v : Wast.LaneArg) : Instruction := ⟨InstrTag.I16x8ReplaceLane, v⟩
def Instruction.I32x4ExtractLane (v : Wast.LaneArg) : Instruction := ⟨InstrTag.I32x4ExtractLane, v⟩
def Instruction.I32x4ReplaceLane (v : Wast.LaneArg) : Instruction := ⟨InstrTag.I32x4ReplaceLane, v⟩
def Instruction.I64x2ExtractLane (v : Wast.LaneArg) : Instruction := ⟨InstrTag.I64x2ExtractLane, v⟩
def Instruction.I64x2ReplaceLane (v : Wast.LaneArg) : Instruction := ⟨InstrTag.I64x2ReplaceLane, v⟩
def Instruction.F32x4ExtractLane (v : Wast.LaneArg) : Instruction := ⟨InstrTag.F32x4ExtractLane, v⟩
def Instruction.F32x4ReplaceLane (v : Wast.LaneArg) : Instruction := ⟨InstrTag.F32x4ReplaceLane, v⟩
def Instruction.F64x2ExtractLane (v : Wast.LaneArg) : Instruction := ⟨InstrTag.F64x2ExtractLane, v⟩
def Instruction.F64x2ReplaceLane (v : Wast.LaneArg) : Instruction := ⟨InstrTag.F64x2ReplaceLane, v⟩
def Instruction.I8x16Swizzle : Instruction := ⟨InstrTag.I8x16Swizzle, ()⟩
def Instruction.I8x16Splat : Instruction := ⟨InstrTag.I8x16Splat, ()⟩
def Instruction.I16x8Splat : Instruction := ⟨InstrTag.I16x8Splat, ()⟩
def Instruction.I32x4Splat : Instruction := ⟨InstrTag.I32x4Splat, ()⟩
def Instruction.I64x2Splat : Instruction := ⟨InstrTag.I64x2Splat, ()⟩
def Instruction.F32x4Splat : Instruction := ⟨InstrTag.F32x4Splat, ()⟩
def Instruction.F64x2Splat : Instruction := ⟨InstrTag.F64x2Splat, ()⟩
def Instruction.I8x16Eq : Instruction := ⟨InstrTag.I8x16Eq, ()⟩
def Instruction.I8x16Ne : Instruction := ⟨InstrTag.I8x16Ne, ()⟩
def Instruction.I8x16LtS : Instruction := ⟨InstrTag.I8x16LtS, ()⟩
def Instruction.I8x16LtU : Instruction := ⟨InstrTag.I8x16LtU, ()⟩
def Instruction.I8x16GtS : Instruction := ⟨InstrTag.I8x16GtS, ()⟩
def Instruction.I8x16GtU : Instruction := ⟨InstrTag.I8x16GtU, ()⟩
def Instruction.I8x16LeS : Instruction := ⟨InstrTag.I8x16LeS, ()⟩
def Instruction.I8x16LeU : Instruction := ⟨InstrTag.I8x16LeU, ()⟩
def Instruction.I8x16GeS : Instruction := ⟨InstrTag.I8x16GeS, ()⟩
def Instruction.I8x16GeU : Instruction := ⟨InstrTag.I8x16GeU, ()⟩
def Instruction.I16x8Eq : Instruction := ⟨InstrTag.I16x8Eq, ()⟩
def Instruction.I16x8Ne : Instruction := ⟨InstrTag.I16x8Ne, ()⟩
def Instruction.I16x8LtS : Instruction := ⟨InstrTag.I16x8LtS, ()⟩
def Instruction.I16x8LtU : Instruction := ⟨InstrTag.I16x8LtU, ()⟩
def Instruction.I16x8GtS : Instruction := ⟨InstrTag.I16x8GtS, ()⟩
def Instruction.I16x8GtU : Instruction := ⟨InstrTag.I16x8GtU, ()⟩
def Instruction.I16x8LeS : Instruction := ⟨InstrTag.I16x8LeS, ()⟩
def Instruction.I16x8LeU : Instruction := ⟨InstrTag.I16x8LeU, ()⟩
def Instruction.I16x8GeS : Instruction := ⟨InstrTag.I16x8GeS, ()⟩
def Instruction.I16x8GeU : Instruction := ⟨InstrTag.I16x8GeU, ()⟩
def Instruction.I32x4Eq : Instruction := ⟨InstrTag.I32x4Eq, ()⟩
def Instruction.I32x4Ne : Instruction := ⟨InstrTag.I32x4Ne, ()⟩
def Instruction.I32x4LtS : Instruction := ⟨InstrTag.I32x4LtS, ()⟩
def Instruction.I32x4LtU : Instruction := ⟨InstrTag.I32x4LtU, ()⟩
def Instruction.I32x4GtS : Instruction := ⟨InstrTag.I32x4GtS, ()⟩
def Instruction.I32x4GtU : Instruction := ⟨InstrTag.I32x4GtU, ()⟩
def Instruction.I32x4LeS : Instruction := ⟨InstrTag.I32x4LeS, ()⟩
def Instruction.I32x4LeU : Instruction := ⟨InstrTag.I32x4LeU, ()⟩
def Instruction.I32x4GeS : Instruction := ⟨InstrTag.I32x4GeS, ()⟩
def Instruction.I32x4GeU : Instruction := ⟨InstrTag.I32x4GeU, ()⟩
def Instruction.I64x2Eq : Instruction := ⟨InstrTag.I64x2Eq, ()⟩
def Instruction.I64x2Ne : Instruction := ⟨InstrTag.I64x2Ne, ()⟩
def Instruction.I64x2LtS : Instruction := ⟨InstrTag.I64x2LtS, ()⟩
def Instruction.I64x2GtS : Instruction := ⟨InstrTag.I64x2GtS, ()⟩
def Instruction.I64x2LeS : Instruction := ⟨InstrTag.I64x2LeS, ()⟩
def Instruction.I64x2GeS : Instruction := ⟨InstrTag.I64x2GeS, ()⟩
def Instruction.F32x4Eq : Instruction := ⟨InstrTag.F32x4Eq, ()⟩
def Instruction.F32x4Ne : Instruction := ⟨InstrTag.F32x4Ne, ()⟩
def Instruction.F32x4Lt : Instruction := ⟨InstrTag.F32x4Lt, ()⟩
def Instruction.F32x4Gt : Instruction := ⟨InstrTag.F32x4Gt, ()⟩
def Instruction.F32x4Le : Instruction := ⟨InstrTag.F32x4Le, ()⟩
def Instruction.F32x4Ge : Instruction := ⟨InstrTag.F32x4Ge, ()⟩
def Instruction.F64x2Eq : Instruction := ⟨InstrTag.F64x2Eq, ()⟩
def Instruction.F64x2Ne : Instruction := ⟨InstrTag.F64x2Ne, ()⟩
def Instruction.F64x2Lt : Instruction := ⟨InstrTag.F64x2Lt, ()⟩
def Instruction.F64x2Gt : Instruction := ⟨InstrTag.F64x2Gt, ()⟩
def Instruction.F64x2Le : Instruction := ⟨InstrTag.F64x2Le, ()⟩
def Instruction.F64x2Ge : Instruction := ⟨InstrTag.F64x2Ge, ()⟩
def Instruction.V128Not : Instruction := ⟨InstrTag.V128Not, ()⟩
def Instruction.V128And : Instruction := ⟨InstrTag.V128And, ()⟩
def Instruction.V128Andnot : Instruction := ⟨InstrTag.V128Andnot, ()⟩
def Instruction.V128Or : Instruction := ⟨InstrTag.V128Or, ()⟩
def Instruction.V128Xor : Instruction := ⟨InstrTag.V128Xor, ()⟩
def Instruction.V128Bitselect : Instruction := ⟨InstrTag.V128Bitselect, ()⟩
def Instruction.V128AnyTrue : Instruction := ⟨InstrTag.V128AnyTrue, ()⟩
def Instruction.I8x16Abs : Instruction := ⟨InstrTag.I8x16Abs, ()⟩
def Instruction.I8x16Neg : Instruction := ⟨InstrTag.I8x16Neg, ()⟩
def Instruction.I8x16Popcnt : Instruction := ⟨InstrTag.I8x16Popcnt, ()⟩
def Instruction.I8x16AllTrue : Instruction := ⟨InstrTag.I8x16AllTrue, ()⟩
def Instruction.I8x16Bitmask : Instruction := ⟨InstrTag.I8x16Bitmask, ()⟩
def Instruction.I8x16NarrowI16x8S : Instruction := ⟨InstrTag.I8x16NarrowI16x8S, ()⟩
def Instruction.I8x16NarrowI16x8U : Instruction := ⟨InstrTag.I8x16NarrowI16x8U, ()⟩
def Instruction.I8x16Shl : Instruction := ⟨InstrTag.I8x16Shl, ()⟩
def Instruction.I8x16ShrS : Instruction := ⟨InstrTag.I8x16ShrS, ()⟩
def Instruction.I8x16ShrU : Instruction := ⟨InstrTag.I8x16ShrU, ()⟩
def Instruction.I8x16Add : Instruction := ⟨InstrTag.I8x16Add, ()⟩
def Instruction.I8x16AddSatS : Instruction := ⟨InstrTag.I8x16AddSatS, ()⟩
def Instruction.I8x16AddSatU : Instruction := ⟨InstrTag.I8x16AddSatU, ()⟩
def Instruction.I8x16Sub : Instruction := ⟨InstrTag.I8x16Sub, ()⟩
def Instruction.I8x16SubSatS : Instruction := ⟨InstrTag.I8x16SubSatS, ()⟩
def Instruction.I8x16SubSatU : Instruction := ⟨InstrTag.I8x16SubSatU, ()⟩
def Instruction.I8x16MinS : Instruction := ⟨InstrTag.I8x16MinS, ()⟩
def Instruction.I8x16MinU : Instruction := ⟨InstrTag.I8x16MinU, ()⟩
def Instruction.I8x16MaxS : Instruction := ⟨InstrTag.I8x16MaxS, ()⟩
def Instruction.I8x16MaxU : Instruction := ⟨InstrTag.I8x16MaxU, ()⟩
def Instruction.I8x16AvgrU : Instruction := ⟨InstrTag.I8x16AvgrU, ()⟩
def Instruction.I16x8ExtAddPairwiseI8x16S : Instruction := ⟨InstrTag.I16x8ExtAddPairwiseI8x16S, ()⟩
def Instruction.I16x8ExtAddPairwiseI8x16U : Instruction := ⟨InstrTag.I16x8ExtAddPairwiseI8x16U, ()⟩
def Instruction.I16x8Abs : Instruction := ⟨InstrTag.I16x8Abs, ()⟩
def Instruction.I16x8Neg : Instruction := ⟨InstrTag.I16x8Neg, ()⟩
def Instruction.I16x8Q15MulrSatS : Instruction := ⟨InstrTag.I16x8Q15MulrSatS, ()⟩
def Instruction.I16x8AllTrue : Instruction := ⟨InstrTag.I16x8AllTrue, ()⟩
def Instruction.I16x8Bitmask : Instruction := ⟨InstrTag.I16x8Bitmask, ()⟩
def Instruction.I16x8NarrowI32x4S : Instruction := ⟨InstrTag.I16x8NarrowI32x4S, ()⟩
def Instruction.I16x8NarrowI32x4U : Instruction := ⟨InstrTag.I16x8NarrowI32x4U, ()⟩
def Instruction.I16x8ExtendLowI8x16S : Instruction := ⟨InstrTag.I16x8ExtendLowI8x16S, ()⟩
def Instruction.I16x8ExtendHighI8x16S : Instruction := ⟨InstrTag.I16x8ExtendHighI8x16S, ()⟩
def Instruction.I16x8ExtendLowI8x16U : Instruction := ⟨InstrTag.I16x8ExtendLowI8x16U, ()⟩
def Instruction.I16x8ExtendHighI8x16u : Instruction := ⟨InstrTag.I16x8ExtendHighI8x16u, ()⟩
def Instruction.I16x8Shl : Instruction := ⟨InstrTag.I16x8Shl, ()⟩
def Instruction.I16x8ShrS : Instruction := ⟨InstrTag.I16x8ShrS, ()⟩
def Instruction.I16x8ShrU : Instruction := ⟨InstrTag.I16x8ShrU, ()⟩
def Instruction.I16x8Add : Instruction := ⟨InstrTag.I16x8Add, ()⟩
def Instruction.I16x8AddSatS : Instruction := ⟨InstrTag.I16x8AddSatS, ()⟩
def Instruction.I16x8AddSatU : Instruction := ⟨InstrTag.I16x8AddSatU, ()⟩
def Instruction.I16x8Sub : Instruction := ⟨InstrTag.I16x8Sub, ()⟩
def Instruction.I16x8SubSatS : Instruction := ⟨InstrTag.I16x8SubSatS, ()⟩
def Instruction.I16x8SubSatU : Instruction := ⟨InstrTag.I16x8SubSatU, ()⟩
def Instruction.I16x8Mul : Instruction := ⟨InstrTag.I16x8Mul, ()⟩
def Instruction.I16x8MinS : Instruction := ⟨InstrTag.I16x8MinS, ()⟩
def Instruction.I16x8MinU : Instruction := ⟨InstrTag.I16x8MinU, ()⟩
def Instruction.I16x8MaxS : Instruction := ⟨InstrTag.I16x8MaxS, ()⟩
def Instruction.I16x8MaxU : Instruction := ⟨InstrTag.I16x8MaxU, ()⟩
def Instruction.I16x8AvgrU : Instruction := ⟨InstrTag.I16x8AvgrU, ()⟩
def Instruction.I16x8ExtMulLowI8x16S : Instruction := ⟨InstrTag.I16x8ExtMulLowI8x16S, ()⟩
def Instruction.I16x8ExtMulHighI8x16S : Instruction := ⟨InstrTag.I16x8ExtMulHighI8x16S, ()⟩
def Instruction.I16x8ExtMulLowI8x16U : Instruction := ⟨InstrTag.I16x8ExtMulLowI8x16U, ()⟩
def Instruction.I16x8ExtMulHighI8x16U : Instruction := ⟨InstrTag.I16x8ExtMulHighI8x16U, ()⟩
def Instruction.I32x4ExtAddPairwiseI16x8S : Instruction := ⟨InstrTag.I32x4ExtAddPairwiseI16x8S, ()⟩
def Instruction.I32x4ExtAddPairwiseI16x8U : Instruction := ⟨InstrTag.I32x4ExtAddPairwiseI16x8U, ()⟩
def Instruction.I32x4Abs : Instruction := ⟨InstrTag.I32x4Abs, ()⟩
def Instruction.I32x4Neg : Instruction := ⟨InstrTag.I32x4Neg, ()⟩
def Instruction.I32x4AllTrue : Instruction := ⟨InstrTag.I32x4AllTrue, ()⟩
def Instruction.I32x4Bitmask : Instruction := ⟨InstrTag.I32x4Bitmask, ()⟩
def Instruction.I32x4ExtendLowI16x8S : Instruction := ⟨InstrTag.I32x4ExtendLowI16x8S, ()⟩
def Instruction.I32x4ExtendHighI16x8S : Instruction := ⟨InstrTag.I32x4ExtendHighI16x8S, ()⟩
def Instruction.I32x4ExtendLowI16x8U : Instruction := ⟨InstrTag.I32x4ExtendLowI16x8U, ()⟩
def Instruction.I32x4ExtendHighI16x8U : Instruction := ⟨InstrTag.I32x4ExtendHighI16x8U, ()⟩
def Instruction.I32x4Shl : Instruction := ⟨InstrTag.I32x4Shl, ()⟩
def Instruction.I32x4ShrS : Instruction := ⟨InstrTag.I32x4ShrS, ()⟩
def Instruction.I32x4ShrU : Instruction := ⟨InstrTag.I32x4ShrU, ()⟩
def Instruction.I32x4Add : Instruction := ⟨InstrTag.I32x4Add, ()⟩
def Instruction.I32x4Sub : Instruction := ⟨InstrTag.I32x4Sub, ()⟩
def Instruction.I32x4Mul : Instruction := ⟨InstrTag.I32x4Mul, ()⟩
def Instruction.I32x4MinS : Instruction := ⟨InstrTag.I32x4MinS, ()⟩
def Instruction.I32x4MinU : Instruction := ⟨InstrTag.I32x4MinU, ()⟩
def Instruction.I32x4MaxS : Instruction := ⟨InstrTag.I32x4MaxS, ()⟩
def Instruction.I32x4MaxU : Instruction := ⟨InstrTag.I32x4MaxU, ()⟩
def Instruction.I32x4DotI16x8S : Instruction := ⟨InstrTag.I32x4DotI16x8S, ()⟩
def Instruction.I32x4ExtMulLowI16x8S : Instruction := ⟨InstrTag.I32x4ExtMulLowI16x8S, ()⟩
def Instruction.I32x4ExtMulHighI16x8S : Instruction := ⟨InstrTag.I32x4ExtMulHighI16x8S, ()⟩
def Instruction.I32x4ExtMulLowI16x8U : Instruction := ⟨InstrTag.I32x4ExtMulLowI16x8U, ()⟩
def Instruction.I32x4ExtMulHighI16x8U : Instruction := ⟨InstrTag.I32x4ExtMulHighI16x8U, ()⟩
def Instruction.I64x2Abs : Instruction := ⟨InstrTag.I64x2Abs, ()⟩
def Instruction.I64x2Neg : Instruction := ⟨InstrTag.I64x2Neg, ()⟩
def Instruction.I64x2AllTrue : Instruction := ⟨InstrTag.I64x2AllTrue, ()⟩
def Instruction.I64x2Bitmask : Instruction := ⟨InstrTag.I64x2Bitmask, ()⟩
def Instruction.I64x2ExtendLowI32x4S : Instruction := ⟨InstrTag.I64x2ExtendLowI32x4S, ()⟩
def Instruction.I64x2ExtendHighI32x4S : Instruction := ⟨InstrTag.I64x2ExtendHighI32x4S, ()⟩
def Instruction.I64x2ExtendLowI32x4U : Instruction := ⟨InstrTag.I64x2ExtendLowI32x4U, ()⟩
def Instruction.I64x2ExtendHighI32x4U : Instruction := ⟨InstrTag.I64x2ExtendHighI32x4U, ()⟩
def Instruction.I64x2Shl : Instruction := ⟨InstrTag.I64x2Shl, ()⟩
def Instruction.I64x2ShrS : Instruction := ⟨InstrTag.I64x2ShrS, ()⟩
def Instruction.I64x2ShrU : Instruction := ⟨InstrTag.I64x2ShrU, ()⟩
def Instruction.I64x2Add : Instruction := ⟨InstrTag.I64x2Add, ()⟩
def Instruction.I64x2Sub : Instruction := ⟨InstrTag.I64x2Sub, ()⟩
def Instruction.I64x2Mul : Instruction := ⟨InstrTag.I64x2Mul, ()⟩
def Instruction.I64x2ExtMulLowI32x4S : Instruction := ⟨InstrTag.I64x2ExtMulLowI32x4S, ()⟩
def Instruction.I64x2ExtMulHighI32x4S : Instruction := ⟨InstrTag.I64x2ExtMulHighI32x4S, ()⟩
def Instruction.I64x2ExtMulLowI32x4U : Instruction := ⟨InstrTag.I64x2ExtMulLowI32x4U, ()⟩
def Instruction.I64x2ExtMulHighI32x4U : Instruction := ⟨InstrTag.I64x2ExtMulHighI32x4U, ()⟩
def Instruction.F32x4Ceil : Instruction := ⟨InstrTag.F32x4Ceil, ()⟩
def Instruction.F32x4Floor : Instruction := ⟨InstrTag.F32x4Floor, ()⟩
def Instruction.F32x4Trunc : Instruction := ⟨InstrTag.F32x4Trunc, ()⟩
def Instruction.F32x4Nearest : Instruction := ⟨InstrTag.F32x4Nearest, ()⟩
def Instruction.F32x4Abs : Instruction := ⟨InstrTag.F32x4Abs, ()⟩
def Instruction.F32x4Neg : Instruction := ⟨InstrTag.F32x4Neg, ()⟩
def Instruction.F32x4Sqrt : Instruction := ⟨InstrTag.F32x4Sqrt, ()⟩
def Instruction.F32x4Add : Instruction := ⟨InstrTag.F32x4Add, ()⟩
def Instruction.F32x4Sub : Instruction := ⟨InstrTag.F32x4Sub, ()⟩
def Instruction.F32x4Mul : Instruction := ⟨InstrTag.F32x4Mul, ()⟩
def Instruction.F32x4Div : Instruction := ⟨InstrTag.F32x4Div, ()⟩
def Instruction.F32x4Min : Instruction := ⟨InstrTag.F32x4Min, ()⟩
def Instruction.F32x4Max : Instruction := ⟨InstrTag.F32x4Max, ()⟩
def Instruction.F32x4PMin : Instruction := ⟨InstrTag.F32x4PMin, ()⟩
def Instruction.F32x4PMax : Instruction := ⟨InstrTag.F32x4PMax, ()⟩
def Instruction.F64x2Ceil : Instruction := ⟨InstrTag.F64x2Ceil, ()⟩
def Instruction.F64x2Floor : Instruction := ⟨InstrTag.F64x2Floor, ()⟩
def Instruction.F64x2Trunc : Instruction := ⟨InstrTag.F64x2Trunc, ()⟩
def Instruction.F64x2Nearest : Instruction := ⟨InstrTag.F64x2Nearest, ()⟩
def Instruction.F64x2Abs : Instruction := ⟨InstrTag.F64x2Abs, ()⟩
def Instruction.F64x2Neg : Instruction := ⟨InstrTag.F64x2Neg, ()⟩
def Instruction.F64x2Sqrt : Instruction := ⟨InstrTag.F64x2Sqrt, ()⟩
def Instruction.F64x2Add : Instruction := ⟨InstrTag.F64x2Add, ()⟩
def Instruction.F64x2Sub : Instruction := ⟨InstrTag.F64x2Sub, ()⟩
def Instruction.F64x2Mul : Instruction := ⟨InstrTag.F64x2Mul, ()⟩
def Instruction.F64x2Div : Instruction := ⟨InstrTag.F64x2Div, ()⟩
def Instruction.F64x2Min : Instruction := ⟨InstrTag.F64x2Min, ()⟩
def Instruction.F64x2Max : Instruction := ⟨InstrTag.F64x2Max, ()⟩
def Instruction.F64x2PMin : Instruction := ⟨InstrTag.F64x2PMin, ()⟩
def Instruction.F64x2PMax : Instruction := ⟨InstrTag.F64x2PMax, ()⟩
def Instruction.I32x4TruncSatF32x4S : Instruction := ⟨InstrTag.I32x4TruncSatF32x4S, ()⟩
def Instruction.I32x4TruncSatF32x4U : Instruction := ⟨InstrTag.I32x4TruncSatF32x4U, ()⟩
def Instruction.F32x4ConvertI32x4S : Instruction := ⟨InstrTag.F32x4ConvertI32x4S, ()⟩
def Instruction.F32x4ConvertI32x4U : Instruction := ⟨InstrTag.F32x4ConvertI32x4U, ()⟩
def Instruction.I32x4TruncSatF64x2SZero : Instruction := ⟨InstrTag.I32x4TruncSatF64x2SZero, ()⟩
def Instruction.I32x4TruncSatF64x2UZero : Instruction := ⟨InstrTag.I32x4TruncSatF64x2UZero, ()⟩
def Instruction.F64x2ConvertLowI32x4S : Instruction := ⟨InstrTag.F64x2ConvertLowI32x4S, ()⟩
def Instruction.F64x2ConvertLowI32x4U : Instruction := ⟨InstrTag.F64x2ConvertLowI32x4U, ()⟩
def Instruction.F32x4DemoteF64x2Zero : Instruction := ⟨InstrTag.F32x4DemoteF64x2Zero, ()⟩
def Instruction.F64x2PromoteLowF32x4 : Instruction := ⟨InstrTag.F64x2PromoteLowF32x4, ()⟩
def Instruction.ThrowRef : Instruction := ⟨InstrTag.ThrowRef, ()⟩
def Instruction.TryTable (v : Wast.TryTable) : Instruction := ⟨InstrTag.TryTable, v⟩
def Instruction.Throw (v : Wast.Index) : Instruction := ⟨InstrTag.Throw, v⟩
def Instruction.Try (v : Wast.BlockType) : Instruction := ⟨InstrTag.Try, v⟩
def Instruction.Catch (v : Wast.Index) : Instruction := ⟨InstrTag.Catch, v⟩
def Instruction.Rethrow (v : Wast.Index) : Instruction := ⟨InstrTag.Rethrow, v⟩
def Instruction.Delegate (v : Wast.Index) : Instruction := ⟨InstrTag.Delegate, v⟩
def Instruction.CatchAll : Instruction := ⟨InstrTag.CatchAll, ()⟩
def Instruction.I8x16RelaxedSwizzle : Instruction := ⟨InstrTag.I8x16RelaxedSwizzle, ()⟩
def Instruction.I32x4RelaxedTruncF32x4S : Instruction := ⟨InstrTag.I32x4RelaxedTruncF32x4S, ()⟩
def Instruction.I32x4RelaxedTruncF32x4U : Instruction := ⟨InstrTag.I32x4RelaxedTruncF32x4U, ()⟩
def Instruction.I32x4RelaxedTruncF64x2SZero : Instruction := ⟨InstrTag.I32x4RelaxedTruncF64x2SZero, ()⟩
def Instruction.I32x4RelaxedTruncF64x2UZero : Instruction := ⟨InstrTag.I32x4RelaxedTruncF64x2UZero, ()⟩
def Instruction.F32x4RelaxedMadd : Instruction := ⟨InstrTag.F32x4RelaxedMadd, ()⟩
def Instruction.F32x4RelaxedNmadd : Instruction := ⟨InstrTag.F32x4RelaxedNmadd, ()⟩
def Instruction.F64x2RelaxedMadd : Instruction := ⟨InstrTag.F64x2RelaxedMadd, ()⟩
def Instruction.F64x2RelaxedNmadd : Instruction := ⟨InstrTag.F64x2RelaxedNmadd, ()⟩
def Instruction.I8x16RelaxedLaneselect : Instruction := ⟨InstrTag.I8x16RelaxedLaneselect, ()⟩
def Instruction.I16x8RelaxedLaneselect : Instruction := ⟨InstrTag.I16x8RelaxedLaneselect, ()⟩
def Instruction.I32x4RelaxedLaneselect : Instruction := ⟨InstrTag.I32x4RelaxedLaneselect, ()⟩
def Instruction.I64x2RelaxedLaneselect : Instruction := ⟨InstrTag.I64x2RelaxedLaneselect, ()⟩
def Instruction.F32x4RelaxedMin : Instruction := ⟨InstrTag.F32x4RelaxedMin, ()⟩
def Instruction.F32x4RelaxedMax : Instruction := ⟨InstrTag.F32x4RelaxedMax, ()⟩
def Instruction.F64x2RelaxedMin : Instruction := ⟨InstrTag.F64x2RelaxedMin, ()⟩
def Instruction.F64x2RelaxedMax : Instruction := ⟨InstrTag.F64x2RelaxedMax, ()⟩
def Instruction.I16x8RelaxedQ15mulrS : Instruction := ⟨InstrTag.I16x8RelaxedQ15mulrS, ()⟩
def Instruction.I16x8RelaxedDotI8x16I7x16S : Instruction := ⟨InstrTag.I16x8RelaxedDotI8x16I7x16S, ()⟩
def Instruction.I32x4RelaxedDotI8x16I7x16AddS : Instruction := ⟨InstrTag.I32x4RelaxedDotI8x16I7x16AddS, ()⟩
def Instruction.ContNew (v : Wast.Index) : Instruction := ⟨InstrTag.ContNew, v⟩
def Instruction.ContBind (v : Wast.ContBind) : Instruction := ⟨InstrTag.ContBind, v⟩
def Instruction.Suspend (v : Wast.Index) : Instruction := ⟨InstrTag.Suspend, v⟩
def Instruction.Resume (v : Wast.Resume) : Instruction := ⟨InstrTag.Resume, v⟩
def Instruction.ResumeThrow (v : Wast.ResumeThrow) : Instruction := ⟨InstrTag.ResumeThrow, v⟩
def Instruction.Switch (v : Wast.Switch) : Instruction := ⟨InstrTag.Switch, v⟩
def Instruction.I64Add128 : Instruction := ⟨InstrTag.I64Add128, ()⟩
def Instruction.I64Sub128 : Instruction := ⟨InstrTag.I64Sub128, ()⟩
def Instruction.I64MulWideS : Instruction := ⟨InstrTag.I64MulWideS, ()⟩
def Instruction.I64MulWideU : Instruction := ⟨InstrTag.I64MulWideU, ()⟩

/-- The source's `Instruction::needs_data_count` (`expr.rs`): whether this instruction
forces the encoder to emit a `datacount` section. -/
def Instruction.needs_data_count (i : Instruction) : Bool :=
  match i.tag with
  | InstrTag.MemoryInit | InstrTag.DataDrop
  | InstrTag.ArrayNewData | InstrTag.ArrayInitData => true
  | _ => false

/-- Worker for the LEB128 encoder, with an explicit fuel argument for
structural recursion; `n + 1` fuel always suffices since each step
divides by `0x80`. -/
def uleb128Aux : Nat → Nat → List Nat
  | 0, n => [n % 0x80]
  | Nat.succ fuel, n =>
      if n < 0x80 then [n] else (n % 0x80 + 0x80) :: uleb128Aux fuel (n / 0x80)

/-- LEB128 encoding of an unsigned 32-bit integer, least-significant
group first, with a continuation bit on every byte except the last.
Modelled from the spec: the `Encode` impl for `u32` lives outside the
embedded sources. -/
def uleb128u32 (n : Nat) : List Nat := uleb128Aux (n + 1) n

/-- The binary emission rule of the `instructions!` macro (`expr.rs`):
a binary descriptor of exactly the two tokens `0xfd, sub` pushes `0xfd`
and then the sub-opcode as a LEB128 `u32`; any other descriptor is
emitted as its literal bytes. -/
def encodeOpcode : List Nat → List Nat
  | [0xfd, sub] => 0xfd :: uleb128u32 sub
  | bytes => bytes

/-- The opcode table rows of the `instructions!` macro invocation in `expr.rs`: (variant name, text mnemonic, binary descriptor bytes). -/
def instrTable : List (String × String × List Nat) := [
  ( "Block", "block", [0x02]),
  ( "If", "if", [0x04]),
  ( "Else", "else", [0x05]),
  ( "Loop", "loop", [0x03]),
  ( "End", "end", [0x0b]),
  ( "Unreachable", "unreachable", [0x00]),
  ( "Nop", "nop", [0x01]),
  ( "Br", "br", [0x0c]),
  ( "BrIf", "br_if", [0x0d]),
  ( "BrTable", "br_table", [0x0e]),
  ( "Return", "return", [0x0f]),
  ( "Call", "call", [0x10]),
  ( "CallIndirect", "call_indirect", [0x11]),
  ( "ReturnCall", "return_call", [0x12]),
  ( "ReturnCallIndirect", "return_call_indirect", [0x13]),
  ( "CallRef", "call_ref", [0x14]),
  ( "ReturnCallRef", "return_call_ref", [0x15]),
  ( "Drop", "drop", [0x1a]),
  ( "Select", "select", []),
  ( "LocalGet", "local.get", [0x20]),
  ( "LocalSet", "local.set", [0x21]),
  ( "LocalTee", "local.tee", [0x22]),
  ( "GlobalGet", "global.get", [0x23]),
  ( "GlobalSet", "global.set", [0x24]),
  ( "TableGet", "table.get", [0x25]),
  ( "TableSet", "table.set", [0x26]),
  ( "I32Load", "i32.load", [0x28]),
  ( "I64Load", "i64.load", [0x29]),
  ( "F32Load", "f32.load", [0x2a]),
  ( "F64Load", "f64.load", [0x2b]),
  ( "I32Load8s", "i32.load8_s", [0x2c]),
  ( "I32Load8u", "i32.load8_u", [0x2d]),
  ( "I32Load16s", "i32.load16_s", [0x2e]),
  ( "I32Load16u", "i32.load16_u", [0x2f]),
  ( "I64Load8s", "i64.load8_s", [0x30]),
  ( "I64Load8u", "i64.load8_u", [0x31]),
  ( "I64Load16s", "i64.load16_s", [0x32]),
  ( "I64Load16u", "i64.load16_u", [0x33]),
  ( "I64Load32s", "i64.load32_s", [0x34]),
  ( "I64Load32u", "i64.load32_u", [0x35]),
  ( "I32Store", "i32.store", [0x36]),
  ( "I64Store", "i64.store", [0x37]),
  ( "F32Store", "f32.store", [0x38]),
  ( "F64Store", "f64.store", [0x39]),
  ( "I32Store8", "i32.store8", [0x3a]),
  ( "I32Store16", "i32.store16", [0x3b]),
  ( "I64Store8", "i64.store8", [0x3c]),
  ( "I64Store16", "i64.store16", [0x3d]),
  ( "I64Store32", "i64.store32", [0x3e]),
  ( "MemorySize", "memory.size", [0x3f]),
  ( "MemoryGrow", "memory.grow", [0x40]),
  ( "MemoryInit", "memory.init", [0xfc, 0x08]),
  ( "MemoryCopy", "memory.copy", [0xfc, 0x0a]),
  ( "MemoryFill", "memory.fill", [0xfc, 0x0b]),
  ( "MemoryDiscard", "memory.discard", [0xfc, 0x12]),
  ( "DataDrop", "data.drop", [0xfc, 0x09]),
  ( "ElemDrop", "elem.drop", [0xfc, 0x0d]),
  ( "TableInit", "table.init", [0xfc, 0x0c]),
  ( "TableCopy", "table.copy", [0xfc, 0x0e]),
  ( "TableFill", "table.fill", [0xfc, 0x11]),
  ( "TableSize", "table.size", [0xfc, 0x10]),
  ( "TableGrow", "table.grow", [0xfc, 0x0f]),
  ( "RefNull", "ref.null", [0xd0]),
  ( "RefIsNull", "ref.is_null", [0xd1]),
  ( "RefFunc", "ref.func", [0xd2]),
  ( "RefAsNonNull", "ref.as_non_null", [0xd4]),
  ( "BrOnNull", "br_on_null", [0xd5]),
  ( "BrOnNonNull", "br_on_non_null", [0xd6]),
  ( "RefEq", "ref.eq", [0xd3]),
  ( "StructNew", "struct.new", [0xfb, 0x00]),
  ( "StructNewDefault", "struct.new_default", [0xfb, 0x01]),
  ( "StructGet", "struct.get", [0xfb, 0x02]),
  ( "StructGetS", "struct.get_s", [0xfb, 0x03]),
  ( "StructGetU", "struct.get_u", [0xfb, 0x04]),
  ( "StructSet", "struct.set", [0xfb, 0x05]),
  ( "ArrayNew", "array.new", [0xfb, 0x06]),
  ( "ArrayNewDefault", "array.new_default", [0xfb, 0x07]),
  ( "ArrayNewFixed", "array.new_fixed", [0xfb, 0x08]),
  ( "ArrayNewData", "array.new_data", [0xfb, 0x09]),
  ( "ArrayNewElem", "array.new_elem", [0xfb, 0x0a]),
  ( "ArrayGet", "array.get", [0xfb, 0x0b]),
  ( "ArrayGetS", "array.get_s", [0xfb, 0x0c]),
  ( "ArrayGetU", "array.get_u", [0xfb, 0x0d]),
  ( "ArraySet", "array.set", [0xfb, 0x0e]),
  ( "ArrayLen", "array.len", [0xfb, 0x0f]),
  ( "ArrayFill", "array.fill", [0xfb, 0x10]),
  ( "ArrayCopy", "array.copy", [0xfb, 0x11]),
  ( "ArrayInitData", "array.init_data", [0xfb, 0x12]),
  ( "ArrayInitElem", "array.init_elem", [0xfb, 0x13]),
  ( "RefI31", "ref.i31", [0xfb, 0x1c]),
  ( "I31GetS", "i31.get_s", [0xfb, 0x1d]),
  ( "I31GetU", "i31.get_u", [0xfb, 0x1e]),
  ( "RefTest", "ref.test", []),
  ( "RefCast", "ref.cast", []),
  ( "BrOnCast", "br_on_cast", []),
  ( "BrOnCastFail", "br_on_cast_fail", []),
  ( "AnyConvertExtern", "any.convert_extern", [0xfb, 0x1a]),
  ( "ExternConvertAny", "extern.convert_any", [0xfb, 0x1b]),
  ( "I32Const", "i32.const", [0x41]),
  ( "I64Const", "i64.const", [0x42]),
  ( "F32Const", "f32.const", [0x43]),
  ( "F64Const", "f64.const", [0x44]),
  ( "I32Clz", "i32.clz", [0x67]),
  ( "I32Ctz", "i32.ctz", [0x68]),
  ( "I32Popcnt", "i32.popcnt", [0x69]),
  ( "I32Add", "i32.add", [0x6a]),
  ( "I32Sub", "i32.sub", [0x6b]),
  ( "I32Mul", "i32.mul", [0x6c]),
  ( "I32DivS", "i32.div_s", [0x6d]),
  ( "I32DivU", "i32.div_u", [0x6e]),
  ( "I32RemS", "i32.rem_s", [0x6f]),
  ( "I32RemU", "i32.rem_u", [0x70]),
  ( "I32And", "i32.and", [0x71]),
  ( "I32Or", "i32.or", [0x72]),
  ( "I32Xor", "i32.xor", [0x73]),
  ( "I32Shl", "i32.shl", [0x74]),
  ( "I32ShrS", "i32.shr_s", [0x75]),
  ( "I32ShrU", "i32.shr_u", [0x76]),
  ( "I32Rotl", "i32.rotl", [0x77]),
  ( "I32Rotr", "i32.rotr", [0x78]),
  ( "I64Clz", "i64.clz", [0x79]),
  ( "I64Ctz", "i64.ctz", [0x7a]),
  ( "I64Popcnt", "i64.popcnt", [0x7b]),
  ( "I64Add", "i64.add", [0x7c]),
  ( "I64Sub", "i64.sub", [0x7d]),
  ( "I64Mul", "i64.mul", [0x7e]),
  ( "I64DivS", "i64.div_s", [0x7f]),
  ( "I64DivU", "i64.div_u", [0x80]),
  ( "I64RemS", "i64.rem_s", [0x81]),
  ( "I64RemU", "i64.rem_u", [0x82]),
  ( "I64And", "i64.and", [0x83]),
  ( "I64Or", "i64.or", [0x84]),
  ( "I64Xor", "i64.xor", [0x85]),
  ( "I64Shl", "i64.shl", [0x86]),
  ( "I64ShrS", "i64.shr_s", [0x87]),
  ( "I64ShrU", "i64.shr_u", [0x88]),
  ( "I64Rotl", "i64.rotl", [0x89]),
  ( "I64Rotr", "i64.rotr", [0x8a]),
  ( "F32Abs", "f32.abs", [0x8b]),
  ( "F32Neg", "f32.neg", [0x8c]),
  ( "F32Ceil", "f32.ceil", [0x8d]),
  ( "F32Floor", "f32.floor", [0x8e]),
  ( "F32Trunc", "f32.trunc", [0x8f]),
  ( "F32Nearest", "f32.nearest", [0x90]),
  ( "F32Sqrt", "f32.sqrt", [0x91]),
  ( "F32Add", "f32.add", [0x92]),
  ( "F32Sub", "f32.sub", [0x93]),
  ( "F32Mul", "f32.mul", [0x94]),
  ( "F32Div", "f32.div", [0x95]),
  ( "F32Min", "f32.min", [0x96]),
  ( "F32Max", "f32.max", [0x97]),
  ( "F32Copysign", "f32.copysign", [0x98]),
  ( "F64Abs", "f64.abs", [0x99]),
  ( "F64Neg", "f64.neg", [0x9a]),
  ( "F64Ceil", "f64.ceil", [0x9b]),
  ( "F64Floor", "f64.floor", [0x9c]),
  ( "F64Trunc", "f64.trunc", [0x9d]),
  ( "F64Nearest", "f64.nearest", [0x9e]),
  ( "F64Sqrt", "f64.sqrt", [0x9f]),
  ( "F64Add", "f64.add", [0xa0]),
  ( "F64Sub", "f64.sub", [0xa1]),
  ( "F64Mul", "f64.mul", [0xa2]),
  ( "F64Div", "f64.div", [0xa3]),
  ( "F64Min", "f64.min", [0xa4]),
  ( "F64Max", "f64.max", [0xa5]),
  ( "F64Copysign", "f64.copysign", [0xa6]),
  ( "I32Eqz", "i32.eqz", [0x45]),
  ( "I32Eq", "i32.eq", [0x46]),
  ( "I32Ne", "i32.ne", [0x47]),
  ( "I32LtS", "i32.lt_s", [0x48]),
  ( "I32LtU", "i32.lt_u", [0x49]),
  ( "I32GtS", "i32.gt_s", [0x4a]),
  ( "I32GtU", "i32.gt_u", [0x4b]),
  ( "I32LeS", "i32.le_s", [0x4c]),
  ( "I32LeU", "i32.le_u", [0x4d]),
  ( "I32GeS", "i32.ge_s", [0x4e]),
  ( "I32GeU", "i32.ge_u", [0x4f]),
  ( "I64Eqz", "i64.eqz", [0x50]),
  ( "I64Eq", "i64.eq", [0x51]),
  ( "I64Ne", "i64.ne", [0x52]),
  ( "I64LtS", "i64.lt_s", [0x53]),
  ( "I64LtU", "i64.lt_u", [0x54]),
  ( "I64GtS", "i64.gt_s", [0x55]),
  ( "I64GtU", "i64.gt_u", [0x56]),
  ( "I64LeS", "i64.le_s", [0x57]),
  ( "I64LeU", "i64.le_u", [0x58]),
  ( "I64GeS", "i64.ge_s", [0x59]),
  ( "I64GeU", "i64.ge_u", [0x5a]),
  ( "F32Eq", "f32.eq", [0x5b]),
  ( "F32Ne", "f32.ne", [0x5c]),
  ( "F32Lt", "f32.lt", [0x5d]),
  ( "F32Gt", "f32.gt", [0x5e]),
  ( "F32Le", "f32.le", [0x5f]),
  ( "F32Ge", "f32.ge", [0x60]),
  ( "F64Eq", "f64.eq", [0x61]),
  ( "F64Ne", "f64.ne", [0x62]),
  ( "F64Lt", "f64.lt", [0x63]),
  ( "F64Gt", "f64.gt", [0x64]),
  ( "F64Le", "f64.le", [0x65]),
  ( "F64Ge", "f64.ge", [0x66]),
  ( "I32WrapI64", "i32.wrap_i64", [0xa7]),
  ( "I32TruncF32S", "i32.trunc_f32_s", [0xa8]),
  ( "I32TruncF32U", "i32.trunc_f32_u", [0xa9]),
  ( "I32TruncF64S", "i32.trunc_f64_s", [0xaa]),
  ( "I32TruncF64U", "i32.trunc_f64_u", [0xab]),
  ( "I64ExtendI32S", "i64.extend_i32_s", [0xac]),
  ( "I64ExtendI32U", "i64.extend_i32_u", [0xad]),
  ( "I64TruncF32S", "i64.trunc_f32_s", [0xae]),
  ( "I64TruncF32U", "i64.trunc_f32_u", [0xaf]),
  ( "I64TruncF64S", "i64.trunc_f64_s", [0xb0]),
  ( "I64TruncF64U", "i64.trunc_f64_u", [0xb1]),
  ( "F32ConvertI32S", "f32.convert_i32_s", [0xb2]),
  ( "F32ConvertI32U", "f32.convert_i32_u", [0xb3]),
  ( "F32ConvertI64S", "f32.convert_i64_s", [0xb4]),
  ( "F32ConvertI64U", "f32.convert_i64_u", [0xb5]),
  ( "F32DemoteF64", "f32.demote_f64", [0xb6]),
  ( "F64ConvertI32S", "f64.convert_i32_s", [0xb7]),
  ( "F64ConvertI32U", "f64.convert_i32_u", [0xb8]),
  ( "F64ConvertI64S", "f64.convert_i64_s", [0xb9]),
  ( "F64ConvertI64U", "f64.convert_i64_u", [0xba]),
  ( "F64PromoteF32", "f64.promote_f32", [0xbb]),
  ( "I32ReinterpretF32", "i32.reinterpret_f32", [0xbc]),
  ( "I64ReinterpretF64", "i64.reinterpret_f64", [0xbd]),
  ( "F32ReinterpretI32", "f32.reinterpret_i32", [0xbe]),
  ( "F64ReinterpretI64", "f64.reinterpret_i64", [0xbf]),
  ( "I32TruncSatF32S", "i32.trunc_sat_f32_s", [0xfc, 0x00]),
  ( "I32TruncSatF32U", "i32.trunc_sat_f32_u", [0xfc, 0x01]),
  ( "I32TruncSatF64S", "i32.trunc_sat_f64_s", [0xfc, 0x02]),
  ( "I32TruncSatF64U", "i32.trunc_sat_f64_u", [0xfc, 0x03]),
  ( "I64TruncSatF32S", "i64.trunc_sat_f32_s", [0xfc, 0x04]),
  ( "I64TruncSatF32U", "i64.trunc_sat_f32_u", [0xfc, 0x05]),
  ( "I64TruncSatF64S", "i64.trunc_sat_f64_s", [0xfc, 0x06]),
  ( "I64TruncSatF64U", "i64.trunc_sat_f64_u", [0xfc, 0x07]),
  ( "I32Extend8S", "i32.extend8_s", [0xc0]),
  ( "I32Extend16S", "i32.extend16_s", [0xc1]),
  ( "I64Extend8S", "i64.extend8_s", [0xc2]),
  ( "I64Extend16S", "i64.extend16_s", [0xc3]),
  ( "I64Extend32S", "i64.extend32_s", [0xc4]),
  ( "MemoryAtomicNotify", "memory.atomic.notify", [0xfe, 0x00]),
  ( "MemoryAtomicWait32", "memory.atomic.wait32", [0xfe, 0x01]),
  ( "MemoryAtomicWait64", "memory.atomic.wait64", [0xfe, 0x02]),
  ( "AtomicFence", "atomic.fence", [0xfe, 0x03, 0x00]),
  ( "I32AtomicLoad", "i32.atomic.load", [0xfe, 0x10]),
  ( "I64AtomicLoad", "i64.atomic.load", [0xfe, 0x11]),
  ( "I32AtomicLoad8u", "i32.atomic.load8_u", [0xfe, 0x12]),
  ( "I32AtomicLoad16u", "i32.atomic.load16_u", [0xfe, 0x13]),
  ( "I64AtomicLoad8u", "i64.atomic.load8_u", [0xfe, 0x14]),
  ( "I64AtomicLoad16u", "i64.atomic.load16_u", [0xfe, 0x15]),
  ( "I64AtomicLoad32u", "i64.atomic.load32_u", [0xfe, 0x16]),
  ( "I32AtomicStore", "i32.atomic.store", [0xfe, 0x17]),
  ( "I64AtomicStore", "i64.atomic.store", [0xfe, 0x18]),
  ( "I32AtomicStore8", "i32.atomic.store8", [0xfe, 0x19]),
  ( "I32AtomicStore16", "i32.atomic.store16", [0xfe, 0x1a]),
  ( "I64AtomicStore8", "i64.atomic.store8", [0xfe, 0x1b]),
  ( "I64AtomicStore16", "i64.atomic.store16", [0xfe, 0x1c]),
  ( "I64AtomicStore32", "i64.atomic.store32", [0xfe, 0x1d]),
  ( "I32AtomicRmwAdd", "i32.atomic.rmw.add", [0xfe, 0x1e]),
  ( "I64AtomicRmwAdd", "i64.atomic.rmw.add", [0xfe, 0x1f]),
  ( "I32AtomicRmw8AddU", "i32.atomic.rmw8.add_u", [0xfe, 0x20]),
  ( "I32AtomicRmw16AddU", "i32.atomic.rmw16.add_u", [0xfe, 0x21]),
  ( "I64AtomicRmw8AddU", "i64.atomic.rmw8.add_u", [0xfe, 0x22]),
  ( "I64AtomicRmw16AddU", "i64.atomic.rmw16.add_u", [0xfe, 0x23]),
  ( "I64AtomicRmw32AddU", "i64.atomic.rmw32.add_u", [0xfe, 0x24]),
  ( "I32AtomicRmwSub", "i32.atomic.rmw.sub", [0xfe, 0x25]),
  ( "I64AtomicRmwSub", "i64.atomic.rmw.sub", [0xfe, 0x26]),
  ( "I32AtomicRmw8SubU", "i32.atomic.rmw8.sub_u", [0xfe, 0x27]),
  ( "I32AtomicRmw16SubU", "i32.atomic.rmw16.sub_u", [0xfe, 0x28]),
  ( "I64AtomicRmw8SubU", "i64.atomic.rmw8.sub_u", [0xfe, 0x29]),
  ( "I64AtomicRmw16SubU", "i64.atomic.rmw16.sub_u", [0xfe, 0x2a]),
  ( "I64AtomicRmw32SubU", "i64.atomic.rmw32.sub_u", [0xfe, 0x2b]),
  ( "I32AtomicRmwAnd", "i32.atomic.rmw.and", [0xfe, 0x2c]),
  ( "I64AtomicRmwAnd", "i64.atomic.rmw.and", [0xfe, 0x2d]),
  ( "I32AtomicRmw8AndU", "i32.atomic.rmw8.and_u", [0xfe, 0x2e]),
  ( "I32AtomicRmw16AndU", "i32.atomic.rmw16.and_u", [0xfe, 0x2f]),
  ( "I64AtomicRmw8AndU", "i64.atomic.rmw8.and_u", [0xfe, 0x30]),
  ( "I64AtomicRmw16AndU", "i64.atomic.rmw16.and_u", [0xfe, 0x31]),
  ( "I64AtomicRmw32AndU", "i64.atomic.rmw32.and_u", [0xfe, 0x32]),
  ( "I32AtomicRmwOr", "i32.atomic.rmw.or", [0xfe, 0x33]),
  ( "I64AtomicRmwOr", "i64.atomic.rmw.or", [0xfe, 0x34]),
  ( "I32AtomicRmw8OrU", "i32.atomic.rmw8.or_u", [0xfe, 0x35]),
  ( "I32AtomicRmw16OrU", "i32.atomic.rmw16.or_u", [0xfe, 0x36]),
  ( "I64AtomicRmw8OrU", "i64.atomic.rmw8.or_u", [0xfe, 0x37]),
  ( "I64AtomicRmw16OrU", "i64.atomic.rmw16.or_u", [0xfe, 0x38]),
  ( "I64AtomicRmw32OrU", "i64.atomic.rmw32.or_u", [0xfe, 0x39]),
  ( "I32AtomicRmwXor", "i32.atomic.rmw.xor", [0xfe, 0x3a]),
  ( "I64AtomicRmwXor", "i64.atomic.rmw.xor", [0xfe, 0x3b]),
  ( "I32AtomicRmw8XorU", "i32.atomic.rmw8.xor_u", [0xfe, 0x3c]),
  ( "I32AtomicRmw16XorU", "i32.atomic.rmw16.xor_u", [0xfe, 0x3d]),
  ( "I64AtomicRmw8XorU", "i64.atomic.rmw8.xor_u", [0xfe, 0x3e]),
  ( "I64AtomicRmw16XorU", "i64.atomic.rmw16.xor_u", [0xfe, 0x3f]),
  ( "I64AtomicRmw32XorU", "i64.atomic.rmw32.xor_u", [0xfe, 0x40]),
  ( "I32AtomicRmwXchg", "i32.atomic.rmw.xchg", [0xfe, 0x41]),
  ( "I64AtomicRmwXchg", "i64.atomic.rmw.xchg", [0xfe, 0x42]),
  ( "I32AtomicRmw8XchgU", "i32.atomic.rmw8.xchg_u", [0xfe, 0x43]),
  ( "I32AtomicRmw16XchgU", "i32.atomic.rmw16.xchg_u", [0xfe, 0x44]),
  ( "I64AtomicRmw8XchgU", "i64.atomic.rmw8.xchg_u", [0xfe, 0x45]),
  ( "I64AtomicRmw16XchgU", "i64.atomic.rmw16.xchg_u", [0xfe, 0x46]),
  ( "I64AtomicRmw32XchgU", "i64.atomic.rmw32.xchg_u", [0xfe, 0x47]),
  ( "I32AtomicRmwCmpxchg", "i32.atomic.rmw.cmpxchg", [0xfe, 0x48]),
  ( "I64AtomicRmwCmpxchg", "i64.atomic.rmw.cmpxchg", [0xfe, 0x49]),
  ( "I32AtomicRmw8CmpxchgU", "i32.atomic.rmw8.cmpxchg_u", [0xfe, 0x4a]),
  ( "I32AtomicRmw16CmpxchgU", "i32.atomic.rmw16.cmpxchg_u", [0xfe, 0x4b]),
  ( "I64AtomicRmw8CmpxchgU", "i64.atomic.rmw8.cmpxchg_u", [0xfe, 0x4c]),
  ( "I64AtomicRmw16CmpxchgU", "i64.atomic.rmw16.cmpxchg_u", [0xfe, 0x4d]),
  ( "I64AtomicRmw32CmpxchgU", "i64.atomic.rmw32.cmpxchg_u", [0xfe, 0x4e]),
  ( "GlobalAtomicGet", "global.atomic.get", [0xfe, 0x4f]),
  ( "GlobalAtomicSet", "global.atomic.set", [0xfe, 0x50]),
  ( "GlobalAtomicRmwAdd", "global.atomic.rmw.add", [0xfe, 0x51]),
  ( "GlobalAtomicRmwSub", "global.atomic.rmw.sub", [0xfe, 0x52]),
  ( "GlobalAtomicRmwAnd", "global.atomic.rmw.and", [0xfe, 0x53]),
  ( "GlobalAtomicRmwOr", "global.atomic.rmw.or", [0xfe, 0x54]),
  ( "GlobalAtomicRmwXor", "global.atomic.rmw.xor", [0xfe, 0x55]),
  ( "GlobalAtomicRmwXchg", "global.atomic.rmw.xchg", [0xfe, 0x56]),
  ( "GlobalAtomicRmwCmpxchg", "global.atomic.rmw.cmpxchg", [0xfe, 0x57]),
  ( "TableAtomicGet", "table.atomic.get", [0xfe, 0x58]),
  ( "TableAtomicSet", "table.atomic.set", [0xfe, 0x59]),
  ( "TableAtomicRmwXchg", "table.atomic.rmw.xchg", [0xfe, 0x5a]),
  ( "TableAtomicRmwCmpxchg", "table.atomic.rmw.cmpxchg", [0xfe, 0x5b]),
  ( "StructAtomicGet", "struct.atomic.get", [0xfe, 0x5c]),
  ( "StructAtomicGetS", "struct.atomic.get_s", [0xfe, 0x5d]),
  ( "StructAtomicGetU", "struct.atomic.get_u", [0xfe, 0x5e]),
  ( "StructAtomicSet", "struct.atomic.set", [0xfe, 0x5f]),
  ( "StructAtomicRmwAdd", "struct.atomic.rmw.add", [0xfe, 0x60]),
  ( "StructAtomicRmwSub", "struct.atomic.rmw.sub", [0xfe, 0x61]),
  ( "StructAtomicRmwAnd", "struct.atomic.rmw.and", [0xfe, 0x62]),
  ( "StructAtomicRmwOr", "struct.atomic.rmw.or", [0xfe, 0x63]),
  ( "StructAtomicRmwXor", "struct.atomic.rmw.xor", [0xfe, 0x64]),
  ( "StructAtomicRmwXchg", "struct.atomic.rmw.xchg", [0xfe, 0x65]),
  ( "StructAtomicRmwCmpxchg", "struct.atomic.rmw.cmpxchg", [0xfe, 0x66]),
  ( "ArrayAtomicGet", "array.atomic.get", [0xfe, 0x67]),
  ( "ArrayAtomicGetS", "array.atomic.get_s", [0xfe, 0x68]),
  ( "ArrayAtomicGetU", "array.atomic.get_u", [0xfe, 0x69]),
  ( "ArrayAtomicSet", "array.atomic.set", [0xfe, 0x6a]),
  ( "ArrayAtomicRmwAdd", "array.atomic.rmw.add", [0xfe, 0x6b]),
  ( "ArrayAtomicRmwSub", "array.atomic.rmw.sub", [0xfe, 0x6c]),
  ( "ArrayAtomicRmwAnd", "array.atomic.rmw.and", [0xfe, 0x6d]),
  ( "ArrayAtomicRmwOr", "array.atomic.rmw.or", [0xfe, 0x6e]),
  ( "ArrayAtomicRmwXor", "array.atomic.rmw.xor", [0xfe, 0x6f]),
  ( "ArrayAtomicRmwXchg", "array.atomic.rmw.xchg", [0xfe, 0x70]),
  ( "ArrayAtomicRmwCmpxchg", "array.atomic.rmw.cmpxchg", [0xfe, 0x71]),
  ( "RefI31Shared", "ref.i31_shared", [0xfe, 0x72]),
  ( "V128Load", "v128.load", [0xfd, 0]),
  ( "V128Load8x8S", "v128.load8x8_s", [0xfd, 1]),
  ( "V128Load8x8U", "v128.load8x8_u", [0xfd, 2]),
  ( "V128Load16x4S", "v128.load16x4_s", [0xfd, 3]),
  ( "V128Load16x4U", "v128.load16x4_u", [0xfd, 4]),
  ( "V128Load32x2S", "v128.load32x2_s", [0xfd, 5]),
  ( "V128Load32x2U", "v128.load32x2_u", [0xfd, 6]),
  ( "V128Load8Splat", "v128.load8_splat", [0xfd, 7]),
  ( "V128Load16Splat", "v128.load16_splat", [0xfd, 8]),
  ( "V128Load32Splat", "v128.load32_splat", [0xfd, 9]),
  ( "V128Load64Splat", "v128.load64_splat", [0xfd, 10]),
  ( "V128Load32Zero", "v128.load32_zero", [0xfd, 92]),
  ( "V128Load64Zero", "v128.load64_zero", [0xfd, 93]),
  ( "V128Store", "v128.store", [0xfd, 11]),
  ( "V128Load8Lane", "v128.load8_lane", [0xfd, 84]),
  ( "V128Load16Lane", "v128.load16_lane", [0xfd, 85]),
  ( "V128Load32Lane", "v128.load32_lane", [0xfd, 86]),
  ( "V128Load64Lane", "v128.load64_lane", [0xfd, 87]),
  ( "V128Store8Lane", "v128.store8_lane", [0xfd, 88]),
  ( "V128Store16Lane", "v128.store16_lane", [0xfd, 89]),
  ( "V128Store32Lane", "v128.store32_lane", [0xfd, 90]),
  ( "V128Store64Lane", "v128.store64_lane", [0xfd, 91]),
  ( "V128Const", "v128.const", [0xfd, 12]),
  ( "I8x16Shuffle", "i8x16.shuffle", [0xfd, 13]),
  ( "I8x16ExtractLaneS", "i8x16.extract_lane_s", [0xfd, 21]),
  ( "I8x16ExtractLaneU", "i8x16.extract_lane_u", [0xfd, 22]),
  ( "I8x16ReplaceLane", "i8x16.replace_lane", [0xfd, 23]),
  ( "I16x8ExtractLaneS", "i16x8.extract_lane_s", [0xfd, 24]),
  ( "I16x8ExtractLaneU", "i16x8.extract_lane_u", [0xfd, 25]),
  ( "I16x8ReplaceLane", "i16x8.replace_lane", [0xfd, 26]),
  ( "I32x4ExtractLane", "i32x4.extract_lane", [0xfd, 27]),
  ( "I32x4ReplaceLane", "i32x4.replace_lane", [0xfd, 28]),
  ( "I64x2ExtractLane", "i64x2.extract_lane", [0xfd, 29]),
  ( "I64x2ReplaceLane", "i64x2.replace_lane", [0xfd, 30]),
  ( "F32x4ExtractLane", "f32x4.extract_lane", [0xfd, 31]),
  ( "F32x4ReplaceLane", "f32x4.replace_lane", [0xfd, 32]),
  ( "F64x2ExtractLane", "f64x2.extract_lane", [0xfd, 33]),
  ( "F64x2ReplaceLane", "f64x2.replace_lane", [0xfd, 34]),
  ( "I8x16Swizzle", "i8x16.swizzle", [0xfd, 14]),
  ( "I8x16Splat", "i8x16.splat", [0xfd, 15]),
  ( "I16x8Splat", "i16x8.splat", [0xfd, 16]),
  ( "I32x4Splat", "i32x4.splat", [0xfd, 17]),
  ( "I64x2Splat", "i64x2.splat", [0xfd, 18]),
  ( "F32x4Splat", "f32x4.splat", [0xfd, 19]),
  ( "F64x2Splat", "f64x2.splat", [0xfd, 20]),
  ( "I8x16Eq", "i8x16.eq", [0xfd, 35]),
  ( "I8x16Ne", "i8x16.ne", [0xfd, 36]),
  ( "I8x16LtS", "i8x16.lt_s", [0xfd, 37]),
  ( "I8x16LtU", "i8x16.lt_u", [0xfd, 38]),
  ( "I8x16GtS", "i8x16.gt_s", [0xfd, 39]),
  ( "I8x16GtU", "i8x16.gt_u", [0xfd, 40]),
  ( "I8x16LeS", "i8x16.le_s", [0xfd, 41]),
  ( "I8x16LeU", "i8x16.le_u", [0xfd, 42]),
  ( "I8x16GeS", "i8x16.ge_s", [0xfd, 43]),
  ( "I8x16GeU", "i8x16.ge_u", [0xfd, 44]),
  ( "I16x8Eq", "i16x8.eq", [0xfd, 45]),
  ( "I16x8Ne", "i16x8.ne", [0xfd, 46]),
  ( "I16x8LtS", "i16x8.lt_s", [0xfd, 47]),
  ( "I16x8LtU", "i16x8.lt_u", [0xfd, 48]),
  ( "I16x8GtS", "i16x8.gt_s", [0xfd, 49]),
  ( "I16x8GtU", "i16x8.gt_u", [0xfd, 50]),
  ( "I16x8LeS", "i16x8.le_s", [0xfd, 51]),
  ( "I16x8LeU", "i16x8.le_u", [0xfd, 52]),
  ( "I16x8GeS", "i16x8.ge_s", [0xfd, 53]),
  ( "I16x8GeU", "i16x8.ge_u", [0xfd, 54]),
  ( "I32x4Eq", "i32x4.eq", [0xfd, 55]),
  ( "I32x4Ne", "i32x4.ne", [0xfd, 56]),
  ( "I32x4LtS", "i32x4.lt_s", [0xfd, 57]),
  ( "I32x4LtU", "i32x4.lt_u", [0xfd, 58]),
  ( "I32x4GtS", "i32x4.gt_s", [0xfd, 59]),
  ( "I32x4GtU", "i32x4.gt_u", [0xfd, 60]),
  ( "I32x4LeS", "i32x4.le_s", [0xfd, 61]),
  ( "I32x4LeU", "i32x4.le_u", [0xfd, 62]),
  ( "I32x4GeS", "i32x4.ge_s", [0xfd, 63]),
  ( "I32x4GeU", "i32x4.ge_u", [0xfd, 64]),
  ( "I64x2Eq", "i64x2.eq", [0xfd, 214]),
  ( "I64x2Ne", "i64x2.ne", [0xfd, 215]),
  ( "I64x2LtS", "i64x2.lt_s", [0xfd, 216]),
  ( "I64x2GtS", "i64x2.gt_s", [0xfd, 217]),
  ( "I64x2LeS", "i64x2.le_s", [0xfd, 218]),
  ( "I64x2GeS", "i64x2.ge_s", [0xfd, 219]),
  ( "F32x4Eq", "f32x4.eq", [0xfd, 65]),
  ( "F32x4Ne", "f32x4.ne", [0xfd, 66]),
  ( "F32x4Lt", "f32x4.lt", [0xfd, 67]),
  ( "F32x4Gt", "f32x4.gt", [0xfd, 68]),
  ( "F32x4Le", "f32x4.le", [0xfd, 69]),
  ( "F32x4Ge", "f32x4.ge", [0xfd, 70]),
  ( "F64x2Eq", "f64x2.eq", [0xfd, 71]),
  ( "F64x2Ne", "f64x2.ne", [0xfd, 72]),
  ( "F64x2Lt", "f64x2.lt", [0xfd, 73]),
  ( "F64x2Gt", "f64x2.gt", [0xfd, 74]),
  ( "F64x2Le", "f64x2.le", [0xfd, 75]),
  ( "F64x2Ge", "f64x2.ge", [0xfd, 76]),
  ( "V128Not", "v128.not", [0xfd, 77]),
  ( "V128And", "v128.and", [0xfd, 78]),
  ( "V128Andnot", "v128.andnot", [0xfd, 79]),
  ( "V128Or", "v128.or", [0xfd, 80]),
  ( "V128Xor", "v128.xor", [0xfd, 81]),
  ( "V128Bitselect", "v128.bitselect", [0xfd, 82]),
  ( "V128AnyTrue", "v128.any_true", [0xfd, 83]),
  ( "I8x16Abs", "i8x16.abs", [0xfd, 96]),
  ( "I8x16Neg", "i8x16.neg", [0xfd, 97]),
  ( "I8x16Popcnt", "i8x16.popcnt", [0xfd, 98]),
  ( "I8x16AllTrue", "i8x16.all_true", [0xfd, 99]),
  ( "I8x16Bitmask", "i8x16.bitmask", [0xfd, 100]),
  ( "I8x16NarrowI16x8S", "i8x16.narrow_i16x8_s", [0xfd, 101]),
  ( "I8x16NarrowI16x8U", "i8x16.narrow_i16x8_u", [0xfd, 102]),
  ( "I8x16Shl", "i8x16.shl", [0xfd, 107]),
  ( "I8x16ShrS", "i8x16.shr_s", [0xfd, 108]),
  ( "I8x16ShrU", "i8x16.shr_u", [0xfd, 109]),
  ( "I8x16Add", "i8x16.add", [0xfd, 110]),
  ( "I8x16AddSatS", "i8x16.add_sat_s", [0xfd, 111]),
  ( "I8x16AddSatU", "i8x16.add_sat_u", [0xfd, 112]),
  ( "I8x16Sub", "i8x16.sub", [0xfd, 113]),
  ( "I8x16SubSatS", "i8x16.sub_sat_s", [0xfd, 114]),
  ( "I8x16SubSatU", "i8x16.sub_sat_u", [0xfd, 115]),
  ( "I8x16MinS", "i8x16.min_s", [0xfd, 118]),
  ( "I8x16MinU", "i8x16.min_u", [0xfd, 119]),
  ( "I8x16MaxS", "i8x16.max_s", [0xfd, 120]),
  ( "I8x16MaxU", "i8x16.max_u", [0xfd, 121]),
  ( "I8x16AvgrU", "i8x16.avgr_u", [0xfd, 123]),
  ( "I16x8ExtAddPairwiseI8x16S", "i16x8.extadd_pairwise_i8x16_s", [0xfd, 124]),
  ( "I16x8ExtAddPairwiseI8x16U", "i16x8.extadd_pairwise_i8x16_u", [0xfd, 125]),
  ( "I16x8Abs", "i16x8.abs", [0xfd, 128]),
  ( "I16x8Neg", "i16x8.neg", [0xfd, 129]),
  ( "I16x8Q15MulrSatS", "i16x8.q15mulr_sat_s", [0xfd, 130]),
  ( "I16x8AllTrue", "i16x8.all_true", [0xfd, 131]),
  ( "I16x8Bitmask", "i16x8.bitmask", [0xfd, 132]),
  ( "I16x8NarrowI32x4S", "i16x8.narrow_i32x4_s", [0xfd, 133]),
  ( "I16x8NarrowI32x4U", "i16x8.narrow_i32x4_u", [0xfd, 134]),
  ( "I16x8ExtendLowI8x16S", "i16x8.extend_low_i8x16_s", [0xfd, 135]),
  ( "I16x8ExtendHighI8x16S", "i16x8.extend_high_i8x16_s", [0xfd, 136]),
  ( "I16x8ExtendLowI8x16U", "i16x8.extend_low_i8x16_u", [0xfd, 137]),
  ( "I16x8ExtendHighI8x16u", "i16x8.extend_high_i8x16_u", [0xfd, 138]),
  ( "I16x8Shl", "i16x8.shl", [0xfd, 139]),
  ( "I16x8ShrS", "i16x8.shr_s", [0xfd, 140]),
  ( "I16x8ShrU", "i16x8.shr_u", [0xfd, 141]),
  ( "I16x8Add", "i16x8.add", [0xfd, 142]),
  ( "I16x8AddSatS", "i16x8.add_sat_s", [0xfd, 143]),
  ( "I16x8AddSatU", "i16x8.add_sat_u", [0xfd, 144]),
  ( "I16x8Sub", "i16x8.sub", [0xfd, 145]),
  ( "I16x8SubSatS", "i16x8.sub_sat_s", [0xfd, 146]),
  ( "I16x8SubSatU", "i16x8.sub_sat_u", [0xfd, 147]),
  ( "I16x8Mul", "i16x8.mul", [0xfd, 149]),
  ( "I16x8MinS", "i16x8.min_s", [0xfd, 150]),
  ( "I16x8MinU", "i16x8.min_u", [0xfd, 151]),
  ( "I16x8MaxS", "i16x8.max_s", [0xfd, 152]),
  ( "I16x8MaxU", "i16x8.max_u", [0xfd, 153]),
  ( "I16x8AvgrU", "i16x8.avgr_u", [0xfd, 155]),
  ( "I16x8ExtMulLowI8x16S", "i16x8.extmul_low_i8x16_s", [0xfd, 156]),
  ( "I16x8ExtMulHighI8x16S", "i16x8.extmul_high_i8x16_s", [0xfd, 157]),
  ( "I16x8ExtMulLowI8x16U", "i16x8.extmul_low_i8x16_u", [0xfd, 158]),
  ( "I16x8ExtMulHighI8x16U", "i16x8.extmul_high_i8x16_u", [0xfd, 159]),
  ( "I32x4ExtAddPairwiseI16x8S", "i32x4.extadd_pairwise_i16x8_s", [0xfd, 126]),
  ( "I32x4ExtAddPairwiseI16x8U", "i32x4.extadd_pairwise_i16x8_u", [0xfd, 127]),
  ( "I32x4Abs", "i32x4.abs", [0xfd, 160]),
  ( "I32x4Neg", "i32x4.neg", [0xfd, 161]),
  ( "I32x4AllTrue", "i32x4.all_true", [0xfd, 163]),
  ( "I32x4Bitmask", "i32x4.bitmask", [0xfd, 164]),
  ( "I32x4ExtendLowI16x8S", "i32x4.extend_low_i16x8_s", [0xfd, 167]),
  ( "I32x4ExtendHighI16x8S", "i32x4.extend_high_i16x8_s", [0xfd, 168]),
  ( "I32x4ExtendLowI16x8U", "i32x4.extend_low_i16x8_u", [0xfd, 169]),
  ( "I32x4ExtendHighI16x8U", "i32x4.extend_high_i16x8_u", [0xfd, 170]),
  ( "I32x4Shl", "i32x4.shl", [0xfd, 171]),
  ( "I32x4ShrS", "i32x4.shr_s", [0xfd, 172]),
  ( "I32x4ShrU", "i32x4.shr_u", [0xfd, 173]),
  ( "I32x4Add", "i32x4.add", [0xfd, 174]),
  ( "I32x4Sub", "i32x4.sub", [0xfd, 177]),
  ( "I32x4Mul", "i32x4.mul", [0xfd, 181]),
  ( "I32x4MinS", "i32x4.min_s", [0xfd, 182]),
  ( "I32x4MinU", "i32x4.min_u", [0xfd, 183]),
  ( "I32x4MaxS", "i32x4.max_s", [0xfd, 184]),
  ( "I32x4MaxU", "i32x4.max_u", [0xfd, 185]),
  ( "I32x4DotI16x8S", "i32x4.dot_i16x8_s", [0xfd, 186]),
  ( "I32x4ExtMulLowI16x8S", "i32x4.extmul_low_i16x8_s", [0xfd, 188]),
  ( "I32x4ExtMulHighI16x8S", "i32x4.extmul_high_i16x8_s", [0xfd, 189]),
  ( "I32x4ExtMulLowI16x8U", "i32x4.extmul_low_i16x8_u", [0xfd, 190]),
  ( "I32x4ExtMulHighI16x8U", "i32x4.extmul_high_i16x8_u", [0xfd, 191]),
  ( "I64x2Abs", "i64x2.abs", [0xfd, 192]),
  ( "I64x2Neg", "i64x2.neg", [0xfd, 193]),
  ( "I64x2AllTrue", "i64x2.all_true", [0xfd, 195]),
  ( "I64x2Bitmask", "i64x2.bitmask", [0xfd, 196]),
  ( "I64x2ExtendLowI32x4S", "i64x2.extend_low_i32x4_s", [0xfd, 199]),
  ( "I64x2ExtendHighI32x4S", "i64x2.extend_high_i32x4_s", [0xfd, 200]),
  ( "I64x2ExtendLowI32x4U", "i64x2.extend_low_i32x4_u", [0xfd, 201]),
  ( "I64x2ExtendHighI32x4U", "i64x2.extend_high_i32x4_u", [0xfd, 202]),
  ( "I64x2Shl", "i64x2.shl", [0xfd, 203]),
  ( "I64x2ShrS", "i64x2.shr_s", [0xfd, 204]),
  ( "I64x2ShrU", "i64x2.shr_u", [0xfd, 205]),
  ( "I64x2Add", "i64x2.add", [0xfd, 206]),
  ( "I64x2Sub", "i64x2.sub", [0xfd, 209]),
  ( "I64x2Mul", "i64x2.mul", [0xfd, 213]),
  ( "I64x2ExtMulLowI32x4S", "i64x2.extmul_low_i32x4_s", [0xfd, 220]),
  ( "I64x2ExtMulHighI32x4S", "i64x2.extmul_high_i32x4_s", [0xfd, 221]),
  ( "I64x2ExtMulLowI32x4U", "i64x2.extmul_low_i32x4_u", [0xfd, 222]),
  ( "I64x2ExtMulHighI32x4U", "i64x2.extmul_high_i32x4_u", [0xfd, 223]),
  ( "F32x4Ceil", "f32x4.ceil", [0xfd, 103]),
  ( "F32x4Floor", "f32x4.floor", [0xfd, 104]),
  ( "F32x4Trunc", "f32x4.trunc", [0xfd, 105]),
  ( "F32x4Nearest", "f32x4.nearest", [0xfd, 106]),
  ( "F32x4Abs", "f32x4.abs", [0xfd, 224]),
  ( "F32x4Neg", "f32x4.neg", [0xfd, 225]),
  ( "F32x4Sqrt", "f32x4.sqrt", [0xfd, 227]),
  ( "F32x4Add", "f32x4.add", [0xfd, 228]),
  ( "F32x4Sub", "f32x4.sub", [0xfd, 229]),
  ( "F32x4Mul", "f32x4.mul", [0xfd, 230]),
  ( "F32x4Div", "f32x4.div", [0xfd, 231]),
  ( "F32x4Min", "f32x4.min", [0xfd, 232]),
  ( "F32x4Max", "f32x4.max", [0xfd, 233]),
  ( "F32x4PMin", "f32x4.pmin", [0xfd, 234]),
  ( "F32x4PMax", "f32x4.pmax", [0xfd, 235]),
  ( "F64x2Ceil", "f64x2.ceil", [0xfd, 116]),
  ( "F64x2Floor", "f64x2.floor", [0xfd, 117]),
  ( "F64x2Trunc", "f64x2.trunc", [0xfd, 122]),
  ( "F64x2Nearest", "f64x2.nearest", [0xfd, 148]),
  ( "F64x2Abs", "f64x2.abs", [0xfd, 236]),
  ( "F64x2Neg", "f64x2.neg", [0xfd, 237]),
  ( "F64x2Sqrt", "f64x2.sqrt", [0xfd, 239]),
  ( "F64x2Add", "f64x2.add", [0xfd, 240]),
  ( "F64x2Sub", "f64x2.sub", [0xfd, 241]),
  ( "F64x2Mul", "f64x2.mul", [0xfd, 242]),
  ( "F64x2Div", "f64x2.div", [0xfd, 243]),
  ( "F64x2Min", "f64x2.min", [0xfd, 244]),
  ( "F64x2Max", "f64x2.max", [0xfd, 245]),
  ( "F64x2PMin", "f64x2.pmin", [0xfd, 246]),
  ( "F64x2PMax", "f64x2.pmax", [0xfd, 247]),
  ( "I32x4TruncSatF32x4S", "i32x4.trunc_sat_f32x4_s", [0xfd, 248]),
  ( "I32x4TruncSatF32x4U", "i32x4.trunc_sat_f32x4_u", [0xfd, 249]),
  ( "F32x4ConvertI32x4S", "f32x4.convert_i32x4_s", [0xfd, 250]),
  ( "F32x4ConvertI32x4U", "f32x4.convert_i32x4_u", [0xfd, 251]),
  ( "I32x4TruncSatF64x2SZero", "i32x4.trunc_sat_f64x2_s_zero", [0xfd, 252]),
  ( "I32x4TruncSatF64x2UZero", "i32x4.trunc_sat_f64x2_u_zero", [0xfd, 253]),
  ( "F64x2ConvertLowI32x4S", "f64x2.convert_low_i32x4_s", [0xfd, 254]),
  ( "F64x2ConvertLowI32x4U", "f64x2.convert_low_i32x4_u", [0xfd, 255]),
  ( "F32x4DemoteF64x2Zero", "f32x4.demote_f64x2_zero", [0xfd, 94]),
  ( "F64x2PromoteLowF32x4", "f64x2.promote_low_f32x4", [0xfd, 95]),
  ( "ThrowRef", "throw_ref", [0x0a]),
  ( "TryTable", "try_table", [0x1f]),
  ( "Throw", "throw", [0x08]),
  ( "Try", "try", [0x06]),
  ( "Catch", "catch", [0x07]),
  ( "Rethrow", "rethrow", [0x09]),
  ( "Delegate", "delegate", [0x18]),
  ( "CatchAll", "catch_all", [0x19]),
  ( "I8x16RelaxedSwizzle", "i8x16.relaxed_swizzle", [0xfd, 0x100]),
  ( "I32x4RelaxedTruncF32x4S", "i32x4.relaxed_trunc_f32x4_s", [0xfd, 0x101]),
  ( "I32x4RelaxedTruncF32x4U", "i32x4.relaxed_trunc_f32x4_u", [0xfd, 0x102]),
  ( "I32x4RelaxedTruncF64x2SZero", "i32x4.relaxed_trunc_f64x2_s_zero", [0xfd, 0x103]),
  ( "I32x4RelaxedTruncF64x2UZero", "i32x4.relaxed_trunc_f64x2_u_zero", [0xfd, 0x104]),
  ( "F32x4RelaxedMadd", "f32x4.relaxed_madd", [0xfd, 0x105]),
  ( "F32x4RelaxedNmadd", "f32x4.relaxed_nmadd", [0xfd, 0x106]),
  ( "F64x2RelaxedMadd", "f64x2.relaxed_madd", [0xfd, 0x107]),
  ( "F64x2RelaxedNmadd", "f64x2.relaxed_nmadd", [0xfd, 0x108]),
  ( "I8x16RelaxedLaneselect", "i8x16.relaxed_laneselect", [0xfd, 0x109]),
  ( "I16x8RelaxedLaneselect", "i16x8.relaxed_laneselect", [0xfd, 0x10A]),
  ( "I32x4RelaxedLaneselect", "i32x4.relaxed_laneselect", [0xfd, 0x10B]),
  ( "I64x2RelaxedLaneselect", "i64x2.relaxed_laneselect", [0xfd, 0x10C]),
  ( "F32x4RelaxedMin", "f32x4.relaxed_min", [0xfd, 0x10D]),
  ( "F32x4RelaxedMax", "f32x4.relaxed_max", [0xfd, 0x10E]),
  ( "F64x2RelaxedMin", "f64x2.relaxed_min", [0xfd, 0x10F]),
  ( "F64x2RelaxedMax", "f64x2.relaxed_max", [0xfd, 0x110]),
  ( "I16x8RelaxedQ15mulrS", "i16x8.relaxed_q15mulr_s", [0xfd, 0x111]),
  ( "I16x8RelaxedDotI8x16I7x16S", "i16x8.relaxed_dot_i8x16_i7x16_s", [0xfd, 0x112]),
  ( "I32x4RelaxedDotI8x16I7x16AddS", "i32x4.relaxed_dot_i8x16_i7x16_add_s", [0xfd, 0x113]),
  ( "ContNew", "cont.new", [0xe0]),
  ( "ContBind", "cont.bind", [0xe1]),
  ( "Suspend", "suspend", [0xe2]),
  ( "Resume", "resume", [0xe3]),
  ( "ResumeThrow", "resume_throw", [0xe4]),
  ( "Switch", "switch", [0xe5]),
  ( "I64Add128", "i64.add128", [0xfc, 19]),
  ( "I64Sub128", "i64.sub128", [0xfc, 20]),
  ( "I64MulWideS", "i64.mul_wide_s", [0xfc, 21]),
  ( "I64MulWideU", "i64.mul_wide_u", [0xfc, 22])
]

def memArgDefaults : List (String × Nat) := [
  ( "i32.load", 4),
  ( "i64.load", 8),
  ( "f32.load", 4),
  ( "f64.load", 8),
  ( "i32.load8_s", 1),
  ( "i32.load8_u", 1),
  ( "i32.load16_s", 2),
  ( "i32.load16_u", 2),
  ( "i64.load8_s", 1),
  ( "i64.load8_u", 1),
  ( "i64.load16_s", 2),
  ( "i64.load16_u", 2),
  ( "i64.load32_s", 4),
  ( "i64.load32_u", 4),
  ( "i32.store", 4),
  ( "i64.store", 8),
  ( "f32.store", 4),
  ( "f64.store", 8),
  ( "i32.store8", 1),
  ( "i32.store16", 2),
  ( "i64.store8", 1),
  ( "i64.store16", 2),
  ( "i64.store32", 4),
  ( "memory.atomic.notify", 4),
  ( "memory.atomic.wait32", 4),
  ( "memory.atomic.wait64", 8),
  ( "i32.atomic.load", 4),
  ( "i64.atomic.load", 8),
  ( "i32.atomic.load8_u", 1),
  ( "i32.atomic.load16_u", 2),
  ( "i64.atomic.load8_u", 1),
  ( "i64.atomic.load16_u", 2),
  ( "i64.atomic.load32_u", 4),
  ( "i32.atomic.store", 4),
  ( "i64.atomic.store", 8),
  ( "i32.atomic.store8", 1),
  ( "i32.atomic.store16", 2),
  ( "i64.atomic.store8", 1),
  ( "i64.atomic.store16", 2),
  ( "i64.atomic.store32", 4),
  ( "i32.atomic.rmw.add", 4),
  ( "i64.atomic.rmw.add", 8),
  ( "i32.atomic.rmw8.add_u", 1),
  ( "i32.atomic.rmw16.add_u", 2),
  ( "i64.atomic.rmw8.add_u", 1),
  ( "i64.atomic.rmw16.add_u", 2),
  ( "i64.atomic.rmw32.add_u", 4),
  ( "i32.atomic.rmw.sub", 4),
  ( "i64.atomic.rmw.sub", 8),
  ( "i32.atomic.rmw8.sub_u", 1),
  ( "i32.atomic.rmw16.sub_u", 2),
  ( "i64.atomic.rmw8.sub_u", 1),
  ( "i64.atomic.rmw16.sub_u", 2),
  ( "i64.atomic.rmw32.sub_u", 4),
  ( "i32.atomic.rmw.and", 4),
  ( "i64.atomic.rmw.and", 8),
  ( "i32.atomic.rmw8.and_u", 1),
  ( "i32.atomic.rmw16.and_u", 2),
  ( "i64.atomic.rmw8.and_u", 1),
  ( "i64.atomic.rmw16.and_u", 2),
  ( "i64.atomic.rmw32.and_u", 4),
  ( "i32.atomic.rmw.or", 4),
  ( "i64.atomic.rmw.or", 8),
  ( "i32.atomic.rmw8.or_u", 1),
  ( "i32.atomic.rmw16.or_u", 2),
  ( "i64.atomic.rmw8.or_u", 1),
  ( "i64.atomic.rmw16.or_u", 2),
  ( "i64.atomic.rmw32.or_u", 4),
  ( "i32.atomic.rmw.xor", 4),
  ( "i64.atomic.rmw.xor", 8),
  ( "i32.atomic.rmw8.xor_u", 1),
  ( "i32.atomic.rmw16.xor_u", 2),
  ( "i64.atomic.rmw8.xor_u", 1),
  ( "i64.atomic.rmw16.xor_u", 2),
  ( "i64.atomic.rmw32.xor_u", 4),
  ( "i32.atomic.rmw.xchg", 4),
  ( "i64.atomic.rmw.xchg", 8),
  ( "i32.atomic.rmw8.xchg_u", 1),
  ( "i32.atomic.rmw16.xchg_u", 2),
  ( "i64.atomic.rmw8.xchg_u", 1),
  ( "i64.atomic.rmw16.xchg_u", 2),
  ( "i64.atomic.rmw32.xchg_u", 4),
  ( "i32.atomic.rmw.cmpxchg", 4),
  ( "i64.atomic.rmw.cmpxchg", 8),
  ( "i32.atomic.rmw8.cmpxchg_u", 1),
  ( "i32.atomic.rmw16.cmpxchg_u", 2),
  ( "i64.atomic.rmw8.cmpxchg_u", 1),
  ( "i64.atomic.rmw16.cmpxchg_u", 2),
  ( "i64.atomic.rmw32.cmpxchg_u", 4),
  ( "v128.load", 16),
  ( "v128.load8x8_s", 8),
  ( "v128.load8x8_u", 8),
  ( "v128.load16x4_s", 8),
  ( "v128.load16x4_u", 8),
  ( "v128.load32x2_s", 8),
  ( "v128.load32x2_u", 8),
  ( "v128.load8_splat", 1),
  ( "v128.load16_splat", 2),
  ( "v128.load32_splat", 4),
  ( "v128.load64_splat", 8),
  ( "v128.load32_zero", 4),
  ( "v128.load64_zero", 8),
  ( "v128.store", 16),
  ( "v128.load8_lane", 1),
  ( "v128.load16_lane", 2),
  ( "v128.load32_lane", 4),
  ( "v128.load64_lane", 8),
  ( "v128.store8_lane", 1),
  ( "v128.store16_lane", 2),
  ( "v128.store32_lane", 4),
  ( "v128.store64_lane", 8)
]

def relaxedSimdOps : List String := [
  "I8x16RelaxedSwizzle",
  "I32x4RelaxedTruncF32x4S",
  "I32x4RelaxedTruncF32x4U",
  "I32x4RelaxedTruncF64x2SZero",
  "I32x4RelaxedTruncF64x2UZero",
  "F32x4RelaxedMadd",
  "F32x4RelaxedNmadd",
  "F64x2RelaxedMadd",
  "F64x2RelaxedNmadd",
  "I8x16RelaxedLaneselect",
  "I16x8RelaxedLaneselect",
  "I32x4RelaxedLaneselect",
  "I64x2RelaxedLaneselect",
  "F32x4RelaxedMin",
  "F32x4RelaxedMax",
  "F64x2RelaxedMin",
  "F64x2RelaxedMax",
  "I16x8RelaxedQ15mulrS",
  "I16x8RelaxedDotI8x16I7x16S",
  "I32x4RelaxedDotI8x16I7x16AddS"
]

/-! ### Token-level helper parsers

The Rust `Parser`/`Cursor` pair is embedded as explicit passing of the
remaining token list.  Each helper returns the parsed value together with
the tokens it did not consume. -/

/-- Parse an optional `$id` token (the `Option<Id>` parse). -/
def parseOptId : List Tok → Option Id × List Tok
  | Tok.id s :: rest => (some s, rest)
  | toks => (none, toks)

/-- Parse an `Index`: a `u32` numeric index or a `$id`.  Modelled from the
spec (`Index::parse` lives in `token.rs`, outside the embedded sources). -/
def parseIndex : List Tok → Except PErr (Index × List Tok)
  | Tok.int none mag :: rest =>
      if mag < 0x100000000 then .ok (Index.num mag, rest)
      else .error "invalid u32 number: constant out of range"
  | Tok.id s :: rest => .ok (Index.id s, rest)
  | _ => .error "unexpected token, expected an index"

/-- Whether the next token could start an `Index` (`Index`'s `Peek`). -/
def peekIndex : List Tok → Bool
  | Tok.int _ _ :: _ => true
  | Tok.id _ :: _ => true
  | _ => false

/-- Parse an `Option<Index>`. -/
def parseOptIndex (toks : List Tok) : Except PErr (Option Index × List Tok) :=
  if peekIndex toks then (parseIndex toks).map fun (i, r) => (some i, r)
  else .ok (none, toks)

/-- Parse an `i32` immediate from an integer token, with the source's
range checks (accepting the unsigned range and wrapping into `i32`).
Modelled from the spec (`token.rs` is outside the embedded sources). -/
def parseI32 : List Tok → Except PErr (Int × List Tok)
  | Tok.int none mag :: rest =>
      if mag < 0x100000000 then
        .ok ((if mag < 0x80000000 then (mag : Int) else (mag : Int) - 0x100000000), rest)
      else .error "invalid i32 number: constant out of range"
  | Tok.int (some true) mag :: rest =>
      if mag ≤ 0x80000000 then .ok (-(mag : Int), rest)
      else .error "invalid i32 number: constant out of range"
  | Tok.int (some false) mag :: rest =>
      if mag < 0x80000000 then .ok ((mag : Int), rest)
      else .error "invalid i32 number: constant out of range"
  | _ => .error "expected an i32"

/-- Parse a single-token value type.  Modelled from the spec
(`ValType::parse` lives in `types.rs`, outside the embedded sources);
the parenthesised `(ref ...)` forms are not needed by this development. -/
def parseValTypeTok : Tok → Except PErr ValType
  | Tok.kw "i32" => .ok ValType.i32
  | Tok.kw "i64" => .ok ValType.i64
  | Tok.kw "f32" => .ok ValType.f32
  | Tok.kw "f64" => .ok ValType.f64
  | Tok.kw "v128" => .ok ValType.v128
  | Tok.kw "funcref" => .ok (ValType.ref ⟨true, HeapType.abs "func"⟩)
  | Tok.kw "externref" => .ok (ValType.ref ⟨true, HeapType.abs "extern"⟩)
  | _ => .error "expected a value type"

/-- Parse value types up to (and consuming) the closing `)` of the
enclosing group: the embedding of `while !p.is_empty() { p.parse()? }`
inside a `parens` call. -/
def parseValTypesUntilRparen : List Tok → Except PErr (List ValType × List Tok)
  | [] => .error "expected `)`"
  | Tok.rparen :: rest => .ok ([], rest)
  | t :: rest => do
      let v ← parseValTypeTok t
      let (vs, r) ← parseValTypesUntilRparen rest
      .ok (v :: vs, r)

/-- Parse an optional `(@name "...")` annotation (the source's
`Option<NameAnnotation>` parse).  Modelled from the spec (`token.rs` is
outside the embedded sources). -/
def parseOptNameAnnot : List Tok → Except PErr (Option NameAnnot × List Tok)
  | Tok.lparen :: Tok.annot "name" :: Tok.str bytes :: Tok.rparen :: rest =>
      .ok (some ⟨bytes⟩, rest)
  | toks@(Tok.lparen :: Tok.annot "name" :: _) => do
      let _ := toks
      .error "expected a string"
  | toks => .ok (none, toks)

/-- The `(param ...)*/(result ...)*` loop of an inline function-type
signature.  Modelled from the spec (`types.rs` is outside the embedded
sources).  Returns the collected parameter and result types and whether
any group was present. -/
def parseInlineSig : Nat → List Tok → Except PErr ((List ValType × List ValType) × Bool × List Tok)
  | 0, _ => .error "inline signature too long"
  | Nat.succ fuel, toks =>
      match toks with
      | Tok.lparen :: Tok.kw "param" :: rest => do
          let (vs, r2) ← parseValTypesUntilRparen rest
          let ((ps, rs), _, r3) ← parseInlineSig fuel r2
          .ok ((vs ++ ps, rs), true, r3)
      | Tok.lparen :: Tok.kw "result" :: rest => do
          let (vs, r2) ← parseValTypesUntilRparen rest
          let ((ps, rs), _, r3) ← parseInlineSig fuel r2
          .ok ((ps, vs ++ rs), true, r3)
      | _ => .ok (([], []), false, toks)

/-- Parse a `TypeUse`: an optional `(type i)` reference followed by an
optional inline signature.  Modelled from the spec (`types.rs` is outside
the embedded sources). -/
def parseTypeUse (toks : List Tok) : Except PErr (TypeUse × List Tok) := do
  let (index, t1) ←
    match toks with
    | Tok.lparen :: Tok.kw "type" :: rest => do
        let (i, r2) ← parseIndex rest
        match r2 with
        | Tok.rparen :: r3 => pure (some i, r3)
        | _ => .error "expected `)`"
    | _ => pure ((none : Option Index), toks)
  let ((ps, rs), found, t2) ← parseInlineSig (t1.length + 1) t1
  .ok ({ index, inline := if found then some ⟨ps, rs⟩ else none }, t2)

/-- The source's `BlockType::parse` (`expr.rs`): label, optional name annotation, and
the block's type use. -/
def parseBlockType (toks : List Tok) : Except PErr (BlockType × List Tok) := do
  let (label, t1) := parseOptId toks
  let (label_name, t2) ← parseOptNameAnnot t1
  let (ty, t3) ← parseTypeUse t2
  .ok ({ label, label_name, ty }, t3)

/-! ### Memory arguments (`MemArg::parse`, `expr.rs`) -/

/-- The `u64::is_power_of_two` check: exactly one bit set (`false` for zero). -/
def is_power_of_two (n : Nat) : Bool :=
  n != 0 && n &&& (n - 1) == 0

/-- Decimal or `0x`-hexadecimal digits with `_` separators, most
significant first, as lexed inside an `offset=`/`align=` keyword.
Modelled from the spec (the lexer is outside the embedded sources).
Returns `none` when a non-digit appears. -/
def digitsVal (radix : Nat) : List Char → Nat → Option Nat
  | [], acc => some acc
  | c :: cs, acc =>
      if c = '_' then digitsVal radix cs acc
      else
        let n := c.toNat
        let d :=
          if 48 ≤ n ∧ n ≤ 57 then some (n - 48)
          else if 97 ≤ n ∧ n ≤ 102 then some (n - 87)
          else if 65 ≤ n ∧ n ≤ 70 then some (n - 55)
          else none
        match d with
        | some d => if d < radix then digitsVal radix cs (acc * radix + d) else none
        | none => none

/-- Lex one integer literal spanning the whole character list: an
optional sign, then decimal or `0x`-hexadecimal digits.  Returns the sign
(`true` for negative) and magnitude.  Modelled from the spec (the lexer
is outside the embedded sources). -/
def lexIntField (cs : List Char) : Option (Bool × Nat) := do
  let (neg, cs) ←
    match cs with
    | '-' :: rest => some (true, rest)
    | '+' :: rest => some (false, rest)
    | _ => some (false, cs)
  let mag ←
    match cs with
    | '0' :: 'x' :: rest =>
        match rest with
        | [] => none
        | _ => digitsVal 16 rest 0
    | [] => none
    | _ => digitsVal 10 cs 0
  some (neg, mag)

/-- The `parse_field` helper of `MemArg::parse` (`expr.rs`): if the next
token is a keyword of the form `<name>=<int>`, consume it and return the
integer value; a keyword not of that shape is not consumed and yields
`none`.  A malformed or out-of-`u64`-range integer is an error, as in the
source (where `u64::from_str_radix` fails on overflow and on a sign). -/
def parse_field (name : String) (toks : List Tok) : Except PErr (Option Nat × List Tok) :=
  match toks with
  | Tok.kw s :: rest =>
      let cs := s.data
      let n := name.data
      if ¬ n.isPrefixOf cs then .ok (none, toks)
      else
        match cs.drop n.length with
        | c :: numcs =>
            if c ≠ '=' then .ok (none, toks)
            else
              match lexIntField numcs with
              | some (false, v) =>
                  if v < 0x10000000000000000 then .ok (some v, rest)
                  else .error "u64 constant out of range"
              | some (true, _) => .error "u64 constant out of range"
              | none => .error "expected u64 integer constant"
        | [] => .ok (none, toks)
  | _ => .ok (none, toks)

/-- The source's `MemArg::parse` (`expr.rs`): an optional memory index (defaulting to
memory `0`), then the `offset=` field (defaulting to `0`), then the
`align=` field (defaulting to the instruction's natural alignment); an
explicit alignment that is not a power of two is a parse error. -/
def memArgParse (default_align : Nat) (toks : List Tok) : Except PErr (MemArg × List Tok) := do
  let (mem?, t1) ← parseOptIndex toks
  let memory := mem?.getD (Index.num 0)
  let (offset?, t2) ← parse_field "offset" t1
  let offset := offset?.getD 0
  let (align?, t3) ← parse_field "align" t2
  match align? with
  | some n =>
      if ¬ is_power_of_two n then .error "alignment must be a power of two"
      else .ok ({ align := n, offset, memory }, t3)
  | none => .ok ({ align := default_align, offset, memory }, t3)

/-! ### `select` result types (`SelectTypes::parse`, `expr.rs`) -/

/-- The `while parser.peek2::<kw::result>()` loop of `SelectTypes::parse`
(`expr.rs`): as long as the token after the next one is the keyword
`result`, enter a parenthesised `(result ValType*)` group and collect its
types.  Returns whether any group was found, the concatenated types, and
the remaining tokens. -/
def selectLoop : Nat → List Tok → Except PErr (Bool × List ValType × List Tok)
  | 0, _ => .error "select result list too long"
  | Nat.succ fuel, toks =>
      if toks.get? 1 = some (Tok.kw "result") then
        match toks with
        | Tok.lparen :: Tok.kw "result" :: rest => do
            let (vs, r2) ← parseValTypesUntilRparen rest
            let (_, vs2, r3) ← selectLoop fuel r2
            .ok (true, vs ++ vs2, r3)
        | _ => .error "expected `(`"
      else .ok (false, [], toks)

/-- The source's `SelectTypes::parse` (`expr.rs`): `tys` is `none` when no
`(result ...)` group was written and `some` of the concatenation of all
the groups' types otherwise (even when that concatenation is empty). -/
def selectTypesParse (toks : List Tok) : Except PErr (SelectTypes × List Tok) := do
  let (found, list, rest) ← selectLoop (toks.length + 1) toks
  .ok ({ tys := if found then some list else none }, rest)

/-! ### Instruction dispatch (the `Parse` impl generated by
`instructions!`, `expr.rs`) -/

/-- The keyword dispatch of `Instruction`'s generated `Parse` impl: look
at the next keyword token and parse that row's immediates.  The source
macro generates one arm per table row; this embedding carries the arms
exercised by the present development and reports the source's
`unknown operator` error for the rest.  A non-keyword token is
`expected an instruction`, as in the source. -/
def parseInstr : List Tok → Except PErr (Instruction × List Tok)
  | Tok.kw s :: rest =>
      match s with
      | "block" => (parseBlockType rest).map fun (bt, r) => (Instruction.Block bt, r)
      | "if" => (parseBlockType rest).map fun (bt, r) => (Instruction.If bt, r)
      | "else" => let (i, r) := parseOptId rest; .ok (Instruction.Else i, r)
      | "loop" => (parseBlockType rest).map fun (bt, r) => (Instruction.Loop bt, r)
      | "end" => let (i, r) := parseOptId rest; .ok (Instruction.End i, r)
      | "unreachable" => .ok (Instruction.Unreachable, rest)
      | "nop" => .ok (Instruction.Nop, rest)
      | "br" => (parseIndex rest).map fun (i, r) => (Instruction.Br i, r)
      | "br_if" => (parseIndex rest).map fun (i, r) => (Instruction.BrIf i, r)
      | "return" => .ok (Instruction.Return, rest)
      | "call" => (parseIndex rest).map fun (i, r) => (Instruction.Call i, r)
      | "drop" => .ok (Instruction.Drop, rest)
      | "select" => (selectTypesParse rest).map fun (st, r) => (Instruction.Select st, r)
      | "local.get" => (parseIndex rest).map fun (i, r) => (Instruction.LocalGet i, r)
      | "i32.const" => (parseI32 rest).map fun (n, r) => (Instruction.I32Const n, r)
      | "i32.add" => .ok (Instruction.I32Add, rest)
      | "i32.load" => (memArgParse 4 rest).map fun (m, r) => (Instruction.I32Load m, r)
      | "i32.store" => (memArgParse 4 rest).map fun (m, r) => (Instruction.I32Store m, r)
      | "i64.load" => (memArgParse 8 rest).map fun (m, r) => (Instruction.I64Load m, r)
      | _ => .error "unknown operator or unexpected token"
  | _ => .error "expected an instruction"

/-! ### The expression parser (`ExpressionParser`, `expr.rs`) -/

/-- A branch hint recorded while parsing (`expr.rs`): the index into the
flat instruction list that the hint applies to, and its value. -/
structure BranchHint where
  instr_index : Nat
  value : Nat
deriving DecidableEq

/-- The states of `if` parsing (`expr.rs`, `enum If`): parsing the
condition clause (holding the not-yet-emitted `if` instruction), parsing
the `then` arm, or parsing the `else` arm. -/
inductive If where
  | Clause (i : Instruction)
  | Then
  | Else

/-- One entry of the expression parser's heap stack (`expr.rs`,
`enum Level`). -/
inductive Level where
  | EndWith (i : Instruction)
  | If (s : If)
  | IfArm
  | BranchHint

/-- The mutable state of `ExpressionParser` (`expr.rs`): the flat
instruction list built so far, the stack of open levels (head = top), and
the branch hints recorded so far.  The optional span storage (disabled by
default) is omitted. -/
structure ExprSt where
  raw_instrs : List Instruction
  stack : List Level
  branch_hints : List BranchHint

/-- The result of `ExpressionParser::paren` (`expr.rs`). -/
inductive Paren where
  | none
  | left
  | right

/-- The source's `ExpressionParser::paren` (`expr.rs`): consume a `(`, or - only when
the level stack is non-empty - a `)`, or nothing. -/
def paren (stack : List Level) (toks : List Tok) : Paren × List Tok :=
  match toks with
  | Tok.lparen :: rest => (Paren.left, rest)
  | _ =>
      match stack with
      | [] => (Paren.none, toks)
      | _ =>
          match toks with
          | Tok.rparen :: rest => (Paren.right, rest)
          | _ => (Paren.none, toks)

/-- The source's `ExpressionParser::handle_if_lparen` (`expr.rs`): the `if` state
machine's reaction to a `(` (already consumed).  In the `Clause` state a
following `then` keyword emits the pending `if` and opens the `then`
arm; in the `Then` state the `(` must be followed by `else`, which emits
an `Else` instruction; in the `Else` state any `(` is the
`too many payloads` error.  Returns whether the `(` was handled here. -/
def handle_if_lparen (st : ExprSt) (toks : List Tok) :
    Except PErr (Bool × ExprSt × List Tok) :=
  match st.stack with
  | Level.If i :: rest =>
      match i with
      | If.Clause if_instr =>
          if toks.head? = some (Tok.kw "then") then
            .ok (true,
              { st with
                raw_instrs := st.raw_instrs ++ [if_instr]
                stack := Level.IfArm :: Level.If If.Then :: rest },
              toks.tail)
          else .ok (false, st, toks)
      | If.Then =>
          if toks.head? = some (Tok.kw "else") then
            .ok (true,
              { st with
                raw_instrs := st.raw_instrs ++ [Instruction.Else none]
                stack := Level.IfArm :: Level.If If.Else :: rest },
              toks.tail)
          else .error "expected keyword `else`"
      | If.Else => .error "unexpected token: too many payloads inside of `(if)`"
  | _ => .ok (false, st, toks)

/-- The source's `ExpressionParser::parse_branch_hint` (`expr.rs`): consume the
`@metadata.code.branch_hint` annotation and its `"\00"`/`"\01"` string,
and record a hint at `raw_instrs.len()` - the index of the *next*
instruction to be pushed. -/
def parse_branch_hint (st : ExprSt) (toks : List Tok) :
    Except PErr (ExprSt × List Tok) :=
  match toks with
  | Tok.annot "metadata.code.branch_hint" :: rest =>
      match rest with
      | Tok.str bytes :: r2 =>
          match bytes with
          | [0] => .ok ({ st with branch_hints :=
              st.branch_hints ++ [{ instr_index := st.raw_instrs.length, value := 0 }] }, r2)
          | [1] => .ok ({ st with branch_hints :=
              st.branch_hints ++ [{ instr_index := st.raw_instrs.length, value := 1 }] }, r2)
          | _ => .error "invalid value for branch hint"
      | _ => .error "expected a string"
  | _ => .error "expected `@metadata.code.branch_hint`"

/-- The source's `Parser::is_empty` as seen by the expression parser: the cursor is
scoped by the enclosing `parens`, so both the end of input and a closing
`)` of the current scope count as empty.  Modelled from the spec
(`parser.rs` is outside the embedded sources). -/
def isEmptyP : List Tok → Bool
  | [] => true
  | Tok.rparen :: _ => true
  | _ => false

/-- Is the top of the stack an `If` level? (the "ease-of-life" check at
the top of `ExpressionParser::parse`). -/
def topIsIf : List Level → Bool
  | Level.If _ :: _ => true
  | _ => false

/-- The main loop of `ExpressionParser::parse` (`expr.rs`), with an
explicit fuel argument for termination (each iteration either consumes a
token or stops, so `toks.length + 1` fuel always suffices).  The loop
runs while input or open levels remain; inside an `if` level every
sub-component must be parenthesised; a `(` is routed through
`handle_if_lparen`, then the branch-hint annotation, then instruction
dispatch (with `block`/`loop`/`try_table` pushing an `end`-emitting
level and `if` pushing the `if` state machine); a `)` pops the top level
and emits its deferred instruction. -/
def parseLoop : Nat → ExprSt → List Tok → Except PErr ExprSt
  | 0, _, _ => .error "out of fuel"
  | Nat.succ fuel, st, toks =>
      if isEmptyP toks && st.stack.isEmpty then .ok st
      else if topIsIf st.stack && !isEmptyP toks && !(toks.head? = some Tok.lparen) then
        .error "expected `(`"
      else
        match paren st.stack toks with
        | (Paren.none, _) => do
            let (i, t2) ← parseInstr toks
            parseLoop fuel { st with raw_instrs := st.raw_instrs ++ [i] } t2
        | (Paren.left, t1) => do
            let (handled, st2, t2) ← handle_if_lparen st t1
            if handled then parseLoop fuel st2 t2
            else if t2.head? = some (Tok.annot "metadata.code.branch_hint") then do
              let (st3, t3) ← parse_branch_hint st2 t2
              parseLoop fuel { st3 with stack := Level.BranchHint :: st3.stack } t3
            else do
              let (i, t3) ← parseInstr t2
              match i.tag with
              | InstrTag.Block | InstrTag.Loop | InstrTag.TryTable =>
                  parseLoop fuel
                    { st with
                      raw_instrs := st.raw_instrs ++ [i]
                      stack := Level.EndWith (Instruction.End none) :: st.stack } t3
              | InstrTag.If =>
                  parseLoop fuel { st with stack := Level.If (If.Clause i) :: st.stack } t3
              | _ =>
                  parseLoop fuel { st with stack := Level.EndWith i :: st.stack } t3
        | (Paren.right, t1) =>
            match st.stack with
            | [] => .error "unreachable: `)` with an empty stack"
            | lvl :: rest =>
                match lvl with
                | Level.EndWith i =>
                    parseLoop fuel { st with raw_instrs := st.raw_instrs ++ [i], stack := rest } t1
                | Level.IfArm => parseLoop fuel { st with stack := rest } t1
                | Level.BranchHint => parseLoop fuel { st with stack := rest } t1
                | Level.If (If.Clause _) => .error "previous `if` had no `then`"
                | Level.If _ =>
                    parseLoop fuel
                      { st with raw_instrs := st.raw_instrs ++ [Instruction.End none], stack := rest } t1

/-- A parsed expression (`expr.rs`, `struct Expression`): the flat
instruction list and the branch hints.  Per the source's documentation,
the implicit `end` instruction terminating an expression is *not*
included in `instrs`; the optional `instr_spans` tracking (disabled by
default) is omitted. -/
structure Expression where
  instrs : List Instruction
  branch_hints : List BranchHint

/-- The `Parse` impl of `Expression` (`expr.rs`): run the expression parser
over the tokens of the expression and package the result. -/
def exprParse (toks : List Tok) : Except PErr Expression :=
  (parseLoop (toks.length + 1) ⟨[], [], []⟩ toks).map fun st =>
    { instrs := st.raw_instrs, branch_hints := st.branch_hints }

/-! ### Concrete inputs used by the end-to-end scenarios -/

/-- The empty block type written by a bare `if`/`block` with no label,
name annotation or type use. -/
def emptyBlockType : BlockType := { label := none, label_name := none, ty := ⟨none, none⟩ }

/-- The token form of the function body
`(@metadata.code.branch_hint "\01") (if (i32.const 0) (then))`
(spec scenario 7). -/
def branchHintIfToks : List Tok :=
  [Tok.lparen, Tok.annot "metadata.code.branch_hint", Tok.str [1], Tok.rparen,
   Tok.lparen, Tok.kw "if",
     Tok.lparen, Tok.kw "i32.const", Tok.int none 0, Tok.rparen,
     Tok.lparen, Tok.kw "then", Tok.rparen,
   Tok.rparen]

/-- The token form of the function body
`(if (i32.const 1) (then nop) (else unreachable))` (spec scenario 4). -/
def foldedIfToks : List Tok :=
  [Tok.lparen, Tok.kw "if",
     Tok.lparen, Tok.kw "i32.const", Tok.int none 1, Tok.rparen,
     Tok.lparen, Tok.kw "then", Tok.kw "nop", Tok.rparen,
     Tok.lparen, Tok.kw "else", Tok.kw "unreachable", Tok.rparen,
   Tok.rparen]

/-- The flat instruction list the parser produces for `foldedIfToks`. -/
def foldedIfInstrs : List Instruction :=
  [Instruction.I32Const 1, Instruction.If emptyBlockType, Instruction.Nop,
   Instruction.Else none, Instruction.Unreachable, Instruction.End none]

/-- Payload-free instruction tokens and their parses, used to exercise
flat (non-parenthesised) instruction sequences. -/
def simpleInstrToks : List (Tok × Instruction) :=
  [(Tok.kw "nop", Instruction.Nop),
   (Tok.kw "unreachable", Instruction.Unreachable),
   (Tok.kw "drop", Instruction.Drop),
   (Tok.kw "return", Instruction.Return),
   (Tok.kw "i32.add", Instruction.I32Add)]

/-- The `(result ...)*` groups of a `select`, rendered back to tokens. -/
def renderGroups (gs : List (List Tok)) : List Tok :=
  (gs.map fun g => Tok.lparen :: Tok.kw "result" :: (g ++ [Tok.rparen])).flatten

/-- Whether a token parses as a (single-token) value type. -/
def parsesAsValType (t : Tok) : Bool :=
  match parseValTypeTok t with
  | .ok _ => true
  | .error _ => false

/-- The value type a token parses to (`ValType.i32` when it does not
parse as a value type). -/
def parsedValTok (t : Tok) : ValType :=
  ((parseValTypeTok t).toOption).getD ValType.i32

end Wast

namespace Wat

/-- Is `b` a UTF-8 continuation byte (`0x80..=0xBF`)? -/
def isCont (b : Nat) : Bool := 0x80 ≤ b && b ≤ 0xBF

/-- UTF-8 validity of a byte sequence, as checked by
`str::from_utf8`: shortest-form sequences only, surrogates and
code points above `U+10FFFF` rejected.  Modelled from the spec (the
check is the Rust standard library's). -/
def utf8Valid : List Nat → Bool
  | [] => true
  | b :: rest =>
      if b ≤ 0x7F then utf8Valid rest
      else if 0xC2 ≤ b && b ≤ 0xDF then
        match rest with
        | c1 :: r => isCont c1 && utf8Valid r
        | [] => false
      else if b = 0xE0 then
        match rest with
        | c1 :: c2 :: r => (0xA0 ≤ c1 && c1 ≤ 0xBF) && isCont c2 && utf8Valid r
        | _ => false
      else if (0xE1 ≤ b && b ≤ 0xEC) || b = 0xEE || b = 0xEF then
        match rest with
        | c1 :: c2 :: r => isCont c1 && isCont c2 && utf8Valid r
        | _ => false
      else if b = 0xED then
        match rest with
        | c1 :: c2 :: r => (0x80 ≤ c1 && c1 ≤ 0x9F) && isCont c2 && utf8Valid r
        | _ => false
      else if b = 0xF0 then
        match rest with
        | c1 :: c2 :: c3 :: r => (0x90 ≤ c1 && c1 ≤ 0xBF) && isCont c2 && isCont c3 && utf8Valid r
        | _ => false
      else if 0xF1 ≤ b && b ≤ 0xF3 then
        match rest with
        | c1 :: c2 :: c3 :: r => isCont c1 && isCont c2 && isCont c3 && utf8Valid r
        | _ => false
      else if b = 0xF4 then
        match rest with
        | c1 :: c2 :: c3 :: r => (0x80 ≤ c1 && c1 ≤ 0x8F) && isCont c2 && isCont c3 && utf8Valid r
        | _ => false
      else false

/-- The magic bytes `\0asm` that introduce a binary module. -/
def wasmMagic : List Nat := [0x00, 0x61, 0x73, 0x6D]

/-- The source's `Parser::parse_bytes` (`crates/wat/src/lib.rs`): bytes starting with
`\0asm` are returned unchanged (borrowed) without further inspection;
anything else is interpreted as UTF-8 WAT text, handed to the text
pipeline (abstracted here as the `parseStr` argument), or rejected with
the fixed message when it is not valid UTF-8. -/
def parse_bytes (parseStr : List Nat → Except String (List Nat))
    (bytes : List Nat) : Except String (List Nat) :=
  if wasmMagic.isPrefixOf bytes then .ok bytes
  else if utf8Valid bytes then parseStr bytes
  else .error "input bytes aren't valid utf-8"

end Wat

open Wast

/-! ### Helper lemmas -/

/-- Binding an `ok` value in the `Except` monad reduces to the
continuation. -/
theorem except_bind_ok {α β : Type} (a : α) (f : α → Except PErr β) :
    (do let x ← Except.ok a; f x) = f a := rfl

/-- Binding an `error` value in the `Except` monad short-circuits. -/
theorem except_bind_error {α β : Type} (e : PErr) (f : α → Except PErr β) :
    (do let x ← (Except.error e : Except PErr α); f x) = Except.error e := rfl

/-- A LEB128 encoding is never empty. -/
theorem uleb128Aux_length_pos (f n : Nat) : 1 ≤ (uleb128Aux f n).length := by
  cases f with
  | zero => simp [uleb128Aux]
  | succ f =>
      simp only [uleb128Aux]
      split <;> simp

/-- Parsing value types up to a closing `)` returns exactly the types
before the `)`. -/
theorem untilRparen_append (g rest : List Tok)
    (h : ∀ t ∈ g, parsesAsValType t = true) :
    parseValTypesUntilRparen (g ++ Tok.rparen :: rest) = .ok (g.map parsedValTok, rest) := by
  induction g with
  | nil => rfl
  | cons t g ih =>
      have ht : parsesAsValType t = true := h t (by simp)
      have hrest : ∀ x ∈ g, parsesAsValType x = true := fun x hx => h x (by simp [hx])
      obtain ⟨v, hv⟩ : ∃ v, parseValTypeTok t = .ok v := by
        unfold parsesAsValType at ht
        cases hx : parseValTypeTok t with
        | ok v => exact ⟨v, rfl⟩
        | error e => rw [hx] at ht; simp at ht
      cases t <;>
        simp_all [parseValTypesUntilRparen, parsedValTok, Except.toOption, ih hrest, hv,
          parseValTypeTok, Except.bind, except_bind_ok]

/-- One iteration of the `select` result-group loop on a rendered
group. -/
theorem selectLoop_succ_group (f : Nat) (y : List Tok) :
    selectLoop (Nat.succ f) (Tok.lparen :: Tok.kw "result" :: y) =
      (parseValTypesUntilRparen y).bind fun p =>
        (selectLoop f p.2).bind fun q => .ok (true, p.1 ++ q.2.1, q.2.2) := by
  rfl

/-- The `select` result-group loop consumes exactly the rendered groups
and concatenates their types. -/
theorem selectLoop_renders :
    ∀ (gs : List (List Tok)) (rest : List Tok) (fuel : Nat),
      (∀ g ∈ gs, ∀ t ∈ g, parsesAsValType t = true) →
      rest.get? 1 ≠ some (Tok.kw "result") →
      gs.length + 1 ≤ fuel →
      selectLoop fuel (renderGroups gs ++ rest) =
        .ok (!gs.isEmpty, gs.flatten.map parsedValTok, rest) := by
  intro gs
  induction gs with
  | nil =>
      intro rest fuel _ hrest hf
      match fuel, hf with
      | Nat.succ f, _ =>
          have h0 : renderGroups ([] : List (List Tok)) ++ rest = rest := rfl
          rw [h0]
          unfold selectLoop
          rw [if_neg hrest]
          simp
  | cons g gs ih =>
      intro rest fuel hall hrest hf
      match fuel, hf with
      | Nat.succ f, hf =>
          have hg : ∀ t ∈ g, parsesAsValType t = true := hall g (by simp)
          have hgs : ∀ g2 ∈ gs, ∀ t ∈ g2, parsesAsValType t = true :=
            fun g2 h2 => hall g2 (by simp [h2])
          have hf2 : gs.length + 1 ≤ f := by
            simp only [List.length_cons] at hf; omega
          have hren : renderGroups (g :: gs) ++ rest =
              Tok.lparen :: Tok.kw "result" :: (g ++ Tok.rparen :: (renderGroups gs ++ rest)) := by
            simp [renderGroups]
          rw [hren, selectLoop_succ_group, untilRparen_append g _ hg]
          simp only [Except.bind]
          rw [ih rest f hgs hrest hf2]
          simp

/-- Each rendered `select` group contributes at least one token. -/
theorem renderGroups_length_le (gs : List (List Tok)) :
    gs.length ≤ (renderGroups gs).length := by
  induction gs with
  | nil => simp [renderGroups]
  | cons g gs ih => simp [renderGroups] at ih ⊢; omega

/-- One iteration of the expression-parser loop on a flat payload-free
instruction token. -/
theorem parseLoop_flat_step (f : Nat) (acc : List Instruction) (hints : List BranchHint)
    (t : Tok) (i : Instruction) (rest : List Tok) (hp : (t, i) ∈ simpleInstrToks) :
    parseLoop (Nat.succ f) ⟨acc, [], hints⟩ (t :: rest) =
      parseLoop f ⟨acc ++ [i], [], hints⟩ rest := by
  simp [simpleInstrToks] at hp
  rcases hp with ⟨ht, hi⟩ | ⟨ht, hi⟩ | ⟨ht, hi⟩ | ⟨ht, hi⟩ | ⟨ht, hi⟩ <;> subst ht <;> subst hi <;>
    rfl

/-- The expression-parser loop on a flat sequence of payload-free
instruction tokens appends exactly the corresponding instructions. -/
theorem parseLoop_flat :
    ∀ (ps : List (Tok × Instruction)) (fuel : Nat) (acc : List Instruction)
      (hints : List BranchHint),
      (∀ p ∈ ps, p ∈ simpleInstrToks) → ps.length + 1 ≤ fuel →
      parseLoop fuel ⟨acc, [], hints⟩ (ps.map Prod.fst) =
        .ok ⟨acc ++ ps.map Prod.snd, [], hints⟩ := by
  intro ps
  induction ps with
  | nil =>
      intro fuel acc hints _ hf
      match fuel, hf with
      | Nat.succ f, _ => simp [parseLoop, isEmptyP]
  | cons p ps ih =>
      intro fuel acc hints hall hf
      obtain ⟨t, i⟩ := p
      have hp : (t, i) ∈ simpleInstrToks := hall _ (by simp)
      have hrest : ∀ q ∈ ps, q ∈ simpleInstrToks := fun q hq => hall q (by simp [hq])
      match fuel, hf with
      | Nat.succ f, hf =>
          have hf2 : ps.length + 1 ≤ f := by
            simp only [List.length_cons] at hf; omega
          simp only [List.map_cons]
          rw [parseLoop_flat_step f acc hints t i (ps.map Prod.fst) hp,
            ih f (acc ++ [i]) hints hrest hf2]
          simp

/-! ### The claims -/

/-- C1 (counterexample): for the body
`(@metadata.code.branch_hint "\01") (if (i32.const 0) (then))` the
recorded branch hint has instruction index 0, not index 1 as the claim
states: the hint is recorded at `raw_instrs.len()` while the folded
condition clause `i32.const 0` is emitted before the `if`. -/
theorem c1_hint_index_counterexample :
    exprParse branchHintIfToks =
      .ok { instrs := [Instruction.I32Const 0, Instruction.If emptyBlockType,
                       Instruction.End none],
            branch_hints := [{ instr_index := 0, value := 1 }] }
    ∧ ({ instr_index := 0, value := 1 } : BranchHint) ≠ { instr_index := 1, value := 1 } :=
  ⟨rfl, by decide⟩

/-- C1 (amended): for the body
`(@metadata.code.branch_hint "\01") (if (i32.const 0) (then))` the
parsed expression carries exactly one branch hint with value 1, recorded
at instruction index 0 - the index of the next instruction to be emitted
after the annotation, which is the folded condition clause
`i32.const 0`, not the `if` (emitted at index 1). -/
theorem c1_branch_hint_amended :
    exprParse branchHintIfToks =
      .ok { instrs := [Instruction.I32Const 0, Instruction.If emptyBlockType,
                       Instruction.End none],
            branch_hints := [{ instr_index := 0, value := 1 }] } := rfl

/-- C2 (counterexample): the expression `nop` parses to
`instrs = [nop]`; no implicit `End` is appended to `instrs` when the
parse terminates, so `instrs` does not end with an `End`. -/
theorem c2_no_end_counterexample :
    exprParse [Tok.kw "nop"] = .ok { instrs := [Instruction.Nop], branch_hints := [] }
    ∧ Instruction.Nop ≠ Instruction.End none :=
  ⟨rfl, fun h => absurd (congrArg Instruction.tag h) (by decide)⟩

/-- C2 (amended): when all stack levels have been popped and parsing
terminates, `Expression.instrs` contains exactly the instructions that
were pushed - the implicit terminating `End` of the expression is *not*
included in `instrs` (it is left implicit, as the source documentation
of `Expression` states): a flat sequence of payload-free instruction
tokens parses to exactly the corresponding instruction list. -/
theorem c2_flat_instrs_amended :
    ∀ (ps : List (Tok × Instruction)), (∀ p ∈ ps, p ∈ simpleInstrToks) →
      exprParse (ps.map Prod.fst) = .ok { instrs := ps.map Prod.snd, branch_hints := [] } := by
  intro ps hall
  unfold exprParse
  rw [parseLoop_flat ps ((ps.map Prod.fst).length + 1) [] [] hall (by simp)]
  rfl

/-- C2 (witness): the amended claim at the flat body `nop drop`. -/
theorem c2_flat_instrs_witness :
    exprParse [Tok.kw "nop", Tok.kw "drop"] =
      .ok { instrs := [Instruction.Nop, Instruction.Drop], branch_hints := [] } := by
  have h := c2_flat_instrs_amended
      [(Tok.kw "nop", Instruction.Nop), (Tok.kw "drop", Instruction.Drop)]
      (by
        intro p hp
        simp only [List.mem_cons, List.not_mem_nil, or_false] at hp
        rcases hp with h | h <;> subst h <;> simp [simpleInstrToks])
  simpa using h

/-- C3 (counterexample): memory-argument suffixes are *not*
order-insensitive.  With natural alignment 4, `offset=8 align=2` parses
to offset 8 and alignment 2 with everything consumed, while
`align=2 offset=8` consumes only the `align` keyword and yields offset 0
(the `offset=8` token is left over), a different `MemArg`. -/
theorem c3_order_counterexample :
    memArgParse 4 [Tok.kw "offset=8", Tok.kw "align=2"] =
      .ok ({ align := 2, offset := 8, memory := Index.num 0 }, [])
    ∧ memArgParse 4 [Tok.kw "align=2", Tok.kw "offset=8"] =
      .ok ({ align := 2, offset := 0, memory := Index.num 0 }, [Tok.kw "offset=8"])
    ∧ ({ align := 2, offset := 8, memory := Index.num 0 } : MemArg) ≠
      { align := 2, offset := 0, memory := Index.num 0 } :=
  ⟨rfl, rfl, by decide⟩

/-- C3 (amended): `MemArg::parse` reads the `offset=` suffix and then
the `align=` suffix in that fixed order.  `(i32.load offset=8 align=2)`
parses to a single `i32.load` with offset 8 and alignment 2, while
`(i32.load align=2 offset=8)` fails: the `align` field is consumed but
the trailing `offset=8` keyword is not part of the memory argument and
is then rejected as an unknown operator. -/
theorem c3_memarg_order_amended :
    exprParse [Tok.lparen, Tok.kw "i32.load", Tok.kw "offset=8", Tok.kw "align=2",
               Tok.rparen] =
      .ok { instrs := [Instruction.I32Load { align := 2, offset := 8, memory := Index.num 0 }],
            branch_hints := [] }
    ∧ exprParse [Tok.lparen, Tok.kw "i32.load", Tok.kw "align=2", Tok.kw "offset=8",
                 Tok.rparen] =
      .error "unknown operator or unexpected token" :=
  ⟨rfl, rfl⟩

/-- C4: in the folded-`if` state machine, a `(` seen in state `Then`
must be followed by the keyword `else` - in which case an `Else`
instruction is emitted and the state becomes `Else` (with an `IfArm`
level opened for the arm) - and otherwise errs; a `(` seen in state
`Else` is the `too many payloads` error. -/
theorem c4_if_state_machine :
    ∀ (st : ExprSt) (rest : List Level) (toks : List Tok),
      (st.stack = Level.If If.Then :: rest →
        ((toks.head? = some (Tok.kw "else") →
            handle_if_lparen st toks =
              .ok (true,
                { st with raw_instrs := st.raw_instrs ++ [Instruction.Else none],
                          stack := Level.IfArm :: Level.If If.Else :: rest },
                toks.tail))
         ∧ (toks.head? ≠ some (Tok.kw "else") →
             handle_if_lparen st toks = .error "expected keyword `else`")))
      ∧ (st.stack = Level.If If.Else :: rest →
          handle_if_lparen st toks =
            .error "unexpected token: too many payloads inside of `(if)`") := by
  intro st rest toks
  constructor
  · intro hs
    constructor
    · intro hh
      simp [handle_if_lparen, hs, hh]
    · intro hh
      simp [handle_if_lparen, hs, hh]
  · intro hs
    simp [handle_if_lparen, hs]

/-- C4 (witness): the state machine at concrete states - `(else`
emits `Else` and moves to state `Else`; a further `(` in state `Else`
errors with the `too many payloads` message. -/
theorem c4_if_state_machine_witness :
    handle_if_lparen ⟨[], [Level.If If.Then], []⟩ (Tok.kw "else" :: [])
      = .ok (true, ⟨[Instruction.Else none], [Level.IfArm, Level.If If.Else], []⟩, [])
    ∧ handle_if_lparen ⟨[], [Level.If If.Else], []⟩ [Tok.lparen]
      = .error "unexpected token: too many payloads inside of `(if)`" := by
  constructor
  · have h := ((c4_if_state_machine ⟨[], [Level.If If.Then], []⟩ [] (Tok.kw "else" :: [])).1
      rfl).1 rfl
    simpa using h
  · exact (c4_if_state_machine ⟨[], [Level.If If.Else], []⟩ [] [Tok.lparen]).2 rfl

/-- C5 (counterexample): parsing the body
`(if (i32.const 1) (then nop) (else unreachable))` produces the
six-instruction flat list `i32.const 1; if; nop; else; unreachable; end`
with a single trailing `end` - not the seven-instruction list with two
trailing `end`s that the claim states (the function body's final
implicit `end` is not included in `Expression.instrs`). -/
theorem c5_flat_list_counterexample :
    exprParse foldedIfToks = .ok { instrs := foldedIfInstrs, branch_hints := [] }
    ∧ foldedIfInstrs ≠
      [Instruction.I32Const 1, Instruction.If emptyBlockType, Instruction.Nop,
       Instruction.Else none, Instruction.Unreachable, Instruction.End none,
       Instruction.End none] :=
  ⟨rfl, fun h => by
    have hl := congrArg List.length h
    simp [foldedIfInstrs] at hl⟩

/-- C5 (amended): parsing `(if (i32.const 1) (then nop) (else
unreachable))` produces the flat instruction list
`i32.const 1; if; nop; else; unreachable; end` - one `end` closing the
`if`; the expression's own implicit terminating `end` is not included in
`Expression.instrs`. -/
theorem c5_flat_list_amended :
    exprParse foldedIfToks = .ok { instrs := foldedIfInstrs, branch_hints := [] } := rfl

set_option maxRecDepth 40000 in
/-- C6: `needs_data_count` returns `true` exactly for the instructions
`memory.init`, `data.drop`, `array.new_data` and `array.init_data`
(whose rows in the opcode table are listed alongside). -/
theorem c6_needs_data_count_iff :
    (∀ i : Instruction, i.needs_data_count = true ↔
      (i.tag = InstrTag.MemoryInit ∨ i.tag = InstrTag.DataDrop ∨
       i.tag = InstrTag.ArrayNewData ∨ i.tag = InstrTag.ArrayInitData))
    ∧ ("MemoryInit", "memory.init", [0xfc, 0x08]) ∈ instrTable
    ∧ ("DataDrop", "data.drop", [0xfc, 0x09]) ∈ instrTable
    ∧ ("ArrayNewData", "array.new_data", [0xfb, 0x09]) ∈ instrTable
    ∧ ("ArrayInitData", "array.init_data", [0xfb, 0x12]) ∈ instrTable := by
  refine ⟨fun i => ?_, by decide, by decide, by decide, by decide⟩
  cases h : i.tag <;> simp [Instruction.needs_data_count, h]

/-- C7: an explicit `align=N` with `N` not a power of two (including 0)
is the alignment parse error; an omitted `align=` yields the
instruction's natural default alignment and an omitted `offset=` yields
offset 0; every natural alignment in the opcode table is 1, 2, 4, 8 or
16. -/
theorem c7_memarg_align_rules :
    (∀ (d : Nat) (toks : List Tok) (m : Option Index) (t1 : List Tok) (off : Option Nat)
       (t2 : List Tok) (n : Nat) (t3 : List Tok),
       parseOptIndex toks = .ok (m, t1) →
       parse_field "offset" t1 = .ok (off, t2) →
       parse_field "align" t2 = .ok (some n, t3) →
       is_power_of_two n = false →
       memArgParse d toks = .error "alignment must be a power of two")
    ∧ (∀ (d : Nat) (toks : List Tok) (m : Option Index) (t1 : List Tok) (off : Option Nat)
        (t2 : List Tok) (t3 : List Tok),
        parseOptIndex toks = .ok (m, t1) →
        parse_field "offset" t1 = .ok (off, t2) →
        parse_field "align" t2 = .ok (none, t3) →
        memArgParse d toks =
          .ok ({ align := d, offset := off.getD 0, memory := m.getD (Index.num 0) }, t3))
    ∧ (∀ e ∈ memArgDefaults, e.2 = 1 ∨ e.2 = 2 ∨ e.2 = 4 ∨ e.2 = 8 ∨ e.2 = 16) := by
  refine ⟨?_, ?_, by decide⟩
  · intro d toks m t1 off t2 n t3 h1 h2 h3 h4
    simp [memArgParse, h1, h2, h3, h4, except_bind_ok]
  · intro d toks m t1 off t2 t3 h1 h2 h3
    simp [memArgParse, h1, h2, h3, except_bind_ok]

/-- C7 (witness): `align=3` is rejected; with no suffixes the memory
argument is memory 0, offset 0, and the natural alignment (here 8). -/
theorem c7_memarg_align_rules_witness :
    memArgParse 4 [Tok.kw "align=3"] = .error "alignment must be a power of two"
    ∧ memArgParse 8 [] = .ok ({ align := 8, offset := 0, memory := Index.num 0 }, []) := by
  constructor
  · exact c7_memarg_align_rules.1 4 [Tok.kw "align=3"] none [Tok.kw "align=3"] none
      [Tok.kw "align=3"] 3 [] rfl rfl rfl rfl
  · have h := c7_memarg_align_rules.2.1 8 [] none [] none [] [] rfl rfl rfl
    simpa using h

/-- C8: the optional `(result T*)` list of `select` may appear any
number of times; with at least one group the parsed `SelectTypes` holds
`some` of the concatenation of all groups' value types in source order
(possibly empty), and with no group it holds `none`. -/
theorem c8_select_results_concat :
    ∀ (gs : List (List Tok)) (rest : List Tok),
      (∀ g ∈ gs, ∀ t ∈ g, parsesAsValType t = true) →
      rest.get? 1 ≠ some (Tok.kw "result") →
      selectTypesParse (renderGroups gs ++ rest) =
        .ok ({ tys := if gs.isEmpty then none else some (gs.flatten.map parsedValTok) }, rest) := by
  intro gs rest hall hrest
  have hlen : gs.length + 1 ≤ (renderGroups gs ++ rest).length + 1 := by
    have h := renderGroups_length_le gs
    simp
    omega
  unfold selectTypesParse
  rw [selectLoop_renders gs rest _ hall hrest hlen]
  cases gs <;> simp [except_bind_ok]

/-- C8 (witness): `select (result i32) (result)` - two groups, one of
them empty - yields `some [i32]`; a bare `select` yields `none`. -/
theorem c8_select_results_concat_witness :
    selectTypesParse [Tok.lparen, Tok.kw "result", Tok.kw "i32", Tok.rparen,
                      Tok.lparen, Tok.kw "result", Tok.rparen] =
      .ok ({ tys := some [ValType.i32] }, [])
    ∧ selectTypesParse [] = .ok ({ tys := none }, []) := by
  constructor
  · have h := c8_select_results_concat [[Tok.kw "i32"], []] [] (by decide) (by decide)
    simpa [renderGroups, parsedValTok, parseValTypeTok, Except.toOption] using h
  · have h := c8_select_results_concat [] [] (by decide) (by decide)
    simpa [renderGroups] using h

set_option maxRecDepth 40000 in
/-- C9: every opcode-table row whose binary descriptor starts with the
`0xFD` prefix has exactly the two-token `0xfd, sub` shape, so the macro
encodes it as the byte `0xFD` followed by the sub-opcode as a LEB128
`u32`; every relaxed-SIMD operator of the `wasmparser` table appears in
the opcode table with a `0xFD` sub-opcode of at least `0x100`; and the
LEB128 encoding of any sub-opcode that large is never a single byte. -/
theorem c9_fd_prefix_leb128 :
    (∀ e ∈ instrTable, e.2.2.head? = some 0xfd →
       e.2.2.length = 2 ∧ encodeOpcode e.2.2 = 0xfd :: uleb128u32 (e.2.2.getD 1 0))
    ∧ relaxedSimdOps.all (fun v => instrTable.any fun e =>
        e.1 = v && e.2.2.head? = some 0xfd && decide (0x100 ≤ e.2.2.getD 1 0)) = true
    ∧ (∀ s : Nat, 0x100 ≤ s → 2 ≤ (uleb128u32 s).length) := by
  refine ⟨by decide, by decide, ?_⟩
  intro s hs
  have h := uleb128Aux_length_pos s (s / 0x80)
  simp only [uleb128u32, uleb128Aux]
  rw [if_neg (by omega)]
  simp
  omega

set_option maxRecDepth 40000 in
/-- C9 (witness): the relaxed-SIMD row `i8x16.relaxed_swizzle`
(`[0xfd, 0x100]`) has the two-token shape, encodes as `0xFD` plus the
LEB128 of `0x100`, and that LEB128 is at least two bytes. -/
theorem c9_fd_prefix_leb128_witness :
    (([0xfd, 0x100] : List Nat).length = 2
      ∧ encodeOpcode [0xfd, 0x100] = 0xfd :: uleb128u32 0x100)
    ∧ 2 ≤ (uleb128u32 0x100).length :=
  ⟨c9_fd_prefix_leb128.1 ("I8x16RelaxedSwizzle", "i8x16.relaxed_swizzle", [0xfd, 0x100])
      (by decide) rfl,
   c9_fd_prefix_leb128.2.2 0x100 (by decide)⟩

/-- C10: `parse_bytes` returns any input starting with `\0asm`
unchanged and without error, regardless of the remaining bytes; any
other input is handed to the WAT text pipeline when it is valid UTF-8
and rejected with the fixed message when it is not. -/
theorem c10_parse_bytes_magic :
    (∀ (f : List Nat → Except String (List Nat)) (bytes : List Nat),
       Wat.wasmMagic.isPrefixOf bytes = true → Wat.parse_bytes f bytes = .ok bytes)
    ∧ (∀ (f : List Nat → Except String (List Nat)) (bytes : List Nat),
        Wat.wasmMagic.isPrefixOf bytes = false → Wat.utf8Valid bytes = true →
        Wat.parse_bytes f bytes = f bytes)
    ∧ (∀ (f : List Nat → Except String (List Nat)) (bytes : List Nat),
        Wat.wasmMagic.isPrefixOf bytes = false → Wat.utf8Valid bytes = false →
        Wat.parse_bytes f bytes = .error "input bytes aren't valid utf-8") := by
  refine ⟨?_, ?_, ?_⟩
  · intro f bytes h
    simp [Wat.parse_bytes, h]
  · intro f bytes h1 h2
    simp [Wat.parse_bytes, h1, h2]
  · intro f bytes h1 h2
    simp [Wat.parse_bytes, h1, h2]

/-- C10 (witness): `\0asm` followed by the invalid byte `0xFF` is
returned unchanged; the bare byte `0xFF` (not valid UTF-8) is rejected
with the fixed message. -/
theorem c10_parse_bytes_magic_witness :
    Wat.parse_bytes (fun _ => .error "x") [0x00, 0x61, 0x73, 0x6D, 0xFF] =
      .ok [0x00, 0x61, 0x73, 0x6D, 0xFF]
    ∧ Wat.parse_bytes (fun _ => .error "x") [0xFF] =
      .error "input bytes aren't valid utf-8" :=
  ⟨c10_parse_bytes_magic.1 _ _ (by decide),
   c10_parse_bytes_magic.2.2 _ _ (by decide) (by decide)⟩
